import Mathlib

/-!
The table controller of web_konstructive (`server/controllers/dataController.js`).

A shallow embedding of the six request handlers of the controller and of the
statements they pass to `pool.query`.

Conventions of the embedding.

* A JavaScript object (a result row, a JSON request body) is the list of its
  entries in `Object.keys` order.
* `pool.query` is a state-passing capability: handed the current database
  state and a statement it yields a reply (a result or a rejection) and the
  next state.  Nothing is assumed about it, so every database behaviour,
  races between the statements of one handler included, is covered.
* Every handler returns its HTTP response together with the list of the
  statements it handed to `pool.query`, in call order.
* Database cells and bound parameters are integers.  `page` and `limit` of
  the query string are either absent or a decimal literal with digits before
  the point (`3`, `-3`, `2.5`), given by the rational number it denotes.  A
  JavaScript number is a double: `toDouble` rounds the exact value of a
  literal or of an arithmetic operation to the nearest double, ties to even.
  The exponent range is not bounded (no overflow to an infinity, no
  subnormal numbers), and a number is printed in positional notation, which
  is what JavaScript does for magnitudes below `1e21` (and above `1e-6`, when
  the number is not an integer).
-/

namespace WebKonstructive

/-! ## Values, rows, statements -/

/-- A scalar value: a database cell, a JSON field of a request body, or a
bound parameter of a statement. -/
inductive Value where
  | null
  | bool (b : Bool)
  | num (n : Int)
  | str (s : String)
  deriving DecidableEq, Repr

/-- A JavaScript object with scalar fields, as the list of its entries in
`Object.keys` order. -/
abbrev Row := List (String × Value)

/-- The result of `Object.keys(row)`. -/
def keys (row : Row) : List String := row.map Prod.fst

/-- The result of `Object.values(row)`. -/
def values (row : Row) : List Value := row.map Prod.snd

/-- Property access `row.name`: `none` stands for `undefined`. -/
def field (row : Row) (name : String) : Option Value := row.lookup name

/-- One call `pool.query(sql, params)`; a call without a parameter array has
`params = []`. -/
structure Stmt where
  sql : String
  params : List Value
  deriving DecidableEq, Repr

/-- What a resolved `pool.query` hands back in the first slot of its result:
the row array of a `SELECT`, or the header of an `INSERT`/`UPDATE`/`DELETE`
with its `affectedRows` and `insertId`. -/
structure QResult where
  rows : List Row
  affectedRows : Nat
  insertId : Nat
  deriving DecidableEq, Repr

/-- The execution capability behind `pool.query`: `Except.error` is a rejected
promise. -/
structure Pool (σ : Type) where
  query : σ → Stmt → Except String QResult × σ

/-! ## Responses -/

/-- The JSON bodies the handlers send. -/
inductive Body where
  | error (error : String)
  | rows (rows : List Row)
  | page (data : List Row) (total : Option Value) (page : Int) (limit : Int)
      (pages : Option Int)
  | row (row : Row)
  | inserted (message : String) (insertId : Nat)
  | deleted (message : String) (deleted : Row)
  deriving DecidableEq, Repr

/-- An HTTP response: status code and JSON body. -/
structure Response where
  status : Nat
  body : Body
  deriving DecidableEq, Repr

/-- What one handler invocation amounts to: the response, the statements
passed to `pool.query` in call order, and the database state it leaves. -/
structure Outcome (σ : Type) where
  response : Response
  log : List Stmt
  final : σ

/-! ## JavaScript string and number helpers -/

/-- The code points `String.prototype.trim` strips (WhiteSpace and
LineTerminator of ECMAScript). -/
def isWhiteSpace (c : Char) : Bool :=
  c.toNat = 0x09 || c.toNat = 0x0A || c.toNat = 0x0B || c.toNat = 0x0C ||
  c.toNat = 0x0D || c.toNat = 0x20 || c.toNat = 0xA0 || c.toNat = 0x1680 ||
  (0x2000 ≤ c.toNat && c.toNat ≤ 0x200A) || c.toNat = 0x2028 ||
  c.toNat = 0x2029 || c.toNat = 0x202F || c.toNat = 0x205F ||
  c.toNat = 0x3000 || c.toNat = 0xFEFF

/-- The JavaScript `s.trim()`: leading and trailing white space removed. -/
def trim (s : String) : String :=
  ⟨((s.data.dropWhile isWhiteSpace).reverse.dropWhile isWhiteSpace).reverse⟩

/-- The JavaScript `xs.join(sep)` on an array of strings. -/
def arrayJoin (sep : String) : List String → String
  | [] => ""
  | [x] => x
  | x :: y :: rest => x ++ (sep ++ arrayJoin sep (y :: rest))

/-- The number of binary digits of `n`, computed with `fuel` halvings at
most. -/
def bitLength : Nat → Nat → Nat
  | 0, _ => 0
  | fuel + 1, n => if n = 0 then 0 else bitLength fuel (n / 2) + 1

/-- The exponent of the highest power of two that is at most `n` (0 at 0). -/
def floorLog2 (n : Nat) : Nat := bitLength n n - 1

/-- The power of two with an integer exponent. -/
def pow2 (e : Int) : ℚ := ((2 ^ e.toNat : Nat) : ℚ) / ((2 ^ (-e).toNat : Nat) : ℚ)

/-- The binary exponent of a positive rational `q`: the `k` with
`2^k ≤ q < 2^(k+1)`. -/
def binade (q : ℚ) : Int :=
  let e0 : Int := (floorLog2 q.num.natAbs : Int) - (floorLog2 q.den : Int)
  if pow2 e0 ≤ q then e0 else e0 - 1

/-- The integer nearest to `x`, the even one of the two when `x` lies half way. -/
def roundHalfEven (x : ℚ) : Int :=
  let f := ⌊x⌋
  if x - f < 1 / 2 then f
  else if 1 / 2 < x - f then f + 1
  else if f % 2 = 0 then f else f + 1

/-- The JavaScript number for the exact value `q`: the nearest value with a
significand of 53 binary digits, ties to even.  It is what a numeric literal
denotes (`ToNumber` of a query-string value) and what `-`, `*` and `/` return
for the exact result `q`. -/
def toDouble (q : ℚ) : ℚ :=
  if q = 0 then 0
  else
    let a := if q < 0 then -q else q
    let e := binade a - 52
    let m := roundHalfEven (a / pow2 e)
    if q < 0 then -((m : ℚ) * pow2 e) else (m : ℚ) * pow2 e

/-- The JavaScript `parseInt(x)` at a decimal literal, and at a number (which
is first printed as one): the digits before the decimal point, that is, `x`
truncated towards zero, as the number these digits denote. -/
def parseInt (x : ℚ) : Int := ⌊toDouble (((if 0 ≤ x then ⌊x⌋ else ⌈x⌉ : Int)) : ℚ)⌋

/-- Truthiness of a JavaScript value (`none` is `undefined`). -/
def truthy : Option Value → Bool
  | none => false
  | some .null => false
  | some (.bool b) => b
  | some (.num n) => n ≠ 0
  | some (.str s) => s ≠ ""

/-- How a template literal prints a value (`none` is `undefined`). -/
def templateString : Option Value → String
  | none => "undefined"
  | some .null => "null"
  | some (.bool true) => "true"
  | some (.bool false) => "false"
  | some (.num n) => toString n
  | some (.str s) => s

/-- The expression `process.env.DB_NAME || 'database_name'`. -/
def dbName (env : Option String) : String :=
  match env with
  | some name => if name = "" then "database_name" else name
  | none => "database_name"

/-- The message of the generic 500 answer. -/
def serverError : String := "Ошибка сервера"

/-! ## `getTableData` -/

/-- The request of `getTableData`: `req.params.tableName` and the three keys
read from `req.query` (`none`: the key is absent).  `search` is a string and
`page`, `limit` are decimal literals with digits before the point, given by
the rational numbers they denote; other strings, and a repeated or bracketed
key, which Express hands over as an array or an object, are outside this
type. -/
structure GetReq where
  tableName : String
  search : Option String
  page : Option ℚ
  limit : Option ℚ
  deriving DecidableEq, Repr

/-- The condition `search && search.trim()`. -/
def searching (search : Option String) : Bool :=
  match search with
  | none => false
  | some s => s ≠ "" && trim s ≠ ""

/-- Lines 73-108: the row query `query` with `queryParams`. -/
def rowQuery (tableName : String) (columns : List String) (search : Option String)
    (limit offset : ℚ) : Stmt :=
  let query := "SELECT * FROM `" ++ tableName ++ "`"
  let queryParams : List Value := []
  let built : String × List Value :=
    if searching search then
      let searchValue := trim (search.getD "")
      let searchConditions :=
        (columns.map fun col =>
          if col = "" then none else some ("`" ++ col ++ "` LIKE ?")).filterMap id
      if searchConditions.length > 0 then
        (query ++ (" WHERE " ++ arrayJoin " OR " searchConditions),
         queryParams ++ searchConditions.map fun _ => Value.str ("%" ++ searchValue ++ "%"))
      else (query, queryParams)
    else (query, queryParams)
  ⟨built.1 ++ " LIMIT ? OFFSET ?",
   built.2 ++ [Value.num (parseInt limit), Value.num (parseInt offset)]⟩

/-- Lines 111-135: the counting query `countQuery` with `countParams`. -/
def countQuery (tableName : String) (columns : List String) (search : Option String) :
    Stmt :=
  let countQuery := "SELECT COUNT(*) as total FROM `" ++ tableName ++ "`"
  let countParams : List Value := []
  if searching search then
    let searchValue := trim (search.getD "")
    let searchConditions :=
      (columns.map fun col =>
        if col = "" then none else some ("`" ++ col ++ "` LIKE ?")).filterMap id
    if searchConditions.length > 0 then
      ⟨countQuery ++ (" WHERE " ++ arrayJoin " OR " searchConditions),
       countParams ++ searchConditions.map fun _ => Value.str ("%" ++ searchValue ++ "%")⟩
    else ⟨countQuery, countParams⟩
  else ⟨countQuery, countParams⟩

/-- The JavaScript `Number(v)` on the integer fragment (`none` is `NaN`).  A
string counts when, trimmed, it is empty or an optionally signed run of decimal
digits; the other numeric literals of JavaScript (fractions, exponents, radix
prefixes, `Infinity`) are not integers and are read as `NaN` here. -/
def toNumber : Option Value → Option Int
  | none => none
  | some .null => some 0
  | some (.bool b) => some (if b then 1 else 0)
  | some (.num n) => some n
  | some (.str s) =>
    let digits (cs : List Char) : Option Int :=
      if cs ≠ [] ∧ cs.all Char.isDigit = true then
        some (cs.foldl (fun acc c => 10 * acc + ((c.toNat : Int) - 48)) 0)
      else none
    match (trim s).data with
    | [] => some 0
    | c :: cs =>
      if c = '-' then (digits cs).map fun n => -n
      else if c = '+' then digits cs
      else digits (c :: cs)

/-- The value `Math.ceil(totalCount / limit)` as `res.json` prints it: `none`
is JSON `null`, which is what `NaN` and the infinities of a division by zero
serialise to. -/
def pagesOf (totalCount : Option Value) (limit : ℚ) : Option Int :=
  match toNumber totalCount with
  | none => none
  | some total =>
    if limit = 0 then none else some ⌈toDouble (toDouble (total : ℚ) / toDouble limit)⌉

/-- Line 50: `offset = (page - 1) * limit`, on numbers. -/
def offsetOf (page limit : ℚ) : ℚ := toDouble (toDouble (toDouble page - 1) * toDouble limit)

/-- The sampling call `pool.query(sampleQuery)` (lines 60-61; the same
template at lines 235, 321 and 413). -/
def sampleStmt (tableName : String) : Stmt :=
  ⟨"SELECT * FROM `" ++ tableName ++ "` LIMIT 1", []⟩

/-- The handler `getTableData` (lines 46-172). -/
def getTableData {σ : Type} (pool : Pool σ) (req : GetReq) (s0 : σ) : Outcome σ :=
  let tableName := req.tableName
  let search := req.search
  let page : ℚ := req.page.getD 1
  let limit : ℚ := req.limit.getD 50
  let offset : ℚ := offsetOf page limit
  let sampleQuery := sampleStmt tableName
  match pool.query s0 sampleQuery with
  | (.error _, s1) => ⟨⟨500, .error serverError⟩, [sampleQuery], s1⟩
  | (.ok sample, s1) =>
    match sample.rows with
    | [] => ⟨⟨404, .error "Таблица пуста или не существует"⟩, [sampleQuery], s1⟩
    | first :: _ =>
      let columns := keys first
      if columns.length = 0 then
        ⟨⟨500, .error "Ошибка при получении структуры таблицы"⟩, [sampleQuery], s1⟩
      else
        let query := rowQuery tableName columns search limit offset
        let count := countQuery tableName columns search
        match pool.query s1 count with
        | (.error _, s2) => ⟨⟨500, .error serverError⟩, [sampleQuery, count], s2⟩
        | (.ok countRes, s2) =>
          match countRes.rows with
          | [] => ⟨⟨500, .error serverError⟩, [sampleQuery, count], s2⟩
          | countRow :: _ =>
            let totalCount := field countRow "total"
            match pool.query s2 query with
            | (.error _, s3) => ⟨⟨500, .error serverError⟩, [sampleQuery, count, query], s3⟩
            | (.ok res, s3) =>
              ⟨⟨200, .page res.rows totalCount (parseInt page) (parseInt limit)
                  (pagesOf totalCount limit)⟩,
               [sampleQuery, count, query], s3⟩

/-! ## The catalogue handlers -/

/-- The handler `getTables` (lines 4-22). -/
def getTables {σ : Type} (pool : Pool σ) (env : Option String) (s0 : σ) : Outcome σ :=
  let query :=
    "\n      SELECT table_name as TABLE_NAME\n      FROM information_schema.tables " ++
    "\n      WHERE table_schema = ?\n      ORDER BY table_name;\n    "
  let stmt : Stmt := ⟨query, [.str (dbName env)]⟩
  match pool.query s0 stmt with
  | (.error _, s1) => ⟨⟨500, .error serverError⟩, [stmt], s1⟩
  | (.ok res, s1) => ⟨⟨200, .rows res.rows⟩, [stmt], s1⟩

/-- The handler `getTableColumns` (lines 25-43). -/
def getTableColumns {σ : Type} (pool : Pool σ) (env : Option String) (tableName : String)
    (s0 : σ) : Outcome σ :=
  let query :=
    "\n      SELECT column_name, data_type, is_nullable " ++
    "\n      FROM information_schema.columns " ++
    "\n      WHERE table_schema = ? AND table_name = ?\n      ORDER BY ordinal_position;\n    "
  let stmt : Stmt := ⟨query, [.str (dbName env), .str tableName]⟩
  match pool.query s0 stmt with
  | (.error _, s1) => ⟨⟨500, .error serverError⟩, [stmt], s1⟩
  | (.ok res, s1) => ⟨⟨200, .rows res.rows⟩, [stmt], s1⟩

/-! ## Identity lookup shared text -/

/-- The text of `pkQuery`, the same template in `addTableRow`, `updateTableRow`
and `deleteTableRow`. -/
def pkQuery : String :=
  "\n      SELECT column_name\n      FROM information_schema.key_column_usage" ++
  "\n      WHERE constraint_name = 'PRIMARY'\n      AND table_schema = ?" ++
  "\n      AND table_name = ?;\n    "

/-- The call `pool.query(pkQuery, [dbName, tableName])`. -/
def pkStmt (env : Option String) (tableName : String) : Stmt :=
  ⟨pkQuery, [.str (dbName env), .str tableName]⟩

/-- The JavaScript `s.toLowerCase()` on the letters A-Z.  Only its comparison
with `'id'` is used, and no character outside A-Z lowers to `i` or `d`. -/
def toLowerCase (s : String) : String := ⟨s.data.map Char.toLower⟩

/-- The element `keys[0]` printed by a template literal. -/
def firstKey (ks : List String) : String := templateString (ks.head?.map Value.str)

/-! ## `addTableRow` -/

/-- The request of `addTableRow`: `req.params.tableName` and `req.body`. -/
structure AddReq where
  tableName : String
  data : Row
  deriving DecidableEq, Repr

/-- Lines 217-255 of `addTableRow`: from `pkRows` and the request body to
`pkColumn` and `insertId`, with the statements issued on the way. -/
def addIdentity {σ : Type} (pool : Pool σ) (tableName : String) (data : Row)
    (result : QResult) (pkRows : List Row) (s : σ) : String × Value × List Stmt × σ :=
  let pkColumn := "id"
  let insertId : Value := .num result.insertId
  match pkRows with
  | pkRow :: _ => (templateString (field pkRow "column_name"), insertId, [], s)
  | [] =>
    if truthy (field data "id") then ("id", (field data "id").getD .null, [], s)
    else if truthy (field data "ID") then ("ID", (field data "ID").getD .null, [], s)
    else
      let sampleQuery := sampleStmt tableName
      match pool.query s sampleQuery with
      | (.error _, s1) => (pkColumn, insertId, [sampleQuery], s1)
      | (.ok sample, s1) =>
        match sample.rows with
        | [] => (pkColumn, insertId, [sampleQuery], s1)
        | first :: _ =>
          let ks := keys first
          match ks.find? (fun key => toLowerCase key = "id") with
          | some idKey =>
            if idKey ≠ "" then (idKey, insertId, [sampleQuery], s1)
            else (firstKey ks, insertId, [sampleQuery], s1)
          | none => (firstKey ks, insertId, [sampleQuery], s1)

/-- Lines 182-201 of `addTableRow`: the `INSERT` text `query` with its
parameters `values`. -/
def insertStmt (tableName : String) (data : Row) : Stmt :=
  let columns := keys data
  let values := values data
  let placeholders := arrayJoin ", " (columns.map fun _ => "?")
  ⟨"\n      INSERT INTO `" ++ tableName ++ "` (" ++
      arrayJoin ", " (columns.map fun c => "`" ++ c ++ "`") ++ ") \n      VALUES (" ++
      placeholders ++ ");\n    ",
    values⟩

/-- Lines 258-269 of `addTableRow`: `selectQuery` with `selectParams`. -/
def reselectStmt (tableName pkColumn : String) (insertId : Value) (data : Row) : Stmt :=
  let columns := keys data
  let values := values data
  if truthy (some insertId) then
    ⟨"SELECT * FROM `" ++ tableName ++ "` WHERE `" ++ pkColumn ++ "` = ?", [insertId]⟩
  else
    let conditions := arrayJoin " AND " (columns.map fun col => "`" ++ col ++ "` = ?")
    ⟨"SELECT * FROM `" ++ tableName ++ "` WHERE " ++ conditions ++ " ORDER BY `" ++
        pkColumn ++ "` DESC LIMIT 1",
      values⟩

/-- The handler `addTableRow` (lines 175-290). -/
def addTableRow {σ : Type} (pool : Pool σ) (env : Option String) (req : AddReq) (s0 : σ) :
    Outcome σ :=
  let tableName := req.tableName
  let data := req.data
  let columns := keys data
  if columns.length = 0 then
    ⟨⟨400, .error "Отсутствуют данные для добавления"⟩, [], s0⟩
  else
    let query := insertStmt tableName data
    match pool.query s0 query with
    | (.error _, s1) => ⟨⟨500, .error serverError⟩, [query], s1⟩
    | (.ok result, s1) =>
      let pk := pkStmt env tableName
      match pool.query s1 pk with
      | (.error _, s2) => ⟨⟨500, .error serverError⟩, [query, pk], s2⟩
      | (.ok pkRes, s2) =>
        match addIdentity pool tableName data result pkRes.rows s2 with
        | (pkColumn, insertId, issued, s3) =>
          let select := reselectStmt tableName pkColumn insertId data
          match pool.query s3 select with
          | (.error _, s4) =>
            ⟨⟨500, .error serverError⟩, [query, pk] ++ issued ++ [select], s4⟩
          | (.ok res, s4) =>
            match res.rows with
            | [] =>
              ⟨⟨201, .inserted "Запись добавлена успешно" result.insertId⟩,
               [query, pk] ++ issued ++ [select], s4⟩
            | row :: _ => ⟨⟨201, .row row⟩, [query, pk] ++ issued ++ [select], s4⟩

/-! ## `updateTableRow` -/

/-- The request of `updateTableRow`: `req.params.tableName`, `req.params.id`
and `req.body`. -/
structure UpdateReq where
  tableName : String
  id : String
  data : Row
  deriving DecidableEq, Repr

/-- Lines 312-340 of `updateTableRow`: from `pkRows` to `pkColumn`, with the
statements issued on the way. -/
def updateIdentity {σ : Type} (pool : Pool σ) (tableName : String) (pkRows : List Row)
    (s : σ) : String × List Stmt × σ :=
  let pkColumn := "id"
  match pkRows with
  | pkRow :: _ => (templateString (field pkRow "column_name"), [], s)
  | [] =>
    let sampleQuery := sampleStmt tableName
    match pool.query s sampleQuery with
    | (.error _, s1) => (pkColumn, [sampleQuery], s1)
    | (.ok sample, s1) =>
      match sample.rows with
      | [] => (pkColumn, [sampleQuery], s1)
      | first :: _ =>
        let ks := keys first
        match ks.find? (fun key => toLowerCase key = "id") with
        | some idKey =>
          if idKey ≠ "" then (idKey, [sampleQuery], s1) else (firstKey ks, [sampleQuery], s1)
        | none => (firstKey ks, [sampleQuery], s1)

/-- Lines 342-359 of `updateTableRow`: the `UPDATE` text `query` with its
parameters, the values of the body followed by `id`. -/
def updateStmt (tableName pkColumn id : String) (data : Row) : Stmt :=
  let columns := keys data
  let values := values data
  let setClause := arrayJoin ", " (columns.map fun col => "`" ++ col ++ "` = ?")
  ⟨"\n      UPDATE `" ++ tableName ++ "` \n      SET " ++ setClause ++
      " \n      WHERE `" ++ pkColumn ++ "` = ?;\n    ",
    values ++ [.str id]⟩

/-- The selection of one row by its identity: lines 369-370 of
`updateTableRow` and lines 435-439 of `deleteTableRow`. -/
def selectByIdStmt (tableName pkColumn id : String) : Stmt :=
  ⟨"SELECT * FROM `" ++ tableName ++ "` WHERE `" ++ pkColumn ++ "` = ?", [.str id]⟩

/-- The handler `updateTableRow` (lines 293-383). -/
def updateTableRow {σ : Type} (pool : Pool σ) (env : Option String) (req : UpdateReq)
    (s0 : σ) : Outcome σ :=
  let tableName := req.tableName
  let id := req.id
  let data := req.data
  let pk := pkStmt env tableName
  match pool.query s0 pk with
  | (.error _, s1) => ⟨⟨500, .error serverError⟩, [pk], s1⟩
  | (.ok pkRes, s1) =>
    match updateIdentity pool tableName pkRes.rows s1 with
    | (pkColumn, issued, s2) =>
      let query := updateStmt tableName pkColumn id data
      match pool.query s2 query with
      | (.error _, s3) => ⟨⟨500, .error serverError⟩, [pk] ++ issued ++ [query], s3⟩
      | (.ok result, s3) =>
        if result.affectedRows = 0 then
          ⟨⟨404, .error "Запись не найдена"⟩, [pk] ++ issued ++ [query], s3⟩
        else
          let select := selectByIdStmt tableName pkColumn id
          match pool.query s3 select with
          | (.error _, s4) =>
            ⟨⟨500, .error serverError⟩, [pk] ++ issued ++ [query, select], s4⟩
          | (.ok res, s4) =>
            match res.rows with
            | [] =>
              ⟨⟨404, .error "Запись не найдена после обновления"⟩,
               [pk] ++ issued ++ [query, select], s4⟩
            | row :: _ => ⟨⟨200, .row row⟩, [pk] ++ issued ++ [query, select], s4⟩

/-! ## `deleteTableRow` -/

/-- The request of `deleteTableRow`: `req.params.tableName` and
`req.params.id`. -/
structure DeleteReq where
  tableName : String
  id : String
  deriving DecidableEq, Repr

/-- Lines 404-432 of `deleteTableRow`: from `pkRows` to `pkColumn`, with the
statements issued on the way. -/
def deleteIdentity {σ : Type} (pool : Pool σ) (tableName : String) (pkRows : List Row)
    (s : σ) : String × List Stmt × σ :=
  let pkColumn := "id"
  match pkRows with
  | pkRow :: _ => (templateString (field pkRow "column_name"), [], s)
  | [] =>
    let sampleQuery := sampleStmt tableName
    match pool.query s sampleQuery with
    | (.error _, s1) => (pkColumn, [sampleQuery], s1)
    | (.ok sample, s1) =>
      match sample.rows with
      | [] => (pkColumn, [sampleQuery], s1)
      | first :: _ =>
        let ks := keys first
        match ks.find? (fun key => toLowerCase key = "id") with
        | some idKey =>
          if idKey ≠ "" then (idKey, [sampleQuery], s1) else (firstKey ks, [sampleQuery], s1)
        | none => (firstKey ks, [sampleQuery], s1)

/-- Lines 450-458 of `deleteTableRow`: the `DELETE` text `query` with its
parameter. -/
def deleteStmt (tableName pkColumn id : String) : Stmt :=
  ⟨"\n      DELETE FROM `" ++ tableName ++ "` \n      WHERE `" ++ pkColumn ++ "` = ?;\n    ",
    [.str id]⟩

/-- The handler `deleteTableRow` (lines 386-473). -/
def deleteTableRow {σ : Type} (pool : Pool σ) (env : Option String) (req : DeleteReq)
    (s0 : σ) : Outcome σ :=
  let tableName := req.tableName
  let id := req.id
  let pk := pkStmt env tableName
  match pool.query s0 pk with
  | (.error _, s1) => ⟨⟨500, .error serverError⟩, [pk], s1⟩
  | (.ok pkRes, s1) =>
    match deleteIdentity pool tableName pkRes.rows s1 with
    | (pkColumn, issued, s2) =>
      let selectQuery := selectByIdStmt tableName pkColumn id
      match pool.query s2 selectQuery with
      | (.error _, s3) => ⟨⟨500, .error serverError⟩, [pk] ++ issued ++ [selectQuery], s3⟩
      | (.ok sel, s3) =>
        match sel.rows with
        | [] => ⟨⟨404, .error "Запись не найдена"⟩, [pk] ++ issued ++ [selectQuery], s3⟩
        | deletedItem :: _ =>
          let query := deleteStmt tableName pkColumn id
          match pool.query s3 query with
          | (.error _, s4) =>
            ⟨⟨500, .error serverError⟩, [pk] ++ issued ++ [selectQuery, query], s4⟩
          | (.ok result, s4) =>
            if result.affectedRows = 0 then
              ⟨⟨404, .error "Запись не найдена или не может быть удалена"⟩,
               [pk] ++ issued ++ [selectQuery, query], s4⟩
            else
              ⟨⟨200, .deleted "Запись успешно удалена" deletedItem⟩,
               [pk] ++ issued ++ [selectQuery, query], s4⟩

/-! ## A scripted database for worked examples -/

/-- A pool that answers the successive calls with the successive replies of a
fixed list, whatever the statement, and rejects once the list is used up. -/
def scripted : Pool (List (Except String QResult)) where
  query s _ :=
    match s with
    | [] => (.error "no reply left", [])
    | reply :: rest => (reply, rest)

/-- A small database for worked examples: its first call is answered with a
primary-key row naming `id`, every later call with the one row of the table
and a header reporting one affected row. -/
def demo : Pool Nat where
  query n _ :=
    match n with
    | 0 => (.ok ⟨[[("column_name", .str "id")]], 0, 0⟩, 1)
    | n + 1 => (.ok ⟨[[("id", .num 1), ("name", .str "Ann")]], 1, 1⟩, n + 2)

/-- The reply to a `SELECT`: the given row array. -/
def selected (rows : List Row) : Except String QResult := .ok ⟨rows, 0, 0⟩

/-- The reply to an `INSERT`, `UPDATE` or `DELETE`: the result header. -/
def header (affectedRows insertId : Nat) : Except String QResult :=
  .ok ⟨[], affectedRows, insertId⟩

deriving instance DecidableEq for Except

/-- The row carries the given id under the key `id`: the bound parameter is the
text of the path segment, the stored id a number. -/
def hasId (id : Value) (row : Row) : Bool :=
  match id, field row "id" with
  | .str s, some (.num n) => decide (s.toInt? = some n)
  | _, _ => false

/-- A one-table database for worked examples: the state is the content of the
table `users`, whose declared key is `id`.  It answers the primary-key lookup,
the selection by id and the `DELETE` by id, and rejects anything else. -/
def usersTable : Pool (List Row) where
  query rows st :=
    match st.params with
    | [_, _] =>
      if st.sql = pkQuery then (selected [[("column_name", .str "id")]], rows)
      else (.error "ER_PARSE_ERROR", rows)
    | [id] =>
      if st.sql = "SELECT * FROM `users` WHERE `id` = ?" then
        (selected (rows.filter (hasId id)), rows)
      else if st.sql = "\n      DELETE FROM `users` \n      WHERE `id` = ?;\n    " then
        (header (rows.countP (hasId id)) 0, rows.filter fun row => !hasId id row)
      else (.error "ER_PARSE_ERROR", rows)
    | _ => (.error "ER_PARSE_ERROR", rows)

/-! ## Vocabulary of the properties -/

/-- The SQL texts of a list of statements. -/
def texts (log : List Stmt) : List String := log.map Stmt.sql

/-- Two runs issue the same SQL texts, call by call, as far as both go. -/
def SameTexts (l1 l2 : List Stmt) : Prop := texts l1 <+: texts l2 ∨ texts l2 <+: texts l1

/-- A search term that is empty or consists of white space only. -/
def blank (term : String) : Bool := term.data.all isWhiteSpace

/-- The number of `?` in an SQL text. -/
def placeholders (sql : String) : Nat := sql.data.count '?'

/-- The statement has exactly one `?` per bound parameter. -/
def Balanced (st : Stmt) : Prop := placeholders st.sql = st.params.length

instance (st : Stmt) : Decidable (Balanced st) := by
  unfold Balanced; infer_instance

/-- A name in which no `?` occurs. -/
def Plain (name : String) : Prop := placeholders name = 0

instance (name : String) : Decidable (Plain name) := by
  unfold Plain; infer_instance

/-- Every name the database hands back is free of `?`: the keys of every
result row, and the `column_name` cell as a template literal prints it. -/
def CleanNames {σ : Type} (pool : Pool σ) : Prop :=
  ∀ (s : σ) (q : Stmt) (res : QResult) (s1 : σ), pool.query s q = (.ok res, s1) →
    ∀ row ∈ res.rows,
      (∀ k ∈ keys row, Plain k) ∧ Plain (templateString (field row "column_name"))

/-- The column names the sample reply of `getTableData` yields: the keys of
its first row, when the reply is a result with a first row that has keys. -/
def sampledColumns (reply : Except String QResult) : Option (List String) :=
  match reply with
  | .error _ => none
  | .ok sample =>
    match sample.rows with
    | [] => none
    | first :: _ => if (keys first).length = 0 then none else some (keys first)

/-- The keys of the row a sample reply yields, when it yields one: the reply
is a result and has a first row. -/
def sampledKeys (reply : Except String QResult) : Option (List String) :=
  match reply with
  | .error _ => none
  | .ok sample =>
    match sample.rows with
    | [] => none
    | first :: _ => some (keys first)

/-- Identity resolution in the words of the specification, first match wins:
the declared primary key; else, in the sampled row, the first key equal to `id`
ignoring case; else the first key of the sampled row; else, without a sampled
row, the literal `id`. -/
def resolveIdentity (pkRows : List Row) (sampled : Option (List String)) : String :=
  match pkRows with
  | pkRow :: _ => templateString (field pkRow "column_name")
  | [] =>
    match sampled with
    | none => "id"
    | some ks =>
      match ks.find? (fun key => toLowerCase key = "id") with
      | some idKey => idKey
      | none => firstKey ks

/-! ## Theorems -/

/-- Without usable sample columns `getTableData` stops after the sample. -/
theorem getTableData_log_of_no_columns (σ : Type) (pool : Pool σ) (req : GetReq) (s0 : σ)
    (h : sampledColumns (pool.query s0 (sampleStmt req.tableName)).1 = none) :
    (getTableData pool req s0).log = [sampleStmt req.tableName] := by
  unfold getTableData
  unfold sampledColumns at h
  simp only []
  split
  · rfl
  · rename_i heq
    rw [heq] at h
    simp only [] at h
    split
    · rfl
    · rename_i hrows
      rw [hrows] at h
      simp only [] at h
      split
      · rfl
      · rename_i hlen
        simp [hlen] at h

/-- With sample columns `getTableData` issues the counting query on them and,
when that query yields a row, the row query on them. -/
theorem getTableData_log_of_columns (σ : Type) (pool : Pool σ) (req : GetReq) (s0 : σ)
    (columns : List String)
    (h : sampledColumns (pool.query s0 (sampleStmt req.tableName)).1 = some columns) :
    (getTableData pool req s0).log =
        [sampleStmt req.tableName, countQuery req.tableName columns req.search] ∨
    (getTableData pool req s0).log =
        [sampleStmt req.tableName, countQuery req.tableName columns req.search,
         rowQuery req.tableName columns req.search (req.limit.getD 50)
           (offsetOf (req.page.getD 1) (req.limit.getD 50))] := by
  unfold getTableData
  unfold sampledColumns at h
  simp only []
  split
  · rename_i heq
    rw [heq] at h
    simp at h
  · rename_i heq
    rw [heq] at h
    simp only [] at h
    split
    · rename_i hrows
      rw [hrows] at h
      simp at h
    · rename_i hrows
      rw [hrows] at h
      simp only [] at h
      split
      · rename_i hlen
        simp [hlen] at h
      · rename_i hlen
        simp only [hlen, if_false, Option.some.injEq] at h
        subst h
        split
        · left; rfl
        · split
          · left; rfl
          · split
            · right; rfl
            · right; rfl

/-- The log of `getTableData` has one of three shapes. -/
theorem getTableData_log (σ : Type) (pool : Pool σ) (req : GetReq) (s0 : σ) :
    (getTableData pool req s0).log = [sampleStmt req.tableName] ∨
    ∃ columns : List String, columns ≠ [] ∧
      ((getTableData pool req s0).log =
          [sampleStmt req.tableName, countQuery req.tableName columns req.search] ∨
       (getTableData pool req s0).log =
          [sampleStmt req.tableName, countQuery req.tableName columns req.search,
           rowQuery req.tableName columns req.search (req.limit.getD 50)
             (offsetOf (req.page.getD 1) (req.limit.getD 50))]) := by
  cases h : sampledColumns (pool.query s0 (sampleStmt req.tableName)).1 with
  | none => exact Or.inl (getTableData_log_of_no_columns σ pool req s0 h)
  | some columns =>
    refine Or.inr ⟨columns, ?_, getTableData_log_of_columns σ pool req s0 columns h⟩
    intro hnil
    subst hnil
    unfold sampledColumns at h
    split at h
    · simp at h
    · split at h
      · simp at h
      · split at h
        · simp at h
        · rename_i hlen
          simp only [Option.some.injEq] at h
          simp [h] at hlen

/-- The two query builders of `getTableData` append the same `WHERE` text and
bind the same search parameters. -/
theorem countQuery_mirrors_rowQuery (tableName : String) (columns : List String)
    (search : Option String) (limit offset : ℚ) :
    ∃ w : String,
      (rowQuery tableName columns search limit offset).sql =
        "SELECT * FROM `" ++ tableName ++ "`" ++ w ++ " LIMIT ? OFFSET ?" ∧
      (countQuery tableName columns search).sql =
        "SELECT COUNT(*) as total FROM `" ++ tableName ++ "`" ++ w ∧
      (countQuery tableName columns search).params =
        (rowQuery tableName columns search limit offset).params.dropLast.dropLast := by
  unfold rowQuery countQuery
  by_cases hs : searching search = true
  · by_cases hc : ((columns.map fun col =>
        if col = "" then none else some ("`" ++ col ++ "` LIKE ?")).filterMap id).length > 0
    · refine ⟨" WHERE " ++ arrayJoin " OR " ((columns.map fun col =>
        if col = "" then none else some ("`" ++ col ++ "` LIKE ?")).filterMap id), ?_, ?_, ?_⟩
      · simp only [hs, hc, if_true]
      · simp only [hs, hc, if_true]
      · simp only [hs, hc, if_true]
        simp [List.dropLast]
    · refine ⟨"", ?_, ?_, ?_⟩
      · simp only [hs, hc, if_true, if_false]
        simp
      · simp only [hs, hc, if_true, if_false]
        simp
      · simp only [hs, hc, if_true, if_false]
        simp
  · refine ⟨"", ?_, ?_, ?_⟩
    · simp only [hs, if_false]
      simp
    · simp only [hs, if_false]
      simp
    · simp only [hs, if_false]
      simp

/-- C1. Whenever `getTableData` issues its counting query `c` and its row query
`r` (after the sample `smp`), the `WHERE` text appended to the row query before
`' LIMIT ? OFFSET ?'` is the `WHERE` text appended to the counting query, and
the parameters of `c` are those of `r` without the last two. -/
theorem getTableData_count_and_rows_in_lock_step (σ : Type) (pool : Pool σ) (req : GetReq)
    (s0 : σ) (smp c r : Stmt) (h : (getTableData pool req s0).log = [smp, c, r]) :
    ∃ w : String,
      r.sql = "SELECT * FROM `" ++ req.tableName ++ "`" ++ w ++ " LIMIT ? OFFSET ?" ∧
      c.sql = "SELECT COUNT(*) as total FROM `" ++ req.tableName ++ "`" ++ w ∧
      c.params = r.params.dropLast.dropLast := by
  rcases getTableData_log σ pool req s0 with h1 | ⟨columns, _, h2 | h3⟩
  · rw [h1] at h; simp at h
  · rw [h2] at h; simp at h
  · rw [h3] at h
    simp only [List.cons.injEq, and_true] at h
    obtain ⟨_, hc, hr⟩ := h
    subst hc hr
    exact countQuery_mirrors_rowQuery _ _ _ _ _

/-- C1, worked example: a search for `" an "` in a table with the one column
`name`. -/
theorem getTableData_count_and_rows_in_lock_step_witness :
    (getTableData scripted ⟨"users", some " an ", some 1, some 10⟩
        [selected [[("name", .str "Ann")]], selected [[("total", .num 1)]],
         selected [[("name", .str "Ann")]]]).log =
      [⟨"SELECT * FROM `users` LIMIT 1", []⟩,
       ⟨"SELECT COUNT(*) as total FROM `users` WHERE `name` LIKE ?", [.str "%an%"]⟩,
       ⟨"SELECT * FROM `users` WHERE `name` LIKE ? LIMIT ? OFFSET ?",
        [.str "%an%", .num 10, .num 0]⟩] ∧
    ∃ w : String,
      "SELECT * FROM `users` WHERE `name` LIKE ? LIMIT ? OFFSET ?" =
        "SELECT * FROM `" ++ "users" ++ "`" ++ w ++ " LIMIT ? OFFSET ?" ∧
      "SELECT COUNT(*) as total FROM `users` WHERE `name` LIKE ?" =
        "SELECT COUNT(*) as total FROM `" ++ "users" ++ "`" ++ w ∧
      [Value.str "%an%"] = [Value.str "%an%", .num 10, .num 0].dropLast.dropLast :=
  ⟨by decide!,
   getTableData_count_and_rows_in_lock_step _ scripted
     ⟨"users", some " an ", some 1, some 10⟩
     [selected [[("name", .str "Ann")]], selected [[("total", .num 1)]],
      selected [[("name", .str "Ann")]]]
     ⟨"SELECT * FROM `users` LIMIT 1", []⟩
     ⟨"SELECT COUNT(*) as total FROM `users` WHERE `name` LIKE ?", [.str "%an%"]⟩
     ⟨"SELECT * FROM `users` WHERE `name` LIKE ? LIMIT ? OFFSET ?",
      [.str "%an%", .num 10, .num 0]⟩
     (by decide!)⟩

/-! ### White space and `trim` -/

/-- Trimming leaves nothing exactly when the term is blank. -/
theorem trim_eq_empty_iff (s : String) : trim s = "" ↔ blank s = true := by
  unfold trim blank
  constructor
  · intro h
    have h1 : ((s.data.dropWhile isWhiteSpace).reverse.dropWhile isWhiteSpace).reverse = [] :=
      congrArg String.data h
    have h2 : (s.data.dropWhile isWhiteSpace).reverse.dropWhile isWhiteSpace = [] :=
      List.reverse_eq_nil_iff.mp h1
    have h3 : ∀ x ∈ s.data.dropWhile isWhiteSpace, isWhiteSpace x = true := by
      intro x hx
      exact (List.dropWhile_eq_nil_iff.mp h2) x (List.mem_reverse.mpr hx)
    have h4 : s.data.dropWhile isWhiteSpace = [] := by
      by_contra hne
      have hhead := List.head_dropWhile_not isWhiteSpace s.data hne
      have := h3 _ (List.head_mem hne)
      rw [this] at hhead
      exact Bool.noConfusion hhead
    rw [List.all_eq_true]
    exact List.dropWhile_eq_nil_iff.mp h4
  · intro h
    rw [List.all_eq_true] at h
    have h4 : s.data.dropWhile isWhiteSpace = [] := List.dropWhile_eq_nil_iff.mpr h
    rw [h4]
    rfl

/-- The test `search && search.trim()` succeeds exactly on the terms that are
not blank. -/
theorem searching_some (term : String) : searching (some term) = !blank term := by
  unfold searching
  by_cases hb : blank term = true
  · have ht : trim term = "" := (trim_eq_empty_iff term).mpr hb
    simp [hb, ht]
  · have ht : trim term ≠ "" := fun h => hb ((trim_eq_empty_iff term).mp h)
    have hne : term ≠ "" := by
      intro h
      subst h
      exact hb (by decide)
    simp [hb, ht, hne]

/-- The text of the row query depends on the search term only through the test
`search && search.trim()`. -/
theorem rowQuery_sql_congr (tableName : String) (columns : List String)
    (search1 search2 : Option String) (limit offset : ℚ)
    (h : searching search1 = searching search2) :
    (rowQuery tableName columns search1 limit offset).sql =
      (rowQuery tableName columns search2 limit offset).sql := by
  unfold rowQuery
  simp only [h]
  split <;> (try split) <;> rfl

/-- The text of the counting query depends on the search term only through the
test `search && search.trim()`. -/
theorem countQuery_sql_congr (tableName : String) (columns : List String)
    (search1 search2 : Option String) (h : searching search1 = searching search2) :
    (countQuery tableName columns search1).sql = (countQuery tableName columns search2).sql := by
  unfold countQuery
  simp only [h]
  split <;> (try split) <;> rfl

/-! ### The statements each handler issues -/

/-- With a body of at least one field the first statement of `addTableRow` is
the `INSERT`. -/
theorem addTableRow_log_head (σ : Type) (pool : Pool σ) (env : Option String) (req : AddReq)
    (s0 : σ) (h : req.data ≠ []) :
    ∃ rest, (addTableRow pool env req s0).log = insertStmt req.tableName req.data :: rest := by
  have hlen : ¬ (keys req.data).length = 0 := by
    intro h0
    apply h
    cases hd : req.data with
    | nil => rfl
    | cons a l => rw [hd] at h0; simp [keys] at h0
  unfold addTableRow
  simp only [hlen, if_false]
  repeat' split
  all_goals exact ⟨_, rfl⟩

/-- When the primary-key lookup is rejected `updateTableRow` stops there. -/
theorem updateTableRow_log_of_error (σ : Type) (pool : Pool σ) (env : Option String)
    (req : UpdateReq) (s0 : σ) (e : String) (s1 : σ)
    (h : pool.query s0 (pkStmt env req.tableName) = (.error e, s1)) :
    (updateTableRow pool env req s0).log = [pkStmt env req.tableName] := by
  unfold updateTableRow
  simp only [h]

/-- When the primary-key lookup is answered `updateTableRow` resolves the
identity column and issues the `UPDATE`, possibly followed by the
re-selection. -/
theorem updateTableRow_log_of_ok (σ : Type) (pool : Pool σ) (env : Option String)
    (req : UpdateReq) (s0 : σ) (pkRes : QResult) (s1 : σ)
    (h : pool.query s0 (pkStmt env req.tableName) = (.ok pkRes, s1)) :
    (updateTableRow pool env req s0).log =
        [pkStmt env req.tableName] ++ (updateIdentity pool req.tableName pkRes.rows s1).2.1 ++
          [updateStmt req.tableName (updateIdentity pool req.tableName pkRes.rows s1).1
            req.id req.data] ∨
    (updateTableRow pool env req s0).log =
        [pkStmt env req.tableName] ++ (updateIdentity pool req.tableName pkRes.rows s1).2.1 ++
          [updateStmt req.tableName (updateIdentity pool req.tableName pkRes.rows s1).1
            req.id req.data,
           selectByIdStmt req.tableName (updateIdentity pool req.tableName pkRes.rows s1).1
            req.id] := by
  unfold updateTableRow
  simp only [h]
  split
  · left; rfl
  · split
    · left; rfl
    · split
      · right; rfl
      · split
        · right; rfl
        · right; rfl

/-- When the primary-key lookup is rejected `deleteTableRow` stops there. -/
theorem deleteTableRow_log_of_error (σ : Type) (pool : Pool σ) (env : Option String)
    (req : DeleteReq) (s0 : σ) (e : String) (s1 : σ)
    (h : pool.query s0 (pkStmt env req.tableName) = (.error e, s1)) :
    (deleteTableRow pool env req s0).log = [pkStmt env req.tableName] := by
  unfold deleteTableRow
  simp only [h]

/-- When the primary-key lookup is answered `deleteTableRow` resolves the
identity column and issues the selection, possibly followed by the `DELETE`. -/
theorem deleteTableRow_log_of_ok (σ : Type) (pool : Pool σ) (env : Option String)
    (req : DeleteReq) (s0 : σ) (pkRes : QResult) (s1 : σ)
    (h : pool.query s0 (pkStmt env req.tableName) = (.ok pkRes, s1)) :
    (deleteTableRow pool env req s0).log =
        [pkStmt env req.tableName] ++ (deleteIdentity pool req.tableName pkRes.rows s1).2.1 ++
          [selectByIdStmt req.tableName (deleteIdentity pool req.tableName pkRes.rows s1).1
            req.id] ∨
    (deleteTableRow pool env req s0).log =
        [pkStmt env req.tableName] ++ (deleteIdentity pool req.tableName pkRes.rows s1).2.1 ++
          [selectByIdStmt req.tableName (deleteIdentity pool req.tableName pkRes.rows s1).1
            req.id,
           deleteStmt req.tableName (deleteIdentity pool req.tableName pkRes.rows s1).1
            req.id] := by
  unfold deleteTableRow
  simp only [h]
  split
  · left; rfl
  · split
    · left; rfl
    · split
      · right; rfl
      · split
        · right; rfl
        · right; rfl

/-- The text of the `INSERT` depends on the body only through its keys. -/
theorem insertStmt_sql_congr (tableName : String) (data1 data2 : Row)
    (h : keys data1 = keys data2) :
    (insertStmt tableName data1).sql = (insertStmt tableName data2).sql := by
  unfold insertStmt
  simp only [h]

/-- The text of the `UPDATE` depends on the body only through its keys, and not
on the id. -/
theorem updateStmt_sql_congr (tableName pkColumn id1 id2 : String) (data1 data2 : Row)
    (h : keys data1 = keys data2) :
    (updateStmt tableName pkColumn id1 data1).sql =
      (updateStmt tableName pkColumn id2 data2).sql := by
  unfold updateStmt
  simp only [h]

/-- C2. The SQL text does not depend on the untrusted values.  (1) Two
`getTableData` requests that differ only in their non-blank search terms build
the same counting and row text on every column list and issue the same texts
call by call.  (2) Two `addTableRow` bodies with the same keys give the same
`INSERT` text.  (3) Two `updateTableRow` requests with the same keys, and (4)
two `deleteTableRow` requests, that differ in the id (and the values) issue the
same texts call by call. -/
theorem sql_text_independent_of_values :
    (∀ (σ : Type) (pool : Pool σ) (tableName : String) (page limit : Option ℚ)
        (term1 term2 : String) (s0 : σ), blank term1 = false → blank term2 = false →
        (∀ (columns : List String) (lim off : ℚ),
          (countQuery tableName columns (some term1)).sql =
              (countQuery tableName columns (some term2)).sql ∧
            (rowQuery tableName columns (some term1) lim off).sql =
              (rowQuery tableName columns (some term2) lim off).sql) ∧
        SameTexts (getTableData pool ⟨tableName, some term1, page, limit⟩ s0).log
          (getTableData pool ⟨tableName, some term2, page, limit⟩ s0).log) ∧
    (∀ (σ : Type) (pool : Pool σ) (env : Option String) (tableName : String)
        (data1 data2 : Row) (s0 : σ), keys data1 = keys data2 →
        (insertStmt tableName data1).sql = (insertStmt tableName data2).sql ∧
        (addTableRow pool env ⟨tableName, data1⟩ s0).log.head?.map Stmt.sql =
          (addTableRow pool env ⟨tableName, data2⟩ s0).log.head?.map Stmt.sql) ∧
    (∀ (σ : Type) (pool : Pool σ) (env : Option String) (tableName id1 id2 : String)
        (data1 data2 : Row) (s0 : σ), keys data1 = keys data2 →
        SameTexts (updateTableRow pool env ⟨tableName, id1, data1⟩ s0).log
          (updateTableRow pool env ⟨tableName, id2, data2⟩ s0).log) ∧
    (∀ (σ : Type) (pool : Pool σ) (env : Option String) (tableName id1 id2 : String)
        (s0 : σ),
        SameTexts (deleteTableRow pool env ⟨tableName, id1⟩ s0).log
          (deleteTableRow pool env ⟨tableName, id2⟩ s0).log) := by
  refine ⟨?_, ?_, ?_, ?_⟩
  · intro σ pool tableName page limit term1 term2 s0 h1 h2
    have hs : searching (some term1) = searching (some term2) := by
      rw [searching_some, searching_some, h1, h2]
    refine ⟨fun columns lim off =>
      ⟨countQuery_sql_congr _ _ _ _ hs, rowQuery_sql_congr _ _ _ _ _ _ hs⟩, ?_⟩
    cases hcols : sampledColumns (pool.query s0 (sampleStmt tableName)).1 with
    | none =>
      rw [getTableData_log_of_no_columns σ pool ⟨tableName, some term1, page, limit⟩ s0 hcols,
        getTableData_log_of_no_columns σ pool ⟨tableName, some term2, page, limit⟩ s0 hcols]
      exact Or.inl (List.prefix_refl _)
    | some columns =>
      have hc := countQuery_sql_congr tableName columns _ _ hs
      have hr := rowQuery_sql_congr tableName columns _ _ (limit.getD 50)
        (offsetOf (page.getD 1) (limit.getD 50)) hs
      rcases getTableData_log_of_columns σ pool ⟨tableName, some term1, page, limit⟩ s0
          columns hcols with l1 | l1 <;>
        rcases getTableData_log_of_columns σ pool ⟨tableName, some term2, page, limit⟩ s0
          columns hcols with l2 | l2 <;>
        rw [l1, l2] <;>
        simp [SameTexts, texts, hc, hr, List.cons_prefix_cons]
  · intro σ pool env tableName data1 data2 s0 hk
    refine ⟨insertStmt_sql_congr _ _ _ hk, ?_⟩
    by_cases h1 : data1 = []
    · have h2 : data2 = [] := by
        subst h1
        cases data2 with
        | nil => rfl
        | cons a l => simp [keys] at hk
      subst h1 h2
      rfl
    · have h2 : data2 ≠ [] := by
        intro h2
        subst h2
        cases data1 with
        | nil => exact h1 rfl
        | cons a l => simp [keys] at hk
      obtain ⟨r1, e1⟩ := addTableRow_log_head σ pool env ⟨tableName, data1⟩ s0 h1
      obtain ⟨r2, e2⟩ := addTableRow_log_head σ pool env ⟨tableName, data2⟩ s0 h2
      rw [e1, e2]
      simp [insertStmt_sql_congr _ _ _ hk]
  · intro σ pool env tableName id1 id2 data1 data2 s0 hk
    rcases h : pool.query s0 (pkStmt env tableName) with ⟨reply, s1⟩
    cases reply with
    | error e =>
      rw [updateTableRow_log_of_error σ pool env ⟨tableName, id1, data1⟩ s0 e s1 h,
        updateTableRow_log_of_error σ pool env ⟨tableName, id2, data2⟩ s0 e s1 h]
      exact Or.inl (List.prefix_refl _)
    | ok pkRes =>
      have hu := fun pkColumn => updateStmt_sql_congr tableName pkColumn id1 id2 data1 data2 hk
      rcases updateTableRow_log_of_ok σ pool env ⟨tableName, id1, data1⟩ s0 pkRes s1 h
          with l1 | l1 <;>
        rcases updateTableRow_log_of_ok σ pool env ⟨tableName, id2, data2⟩ s0 pkRes s1 h
          with l2 | l2 <;>
        rw [l1, l2] <;>
        simp [SameTexts, texts, hu, selectByIdStmt, List.cons_prefix_cons]
  · intro σ pool env tableName id1 id2 s0
    rcases h : pool.query s0 (pkStmt env tableName) with ⟨reply, s1⟩
    cases reply with
    | error e =>
      rw [deleteTableRow_log_of_error σ pool env ⟨tableName, id1⟩ s0 e s1 h,
        deleteTableRow_log_of_error σ pool env ⟨tableName, id2⟩ s0 e s1 h]
      exact Or.inl (List.prefix_refl _)
    | ok pkRes =>
      rcases deleteTableRow_log_of_ok σ pool env ⟨tableName, id1⟩ s0 pkRes s1 h
          with l1 | l1 <;>
        rcases deleteTableRow_log_of_ok σ pool env ⟨tableName, id2⟩ s0 pkRes s1 h
          with l2 | l2 <;>
        rw [l1, l2] <;>
        simp [SameTexts, texts, selectByIdStmt, deleteStmt, List.cons_prefix_cons]

/-- C2, worked example: searches for `an` and `bo`, bodies and ids that differ
in their values only, run against the same database. -/
theorem sql_text_independent_of_values_witness :
    SameTexts
        (getTableData scripted ⟨"users", some "an", some 1, some 10⟩
          [selected [[("name", .str "Ann")]], selected [[("total", .num 1)]],
           selected [[("name", .str "Ann")]]]).log
        (getTableData scripted ⟨"users", some "bo", some 1, some 10⟩
          [selected [[("name", .str "Ann")]], selected [[("total", .num 1)]],
           selected [[("name", .str "Ann")]]]).log ∧
      (insertStmt "users" [("name", .str "Ann")]).sql =
        (insertStmt "users" [("name", .str "Bob")]).sql ∧
      SameTexts
        (updateTableRow scripted none ⟨"users", "1", [("name", .str "Ann")]⟩
          [selected [[("column_name", .str "id")]], header 1 0,
           selected [[("id", .num 1), ("name", .str "Ann")]]]).log
        (updateTableRow scripted none ⟨"users", "2", [("name", .str "Bob")]⟩
          [selected [[("column_name", .str "id")]], header 1 0,
           selected [[("id", .num 1), ("name", .str "Ann")]]]).log ∧
      SameTexts
        (deleteTableRow scripted none ⟨"users", "1"⟩
          [selected [[("column_name", .str "id")]],
           selected [[("id", .num 1), ("name", .str "Ann")]], header 1 0]).log
        (deleteTableRow scripted none ⟨"users", "2"⟩
          [selected [[("column_name", .str "id")]],
           selected [[("id", .num 1), ("name", .str "Ann")]], header 1 0]).log :=
  ⟨(sql_text_independent_of_values.1 _ scripted "users" (some 1) (some 10) "an" "bo" _
      (by decide) (by decide)).2,
   (sql_text_independent_of_values.2.1 _ scripted none "users" [("name", .str "Ann")]
      [("name", .str "Bob")] [] (by decide)).1,
   sql_text_independent_of_values.2.2.1 _ scripted none "users" "1" "2"
      [("name", .str "Ann")] [("name", .str "Bob")] _ (by decide),
   sql_text_independent_of_values.2.2.2 _ scripted none "users" "1" "2" _⟩

/-- C3, counterexample: the table name ``a`b``, which carries a backtick and
was checked against nothing, is embedded in the first statement that
`getTableData` passes to `pool.query`. -/
theorem getTableData_embeds_unvalidated_name :
    Char.ofNat 96 ∈ ("a`b" : String).data ∧
      (getTableData scripted ⟨"a`b", none, none, none⟩ []).log =
        [⟨"SELECT * FROM `a`b` LIMIT 1", []⟩] := by
  decide

/-- C3, as amended. The handlers embed the table name of the URL path, and the
column names of the body, verbatim and unconditionally.  (1) The first
statement of `getTableData` is the sample query on the raw name.  (2) For a
body with a field the first statement of `addTableRow` is the `INSERT` on the
raw table and column names.  (3) `updateTableRow` and (4) `deleteTableRow`
first pass the name as a bound parameter of the primary-key lookup and,
whenever that lookup is answered, issue the `UPDATE` / the selection on the raw
name, whatever the answer is. -/
theorem names_embedded_without_validation :
    (∀ (σ : Type) (pool : Pool σ) (req : GetReq) (s0 : σ),
        ∃ rest, (getTableData pool req s0).log =
          ⟨"SELECT * FROM `" ++ req.tableName ++ "` LIMIT 1", []⟩ :: rest) ∧
    (∀ (σ : Type) (pool : Pool σ) (env : Option String) (req : AddReq) (s0 : σ),
        req.data ≠ [] →
        ∃ rest, (addTableRow pool env req s0).log =
          ⟨"\n      INSERT INTO `" ++ req.tableName ++ "` (" ++
              arrayJoin ", " ((keys req.data).map fun c => "`" ++ c ++ "`") ++
              ") \n      VALUES (" ++ arrayJoin ", " ((keys req.data).map fun _ => "?") ++
              ");\n    ",
            values req.data⟩ :: rest) ∧
    (∀ (σ : Type) (pool : Pool σ) (env : Option String) (req : UpdateReq) (s0 : σ),
        (∃ rest, (updateTableRow pool env req s0).log =
          ⟨pkQuery, [.str (dbName env), .str req.tableName]⟩ :: rest) ∧
        ∀ pkRes s1, pool.query s0 (pkStmt env req.tableName) = (.ok pkRes, s1) →
          ∃ pkColumn, updateStmt req.tableName pkColumn req.id req.data ∈
            (updateTableRow pool env req s0).log) ∧
    (∀ (σ : Type) (pool : Pool σ) (env : Option String) (req : DeleteReq) (s0 : σ),
        (∃ rest, (deleteTableRow pool env req s0).log =
          ⟨pkQuery, [.str (dbName env), .str req.tableName]⟩ :: rest) ∧
        ∀ pkRes s1, pool.query s0 (pkStmt env req.tableName) = (.ok pkRes, s1) →
          ∃ pkColumn, selectByIdStmt req.tableName pkColumn req.id ∈
            (deleteTableRow pool env req s0).log) := by
  refine ⟨?_, ?_, ?_, ?_⟩
  · intro σ pool req s0
    rcases getTableData_log σ pool req s0 with h | ⟨columns, _, h | h⟩ <;>
      exact ⟨_, by rw [h]; rfl⟩
  · intro σ pool env req s0 h
    exact addTableRow_log_head σ pool env req s0 h
  · intro σ pool env req s0
    rcases h : pool.query s0 (pkStmt env req.tableName) with ⟨reply, s1⟩
    cases reply with
    | error e =>
      refine ⟨⟨[], updateTableRow_log_of_error σ pool env req s0 e s1 h⟩, ?_⟩
      intro pkRes s1' h'
      cases h'
    | ok pkRes =>
      rcases updateTableRow_log_of_ok σ pool env req s0 pkRes s1 h with l | l
      · refine ⟨⟨_, by rw [l]; rfl⟩, ?_⟩
        intro pkRes' s1' h'
        cases h'
        exact ⟨(updateIdentity pool req.tableName pkRes.rows s1).1, by rw [l]; simp⟩
      · refine ⟨⟨_, by rw [l]; rfl⟩, ?_⟩
        intro pkRes' s1' h'
        cases h'
        exact ⟨(updateIdentity pool req.tableName pkRes.rows s1).1, by rw [l]; simp⟩
  · intro σ pool env req s0
    rcases h : pool.query s0 (pkStmt env req.tableName) with ⟨reply, s1⟩
    cases reply with
    | error e =>
      refine ⟨⟨[], deleteTableRow_log_of_error σ pool env req s0 e s1 h⟩, ?_⟩
      intro pkRes s1' h'
      cases h'
    | ok pkRes =>
      rcases deleteTableRow_log_of_ok σ pool env req s0 pkRes s1 h with l | l
      · refine ⟨⟨_, by rw [l]; rfl⟩, ?_⟩
        intro pkRes' s1' h'
        cases h'
        exact ⟨(deleteIdentity pool req.tableName pkRes.rows s1).1, by rw [l]; simp⟩
      · refine ⟨⟨_, by rw [l]; rfl⟩, ?_⟩
        intro pkRes' s1' h'
        cases h'
        exact ⟨(deleteIdentity pool req.tableName pkRes.rows s1).1, by rw [l]; simp⟩

/-- C3 as amended, worked example: a table name and a column name that carry a
backtick go into the statements as they are. -/
theorem names_embedded_without_validation_witness :
    (∃ rest, (addTableRow scripted none ⟨"a`b", [("x`y", .num 1)]⟩ []).log =
        ⟨"\n      INSERT INTO `" ++ "a`b" ++ "` (" ++
            arrayJoin ", " ((keys [("x`y", Value.num 1)]).map fun c => "`" ++ c ++ "`") ++
            ") \n      VALUES (" ++
            arrayJoin ", " ((keys [("x`y", Value.num 1)]).map fun _ => "?") ++ ");\n    ",
          values [("x`y", Value.num 1)]⟩ :: rest) ∧
      (∃ pkColumn, updateStmt "a`b" pkColumn "1" [("x`y", .num 1)] ∈
        (updateTableRow scripted none ⟨"a`b", "1", [("x`y", .num 1)]⟩
          [selected [], selected []]).log) ∧
      (∃ pkColumn, selectByIdStmt "a`b" pkColumn "1" ∈
        (deleteTableRow scripted none ⟨"a`b", "1"⟩ [selected [], selected []]).log) :=
  ⟨names_embedded_without_validation.2.1 _ scripted none ⟨"a`b", [("x`y", .num 1)]⟩ []
      (by decide),
   (names_embedded_without_validation.2.2.1 _ scripted none
      ⟨"a`b", "1", [("x`y", .num 1)]⟩ [selected [], selected []]).2 ⟨[], 0, 0⟩
      [selected []] rfl,
   (names_embedded_without_validation.2.2.2 _ scripted none ⟨"a`b", "1"⟩
      [selected [], selected []]).2 ⟨[], 0, 0⟩ [selected []] rfl⟩

/-! ### Counting placeholders -/

/-- Placeholders add up over concatenation. -/
theorem placeholders_append (a b : String) :
    placeholders (a ++ b) = placeholders a + placeholders b := by
  simp [placeholders, List.count_append]

/-- Joining with a separator free of `?` adds up the placeholders of the
parts. -/
theorem placeholders_arrayJoin (sep : String) (hsep : placeholders sep = 0)
    (xs : List String) : placeholders (arrayJoin sep xs) = (xs.map placeholders).sum := by
  induction xs with
  | nil => rfl
  | cons x rest ih =>
    cases rest with
    | nil => simp [arrayJoin]
    | cons y rest =>
      have e : arrayJoin sep (x :: y :: rest) = x ++ (sep ++ arrayJoin sep (y :: rest)) := rfl
      rw [e, placeholders_append, placeholders_append, hsep, ih]
      simp

/-- Parts with one placeholder each, joined: as many placeholders as parts. -/
theorem placeholders_arrayJoin_ones (sep : String) (hsep : placeholders sep = 0)
    (xs : List String) (h : ∀ x ∈ xs, placeholders x = 1) :
    placeholders (arrayJoin sep xs) = xs.length := by
  rw [placeholders_arrayJoin sep hsep]
  induction xs with
  | nil => rfl
  | cons x rest ih =>
    have hx := h x (List.mem_cons_self _ _)
    have hrest := ih fun y hy => h y (List.mem_cons_of_mem _ hy)
    simp only [List.map_cons, List.sum_cons, List.length_cons, hx, hrest]
    omega

/-- Parts without placeholder, joined: no placeholder. -/
theorem placeholders_arrayJoin_zeros (sep : String) (hsep : placeholders sep = 0)
    (xs : List String) (h : ∀ x ∈ xs, placeholders x = 0) :
    placeholders (arrayJoin sep xs) = 0 := by
  rw [placeholders_arrayJoin sep hsep]
  induction xs with
  | nil => rfl
  | cons x rest ih =>
    have hx := h x (List.mem_cons_self _ _)
    have hrest := ih fun y hy => h y (List.mem_cons_of_mem _ hy)
    simp only [List.map_cons, List.sum_cons, hx, hrest]

/-- The search conditions built from plain column names carry one placeholder
each. -/
theorem searchConditions_ones (columns : List String) (h : ∀ c ∈ columns, Plain c) :
    ∀ x ∈ (columns.map fun col =>
        if col = "" then none else some ("`" ++ col ++ "` LIKE ?")).filterMap id,
      placeholders x = 1 := by
  intro x hx
  simp only [List.mem_filterMap, List.mem_map, id] at hx
  obtain ⟨o, ⟨col, hcol, ho⟩, hox⟩ := hx
  subst hox
  by_cases hc : col = ""
  · simp [hc] at ho
  · simp only [hc, if_false, Option.some.injEq] at ho
    subst ho
    have := h col hcol
    unfold Plain at this
    rw [placeholders_append, placeholders_append, this]
    decide

/-- The sample statement on a plain table name has no placeholder and no
parameter. -/
theorem balanced_sampleStmt (tableName : String) (ht : Plain tableName) :
    Balanced (sampleStmt tableName) := by
  unfold Plain at ht
  simp only [Balanced, sampleStmt, placeholders_append, ht, List.length_nil]
  decide

/-- The primary-key lookup has two placeholders and two parameters. -/
theorem balanced_pkStmt (env : Option String) (tableName : String) :
    Balanced (pkStmt env tableName) := by
  simp only [Balanced, pkStmt, List.length_cons, List.length_nil]
  decide

/-- The counting query on plain names is balanced. -/
theorem balanced_countQuery (tableName : String) (columns : List String)
    (search : Option String) (ht : Plain tableName) (hc : ∀ c ∈ columns, Plain c) :
    Balanced (countQuery tableName columns search) := by
  unfold Plain at ht
  have hj := placeholders_arrayJoin_ones " OR " (by decide) _ (searchConditions_ones columns hc)
  unfold countQuery
  simp only []
  split
  · split
    · simp only [Balanced, placeholders_append, ht, hj, List.nil_append, List.length_map]
      have e1 : placeholders "SELECT COUNT(*) as total FROM `" = 0 := by decide
      have e2 : placeholders "`" = 0 := by decide
      have e3 : placeholders " WHERE " = 0 := by decide
      rw [e1, e2, e3]
      omega
    · simp only [Balanced, placeholders_append, ht, List.length_nil]
      decide
  · simp only [Balanced, placeholders_append, ht, List.length_nil]
    decide

/-- The row query on plain names is balanced. -/
theorem balanced_rowQuery (tableName : String) (columns : List String)
    (search : Option String) (limit offset : ℚ) (ht : Plain tableName)
    (hc : ∀ c ∈ columns, Plain c) :
    Balanced (rowQuery tableName columns search limit offset) := by
  unfold Plain at ht
  have hj := placeholders_arrayJoin_ones " OR " (by decide) _ (searchConditions_ones columns hc)
  have e1 : placeholders "SELECT * FROM `" = 0 := by decide
  have e2 : placeholders "`" = 0 := by decide
  have e3 : placeholders " WHERE " = 0 := by decide
  have e4 : placeholders " LIMIT ? OFFSET ?" = 2 := by decide
  unfold rowQuery
  simp only []
  split
  · split
    · simp only [Balanced, placeholders_append, ht, hj, List.nil_append, List.length_map,
        List.length_append, List.length_cons, List.length_nil, e1, e2, e3, e4]
      omega
    · simp only [Balanced, placeholders_append, ht, List.nil_append, List.length_cons,
        List.length_nil, e1, e2, e4]
  · simp only [Balanced, placeholders_append, ht, List.nil_append, List.length_cons,
      List.length_nil, e1, e2, e4]

/-- Quoted column names followed by ` = ?` carry one placeholder each. -/
theorem assignments_ones (columns : List String) (h : ∀ c ∈ columns, Plain c) :
    ∀ x ∈ columns.map (fun col => "`" ++ col ++ "` = ?"), placeholders x = 1 := by
  intro x hx
  simp only [List.mem_map] at hx
  obtain ⟨col, hcol, hx⟩ := hx
  subst hx
  have := h col hcol
  unfold Plain at this
  rw [placeholders_append, placeholders_append, this]
  decide

/-- Quoted plain column names carry no placeholder. -/
theorem quoted_zeros (columns : List String) (h : ∀ c ∈ columns, Plain c) :
    ∀ x ∈ columns.map (fun c => "`" ++ c ++ "`"), placeholders x = 0 := by
  intro x hx
  simp only [List.mem_map] at hx
  obtain ⟨col, hcol, hx⟩ := hx
  subst hx
  have := h col hcol
  unfold Plain at this
  rw [placeholders_append, placeholders_append, this]
  decide

/-- The `INSERT` on plain names is balanced. -/
theorem balanced_insertStmt (tableName : String) (data : Row) (ht : Plain tableName)
    (hk : ∀ k ∈ keys data, Plain k) : Balanced (insertStmt tableName data) := by
  unfold Plain at ht
  have hq := placeholders_arrayJoin_zeros ", " (by decide) _ (quoted_zeros (keys data) hk)
  have hp : placeholders (arrayJoin ", " ((keys data).map fun _ => "?")) =
      ((keys data).map fun _ => "?").length :=
    placeholders_arrayJoin_ones ", " (by decide) _ (by
      intro x hx
      simp only [List.mem_map] at hx
      obtain ⟨_, _, hx⟩ := hx
      subst hx
      decide)
  have e1 : placeholders "\n      INSERT INTO `" = 0 := by decide
  have e2 : placeholders "` (" = 0 := by decide
  have e3 : placeholders ") \n      VALUES (" = 0 := by decide
  have e4 : placeholders ");\n    " = 0 := by decide
  simp only [Balanced, insertStmt, placeholders_append, ht, hq, hp, e1, e2, e3, e4,
    List.length_map]
  simp [keys, values]

/-- The selection of one row by identity on plain names is balanced. -/
theorem balanced_selectByIdStmt (tableName pkColumn id : String) (ht : Plain tableName)
    (hp : Plain pkColumn) : Balanced (selectByIdStmt tableName pkColumn id) := by
  unfold Plain at ht hp
  have e1 : placeholders "SELECT * FROM `" = 0 := by decide
  have e2 : placeholders "` WHERE `" = 0 := by decide
  have e3 : placeholders "` = ?" = 1 := by decide
  simp only [Balanced, selectByIdStmt, placeholders_append, ht, hp, e1, e2, e3,
    List.length_cons, List.length_nil]

/-- The re-selection of `addTableRow` on plain names is balanced. -/
theorem balanced_reselectStmt (tableName pkColumn : String) (insertId : Value) (data : Row)
    (ht : Plain tableName) (hp : Plain pkColumn) (hk : ∀ k ∈ keys data, Plain k) :
    Balanced (reselectStmt tableName pkColumn insertId data) := by
  unfold Plain at ht hp
  have hj := placeholders_arrayJoin_ones " AND " (by decide) _ (assignments_ones (keys data) hk)
  have e1 : placeholders "SELECT * FROM `" = 0 := by decide
  have e2 : placeholders "` WHERE `" = 0 := by decide
  have e3 : placeholders "` = ?" = 1 := by decide
  have e4 : placeholders "` WHERE " = 0 := by decide
  have e5 : placeholders " ORDER BY `" = 0 := by decide
  have e6 : placeholders "` DESC LIMIT 1" = 0 := by decide
  unfold reselectStmt
  simp only []
  split
  · simp only [Balanced, placeholders_append, ht, hp, e1, e2, e3, List.length_cons,
      List.length_nil]
  · simp only [Balanced, placeholders_append, ht, hp, hj, e1, e4, e5, e6, List.length_map]
    simp [keys, values]

/-- The `UPDATE` on plain names is balanced. -/
theorem balanced_updateStmt (tableName pkColumn id : String) (data : Row)
    (ht : Plain tableName) (hp : Plain pkColumn) (hk : ∀ k ∈ keys data, Plain k) :
    Balanced (updateStmt tableName pkColumn id data) := by
  unfold Plain at ht hp
  have hj := placeholders_arrayJoin_ones ", " (by decide) _ (assignments_ones (keys data) hk)
  have e1 : placeholders "\n      UPDATE `" = 0 := by decide
  have e2 : placeholders "` \n      SET " = 0 := by decide
  have e3 : placeholders " \n      WHERE `" = 0 := by decide
  have e4 : placeholders "` = ?;\n    " = 1 := by decide
  simp only [Balanced, updateStmt, placeholders_append, ht, hp, hj, e1, e2, e3, e4,
    List.length_map, List.length_append, List.length_cons, List.length_nil]
  simp [keys, values]

/-- The `DELETE` on plain names is balanced. -/
theorem balanced_deleteStmt (tableName pkColumn id : String) (ht : Plain tableName)
    (hp : Plain pkColumn) : Balanced (deleteStmt tableName pkColumn id) := by
  unfold Plain at ht hp
  have e1 : placeholders "\n      DELETE FROM `" = 0 := by decide
  have e2 : placeholders "` \n      WHERE `" = 0 := by decide
  have e3 : placeholders "` = ?;\n    " = 1 := by decide
  simp only [Balanced, deleteStmt, placeholders_append, ht, hp, e1, e2, e3,
    List.length_cons, List.length_nil]

/-! ### Identity resolution hands on plain names -/

/-- The literal identity names are plain. -/
theorem plain_id : Plain "id" ∧ Plain "ID" := by
  constructor <;> decide

/-- The key printed for `keys[0]` is plain when the keys are. -/
theorem plain_firstKey (ks : List String) (h : ∀ k ∈ ks, Plain k) : Plain (firstKey ks) := by
  cases ks with
  | nil => decide
  | cons k rest => exact h k (List.mem_cons_self _ _)

/-- What `updateIdentity` returns: a plain column name, and no statement but
the sample. -/
theorem updateIdentity_spec (σ : Type) (pool : Pool σ) (hpool : CleanNames pool)
    (tableName : String) (pkRows : List Row) (s : σ)
    (hpk : ∀ row ∈ pkRows, Plain (templateString (field row "column_name"))) :
    Plain (updateIdentity pool tableName pkRows s).1 ∧
      ∀ st ∈ (updateIdentity pool tableName pkRows s).2.1, st = sampleStmt tableName := by
  unfold updateIdentity
  simp only []
  split
  · exact ⟨hpk _ (List.mem_cons_self _ _), by simp⟩
  · split
    · exact ⟨plain_id.1, by simp⟩
    · rename_i sample s1 hq
      split
      · exact ⟨plain_id.1, by simp⟩
      · rename_i first rest hrows
        have hkeys : ∀ k ∈ keys first, Plain k :=
          (hpool _ _ _ _ hq first (by rw [hrows]; exact List.mem_cons_self _ _)).1
        split
        · rename_i idKey hfind
          split
          · exact ⟨hkeys _ (List.mem_of_find?_eq_some hfind), by simp⟩
          · exact ⟨plain_firstKey _ hkeys, by simp⟩
        · exact ⟨plain_firstKey _ hkeys, by simp⟩

/-- What `deleteIdentity` returns: a plain column name, and no statement but
the sample. -/
theorem deleteIdentity_spec (σ : Type) (pool : Pool σ) (hpool : CleanNames pool)
    (tableName : String) (pkRows : List Row) (s : σ)
    (hpk : ∀ row ∈ pkRows, Plain (templateString (field row "column_name"))) :
    Plain (deleteIdentity pool tableName pkRows s).1 ∧
      ∀ st ∈ (deleteIdentity pool tableName pkRows s).2.1, st = sampleStmt tableName := by
  unfold deleteIdentity
  simp only []
  split
  · exact ⟨hpk _ (List.mem_cons_self _ _), by simp⟩
  · split
    · exact ⟨plain_id.1, by simp⟩
    · rename_i sample s1 hq
      split
      · exact ⟨plain_id.1, by simp⟩
      · rename_i first rest hrows
        have hkeys : ∀ k ∈ keys first, Plain k :=
          (hpool _ _ _ _ hq first (by rw [hrows]; exact List.mem_cons_self _ _)).1
        split
        · rename_i idKey hfind
          split
          · exact ⟨hkeys _ (List.mem_of_find?_eq_some hfind), by simp⟩
          · exact ⟨plain_firstKey _ hkeys, by simp⟩
        · exact ⟨plain_firstKey _ hkeys, by simp⟩

/-- What `addIdentity` returns: a plain column name, and no statement but the
sample. -/
theorem addIdentity_spec (σ : Type) (pool : Pool σ) (hpool : CleanNames pool)
    (tableName : String) (data : Row) (result : QResult) (pkRows : List Row) (s : σ)
    (hpk : ∀ row ∈ pkRows, Plain (templateString (field row "column_name"))) :
    Plain (addIdentity pool tableName data result pkRows s).1 ∧
      ∀ st ∈ (addIdentity pool tableName data result pkRows s).2.2.1,
        st = sampleStmt tableName := by
  unfold addIdentity
  simp only []
  split
  · exact ⟨hpk _ (List.mem_cons_self _ _), by simp⟩
  · split
    · exact ⟨plain_id.1, by simp⟩
    · split
      · exact ⟨plain_id.2, by simp⟩
      · split
        · exact ⟨plain_id.1, by simp⟩
        · rename_i sample s1 hq
          split
          · exact ⟨plain_id.1, by simp⟩
          · rename_i first rest hrows
            have hkeys : ∀ k ∈ keys first, Plain k :=
              (hpool _ _ _ _ hq first (by rw [hrows]; exact List.mem_cons_self _ _)).1
            split
            · rename_i idKey hfind
              split
              · exact ⟨hkeys _ (List.mem_of_find?_eq_some hfind), by simp⟩
              · exact ⟨plain_firstKey _ hkeys, by simp⟩
            · exact ⟨plain_firstKey _ hkeys, by simp⟩

/-- Every statement of `addTableRow` is the `INSERT`, the primary-key lookup, a
statement of the identity resolution, or the re-selection. -/
theorem addTableRow_log_mem (σ : Type) (pool : Pool σ) (env : Option String) (req : AddReq)
    (s0 : σ) (st : Stmt) (hst : st ∈ (addTableRow pool env req s0).log) :
    st = insertStmt req.tableName req.data ∨ st = pkStmt env req.tableName ∨
      ∃ (result pkRes : QResult) (s1 s2 : σ),
        pool.query s1 (pkStmt env req.tableName) = (.ok pkRes, s2) ∧
        (st ∈ (addIdentity pool req.tableName req.data result pkRes.rows s2).2.2.1 ∨
         st = reselectStmt req.tableName
            (addIdentity pool req.tableName req.data result pkRes.rows s2).1
            (addIdentity pool req.tableName req.data result pkRes.rows s2).2.1 req.data) := by
  unfold addTableRow at hst
  simp only [] at hst
  split at hst
  · simp at hst
  · split at hst
    · simp only [List.mem_singleton] at hst
      exact Or.inl hst
    · split at hst
      · simp only [List.mem_cons, List.mem_singleton, List.not_mem_nil, or_false] at hst
        rcases hst with h | h
        · exact Or.inl h
        · exact Or.inr (Or.inl h)
      · rename_i result s1 _ _ pkRes s2 hpk
        have key : st ∈ [insertStmt req.tableName req.data, pkStmt env req.tableName] ++
            (addIdentity pool req.tableName req.data result pkRes.rows s2).2.2.1 ++
            [reselectStmt req.tableName
              (addIdentity pool req.tableName req.data result pkRes.rows s2).1
              (addIdentity pool req.tableName req.data result pkRes.rows s2).2.1 req.data] := by
          repeat' split at hst
          all_goals exact hst
        simp only [List.mem_append, List.mem_cons, List.mem_singleton, List.not_mem_nil,
          or_false] at key
        rcases key with ((h | h) | h) | h
        · exact Or.inl h
        · exact Or.inr (Or.inl h)
        · exact Or.inr (Or.inr ⟨result, pkRes, s1, s2, hpk, Or.inl h⟩)
        · exact Or.inr (Or.inr ⟨result, pkRes, s1, s2, hpk, Or.inr h⟩)

/-- The sampled columns of a database with clean names are plain. -/
theorem sampledColumns_plain (σ : Type) (pool : Pool σ) (hpool : CleanNames pool) (s : σ)
    (q : Stmt) (columns : List String)
    (h : sampledColumns (pool.query s q).1 = some columns) : ∀ c ∈ columns, Plain c := by
  rcases hq : pool.query s q with ⟨reply, s1⟩
  rw [hq] at h
  unfold sampledColumns at h
  simp only [] at h
  split at h
  · simp at h
  · rename_i sample
    split at h
    · simp at h
    · rename_i first rest hrows
      split at h
      · simp at h
      · simp only [Option.some.injEq] at h
        subst h
        exact (hpool s q sample s1 hq first (by rw [hrows]; exact List.mem_cons_self _ _)).1

/-- C4, counterexample: for the body `{"a?": 1}` the `INSERT` handed to
`pool.query` has two `?` and one parameter. -/
theorem addTableRow_insert_not_balanced :
    (addTableRow scripted none ⟨"t", [("a?", .num 1)]⟩ []).log =
        [⟨"\n      INSERT INTO `t` (`a?`) \n      VALUES (?);\n    ", [.num 1]⟩] ∧
      ¬ Balanced ⟨"\n      INSERT INTO `t` (`a?`) \n      VALUES (?);\n    ", [.num 1]⟩ := by
  decide

/-- C4, as amended. When the table name, the keys of the request body and the
names the database hands back contain no `?`, every statement a handler passes
to `pool.query` has exactly as many `?` as its parameter list has entries. -/
theorem statements_balanced_on_plain_names (σ : Type) (pool : Pool σ)
    (hpool : CleanNames pool) (env : Option String) :
    (∀ s0, ∀ st ∈ (getTables pool env s0).log, Balanced st) ∧
    (∀ tableName s0, ∀ st ∈ (getTableColumns pool env tableName s0).log, Balanced st) ∧
    (∀ (req : GetReq) s0, Plain req.tableName →
      ∀ st ∈ (getTableData pool req s0).log, Balanced st) ∧
    (∀ (req : AddReq) s0, Plain req.tableName → (∀ k ∈ keys req.data, Plain k) →
      ∀ st ∈ (addTableRow pool env req s0).log, Balanced st) ∧
    (∀ (req : UpdateReq) s0, Plain req.tableName → (∀ k ∈ keys req.data, Plain k) →
      ∀ st ∈ (updateTableRow pool env req s0).log, Balanced st) ∧
    (∀ (req : DeleteReq) s0, Plain req.tableName →
      ∀ st ∈ (deleteTableRow pool env req s0).log, Balanced st) := by
  have hpkRows : ∀ (s : σ) (q : Stmt) (res : QResult) (s1 : σ),
      pool.query s q = (.ok res, s1) →
      ∀ row ∈ res.rows, Plain (templateString (field row "column_name")) :=
    fun s q res s1 h row hrow => (hpool s q res s1 h row hrow).2
  refine ⟨?_, ?_, ?_, ?_, ?_, ?_⟩
  · intro s0 st hst
    unfold getTables at hst
    simp only [] at hst
    split at hst <;>
      · simp only [List.mem_singleton] at hst
        subst hst
        simp only [Balanced, List.length_cons, List.length_nil]
        decide
  · intro tableName s0 st hst
    unfold getTableColumns at hst
    simp only [] at hst
    split at hst <;>
      · simp only [List.mem_singleton] at hst
        subst hst
        simp only [Balanced, List.length_cons, List.length_nil]
        decide
  · intro req s0 ht st hst
    cases hcols : sampledColumns (pool.query s0 (sampleStmt req.tableName)).1 with
    | none =>
      rw [getTableData_log_of_no_columns σ pool req s0 hcols] at hst
      simp only [List.mem_singleton] at hst
      subst hst
      exact balanced_sampleStmt _ ht
    | some columns =>
      have hc := sampledColumns_plain σ pool hpool _ _ columns hcols
      rcases getTableData_log_of_columns σ pool req s0 columns hcols with l | l <;>
        rw [l] at hst <;>
        simp only [List.mem_cons, List.mem_singleton, List.not_mem_nil, or_false] at hst
      · rcases hst with h | h <;> subst h
        · exact balanced_sampleStmt _ ht
        · exact balanced_countQuery _ _ _ ht hc
      · rcases hst with h | h | h <;> subst h
        · exact balanced_sampleStmt _ ht
        · exact balanced_countQuery _ _ _ ht hc
        · exact balanced_rowQuery _ _ _ _ _ ht hc
  · intro req s0 ht hk st hst
    rcases addTableRow_log_mem σ pool env req s0 st hst with
      h | h | ⟨result, pkRes, s1, s2, hq, h | h⟩
    · subst h; exact balanced_insertStmt _ _ ht hk
    · subst h; exact balanced_pkStmt _ _
    · have hspec := addIdentity_spec σ pool hpool req.tableName req.data result pkRes.rows s2
        (hpkRows _ _ _ _ hq)
      rw [hspec.2 st h]
      exact balanced_sampleStmt _ ht
    · have hspec := addIdentity_spec σ pool hpool req.tableName req.data result pkRes.rows s2
        (hpkRows _ _ _ _ hq)
      subst h
      exact balanced_reselectStmt _ _ _ _ ht hspec.1 hk
  · intro req s0 ht hk st hst
    rcases hq : pool.query s0 (pkStmt env req.tableName) with ⟨reply, s1⟩
    cases reply with
    | error e =>
      rw [updateTableRow_log_of_error σ pool env req s0 e s1 hq] at hst
      simp only [List.mem_singleton] at hst
      subst hst
      exact balanced_pkStmt _ _
    | ok pkRes =>
      have hspec := updateIdentity_spec σ pool hpool req.tableName pkRes.rows s1
        (hpkRows _ _ _ _ hq)
      rcases updateTableRow_log_of_ok σ pool env req s0 pkRes s1 hq with l | l <;>
        rw [l] at hst <;>
        simp only [List.mem_append, List.mem_cons, List.mem_singleton, List.not_mem_nil,
          or_false] at hst
      · rcases hst with (h | h) | h
        · subst h; exact balanced_pkStmt _ _
        · rw [hspec.2 st h]; exact balanced_sampleStmt _ ht
        · subst h; exact balanced_updateStmt _ _ _ _ ht hspec.1 hk
      · rcases hst with (h | h) | h | h
        · subst h; exact balanced_pkStmt _ _
        · rw [hspec.2 st h]; exact balanced_sampleStmt _ ht
        · subst h; exact balanced_updateStmt _ _ _ _ ht hspec.1 hk
        · subst h; exact balanced_selectByIdStmt _ _ _ ht hspec.1
  · intro req s0 ht st hst
    rcases hq : pool.query s0 (pkStmt env req.tableName) with ⟨reply, s1⟩
    cases reply with
    | error e =>
      rw [deleteTableRow_log_of_error σ pool env req s0 e s1 hq] at hst
      simp only [List.mem_singleton] at hst
      subst hst
      exact balanced_pkStmt _ _
    | ok pkRes =>
      have hspec := deleteIdentity_spec σ pool hpool req.tableName pkRes.rows s1
        (hpkRows _ _ _ _ hq)
      rcases deleteTableRow_log_of_ok σ pool env req s0 pkRes s1 hq with l | l <;>
        rw [l] at hst <;>
        simp only [List.mem_append, List.mem_cons, List.mem_singleton, List.not_mem_nil,
          or_false] at hst
      · rcases hst with (h | h) | h
        · subst h; exact balanced_pkStmt _ _
        · rw [hspec.2 st h]; exact balanced_sampleStmt _ ht
        · subst h; exact balanced_selectByIdStmt _ _ _ ht hspec.1
      · rcases hst with (h | h) | h | h
        · subst h; exact balanced_pkStmt _ _
        · rw [hspec.2 st h]; exact balanced_sampleStmt _ ht
        · subst h; exact balanced_selectByIdStmt _ _ _ ht hspec.1
        · subst h; exact balanced_deleteStmt _ _ _ ht hspec.1

/-- C4 as amended, worked example: the `UPDATE` that `updateTableRow` issues
for `PUT /tables/users/data/1` with the body `{"name": "Bob"}`. -/
theorem statements_balanced_on_plain_names_witness :
    Balanced ⟨"\n      UPDATE `users` \n      SET `name` = ? \n      WHERE `id` = ?;\n    ",
      [.str "Bob", .str "1"]⟩ :=
  (statements_balanced_on_plain_names Nat demo
      (by
        intro s q res s1 h row hrow
        cases s with
        | zero =>
          simp only [demo, Prod.mk.injEq, Except.ok.injEq] at h
          obtain ⟨h, _⟩ := h
          subst h
          simp only [List.mem_singleton] at hrow
          subst hrow
          decide
        | succ n =>
          simp only [demo, Prod.mk.injEq, Except.ok.injEq] at h
          obtain ⟨h, _⟩ := h
          subst h
          simp only [List.mem_singleton] at hrow
          subst hrow
          decide)
      none).2.2.2.2.1 ⟨"users", "1", [("name", .str "Bob")]⟩ 0 (by decide) (by decide) _
    (by decide)

/-! ### Pagination -/

/-- A 200 answer of `getTableData` carries the page body built from the
counting row and the query-string values. -/
theorem getTableData_ok_body (σ : Type) (pool : Pool σ) (req : GetReq) (s0 : σ)
    (h200 : (getTableData pool req s0).response.status = 200) :
    ∃ data total, (getTableData pool req s0).response.body =
      .page data total (parseInt (req.page.getD 1)) (parseInt (req.limit.getD 50))
        (pagesOf total (req.limit.getD 50)) := by
  revert h200
  unfold getTableData
  simp only []
  repeat' split
  all_goals first
    | (intro _; exact ⟨_, _, rfl⟩)
    | (intro h; simp at h)

/-! ### Numbers -/

/-- The rounding agrees with JavaScript on known values: the doubles of `0.1`,
of `1/3` and of `0.1 + 0.2`; `(1.15 - 1) * 100` is below 15;
`parseInt('9007199254740993')` is `9007199254740992`; `Math.ceil(21 / '1.4')`
is 16; `parseInt` truncates towards zero. -/
theorem toDouble_examples :
    toDouble (1 / 10) = 3602879701896397 / 36028797018963968 ∧
    toDouble (1 / 3) = 6004799503160661 / 18014398509481984 ∧
    toDouble (toDouble (1 / 10) + toDouble (2 / 10)) = 1351079888211149 / 4503599627370496 ∧
    offsetOf (23 / 20) 100 = 8444249301319675 / 562949953421312 ∧
    parseInt (offsetOf (23 / 20) 100) = 14 ∧
    parseInt 9007199254740993 = 9007199254740992 ∧
    pagesOf (some (.num 21)) (7 / 5) = some 16 ∧
    parseInt (5 / 2) = 2 ∧ parseInt (-5 / 2) = -2 := by
  decide!

/-- No halving is left at 0. -/
theorem bitLength_zero (fuel : Nat) : bitLength fuel 0 = 0 := by
  cases fuel <;> simp [bitLength]

/-- With enough fuel `bitLength` counts the binary digits. -/
theorem bitLength_spec (fuel : Nat) : ∀ n : Nat, n ≤ fuel → 0 < n →
    0 < bitLength fuel n ∧ 2 ^ (bitLength fuel n - 1) ≤ n ∧ n < 2 ^ bitLength fuel n := by
  induction fuel with
  | zero => intro n h1 h2; omega
  | succ fuel ih =>
    intro n h1 h2
    have hn : n ≠ 0 := by omega
    simp only [bitLength, hn, if_false]
    by_cases h : n / 2 = 0
    · rw [h, bitLength_zero]
      have : n = 1 := by omega
      subst this
      simp
    · obtain ⟨hb, hlo, hhi⟩ := ih (n / 2) (by omega) (by omega)
      refine ⟨by omega, ?_, ?_⟩
      · have e : bitLength fuel (n / 2) + 1 - 1 = (bitLength fuel (n / 2) - 1) + 1 := by omega
        rw [e, pow_succ]
        omega
      · rw [pow_succ]
        omega

/-- The number `floorLog2 n` is the exponent of the highest power of two up to
`n`. -/
theorem floorLog2_spec (n : Nat) (h : 0 < n) :
    2 ^ floorLog2 n ≤ n ∧ n < 2 ^ (floorLog2 n + 1) := by
  obtain ⟨hb, hlo, hhi⟩ := bitLength_spec n n (le_refl n) h
  unfold floorLog2
  have e : bitLength n n - 1 + 1 = bitLength n n := by omega
  rw [e]
  exact ⟨hlo, hhi⟩

/-- An integer is rounded to itself. -/
theorem roundHalfEven_intCast (z : Int) : roundHalfEven (z : ℚ) = z := by
  unfold roundHalfEven
  simp

/-- The rounding to an integer moves a number by a half at most. -/
theorem roundHalfEven_error (s : ℚ) : |(roundHalfEven s : ℚ) - s| ≤ 1 / 2 := by
  have h1 := Int.floor_le s
  have h2 := Int.lt_floor_add_one s
  unfold roundHalfEven
  simp only []
  rw [abs_le]
  split
  · constructor <;> linarith
  · split
    · push_cast
      constructor <;> linarith
    · split
      · constructor <;> linarith
      · push_cast
        constructor <;> linarith

/-- The power of two with a natural exponent. -/
theorem pow2_natCast (k : Nat) : pow2 (k : Int) = ((2 ^ k : Nat) : ℚ) := by
  unfold pow2
  have h : (-(k : Int)).toNat = 0 := by omega
  simp [h]

/-- The power of two with a negated natural exponent. -/
theorem pow2_neg_natCast (k : Nat) : pow2 (-(k : Int)) = 1 / ((2 ^ k : Nat) : ℚ) := by
  unfold pow2
  have h : (-(k : Int)).toNat = 0 := by omega
  simp [h]

/-- The function `pow2` is the integer power of 2. -/
theorem pow2_eq_zpow (e : Int) : pow2 e = (2 : ℚ) ^ e := by
  rcases Int.le_total 0 e with h | h
  · obtain ⟨k, rfl⟩ := Int.eq_ofNat_of_zero_le h
    rw [pow2_natCast, zpow_natCast]
    push_cast
    rfl
  · obtain ⟨k, hk⟩ : ∃ k : Nat, e = -(k : Int) := ⟨e.natAbs, by omega⟩
    subst hk
    rw [pow2_neg_natCast, zpow_neg, zpow_natCast]
    push_cast
    rw [one_div]

/-- A power of two is positive. -/
theorem pow2_pos (e : Int) : 0 < pow2 e := by
  rw [pow2_eq_zpow]
  positivity

/-- The binary exponent of a positive natural number. -/
theorem binade_natCast (a : Nat) (h : 0 < a) : binade (a : ℚ) = (floorLog2 a : Int) := by
  unfold binade
  have h1 : floorLog2 1 = 0 := by decide
  simp only [Rat.num_natCast, Int.natAbs_ofNat, Rat.den_natCast, h1, Nat.cast_zero, sub_zero,
    pow2_natCast]
  have h2 : ((2 ^ floorLog2 a : Nat) : ℚ) ≤ (a : ℚ) := by
    exact_mod_cast (floorLog2_spec a h).1
  rw [if_pos h2]

/-- The power of two of the binary exponent of `q > 0` is at most `q`. -/
theorem pow2_binade_le (q : ℚ) (hq : 0 < q) : pow2 (binade q) ≤ q := by
  unfold binade
  simp only []
  split
  · assumption
  · have hN : 0 < q.num.natAbs := Int.natAbs_pos.mpr (ne_of_gt (Rat.num_pos.mpr hq))
    have hD : 0 < q.den := q.den_pos
    have h1 := (floorLog2_spec q.num.natAbs hN).1
    have h2 := (floorLog2_spec q.den hD).2
    have hq' : q = (q.num.natAbs : ℚ) / (q.den : ℚ) := by
      have hnum : (q.num : ℚ) = ((q.num.natAbs : Nat) : ℚ) := by
        have := Int.natAbs_of_nonneg (le_of_lt (Rat.num_pos.mpr hq))
        have h3 := congrArg (Int.cast : Int → ℚ) this
        rw [Int.cast_natCast] at h3
        exact h3.symm
      rw [← hnum]
      exact (Rat.num_div_den q).symm
    rw [pow2_eq_zpow]
    have e : (2 : ℚ) ^ ((floorLog2 q.num.natAbs : Int) - (floorLog2 q.den : Int) - 1) =
        ((2 ^ floorLog2 q.num.natAbs : Nat) : ℚ) / ((2 ^ (floorLog2 q.den + 1) : Nat) : ℚ) := by
      have : ((floorLog2 q.num.natAbs : Int) - (floorLog2 q.den : Int) - 1) =
          (floorLog2 q.num.natAbs : Int) - ((floorLog2 q.den + 1 : Nat) : Int) := by
        push_cast; ring
      rw [this, zpow_sub₀ (by norm_num : (2 : ℚ) ≠ 0), zpow_natCast, zpow_natCast]
      push_cast
      rfl
    rw [e]
    conv_rhs => rw [hq']
    have hDq : (0 : ℚ) < (q.den : ℚ) := by exact_mod_cast hD
    have h1q : ((2 ^ floorLog2 q.num.natAbs : Nat) : ℚ) ≤ (q.num.natAbs : ℚ) := by
      exact_mod_cast h1
    have h2q : (q.den : ℚ) ≤ ((2 ^ (floorLog2 q.den + 1) : Nat) : ℚ) := by
      exact_mod_cast le_of_lt h2
    exact div_le_div₀ (by positivity) h1q hDq h2q

/-- A positive `q` lies below the next power of two after the one of its
binary exponent. -/
theorem lt_pow2_binade_succ (q : ℚ) (hq : 0 < q) : q < pow2 (binade q + 1) := by
  unfold binade
  simp only []
  split
  · have hN : 0 < q.num.natAbs := Int.natAbs_pos.mpr (ne_of_gt (Rat.num_pos.mpr hq))
    have hD : 0 < q.den := q.den_pos
    have h1 := (floorLog2_spec q.num.natAbs hN).2
    have h2 := (floorLog2_spec q.den hD).1
    have hq' : q = (q.num.natAbs : ℚ) / (q.den : ℚ) := by
      have hnum : (q.num : ℚ) = ((q.num.natAbs : Nat) : ℚ) := by
        have := Int.natAbs_of_nonneg (le_of_lt (Rat.num_pos.mpr hq))
        have h3 := congrArg (Int.cast : Int → ℚ) this
        rw [Int.cast_natCast] at h3
        exact h3.symm
      rw [← hnum]
      exact (Rat.num_div_den q).symm
    rw [pow2_eq_zpow]
    have e : (2 : ℚ) ^ ((floorLog2 q.num.natAbs : Int) - (floorLog2 q.den : Int) + 1) =
        ((2 ^ (floorLog2 q.num.natAbs + 1) : Nat) : ℚ) / ((2 ^ floorLog2 q.den : Nat) : ℚ) := by
      have : ((floorLog2 q.num.natAbs : Int) - (floorLog2 q.den : Int) + 1) =
          ((floorLog2 q.num.natAbs + 1 : Nat) : Int) - (floorLog2 q.den : Int) := by
        push_cast; ring
      rw [this, zpow_sub₀ (by norm_num : (2 : ℚ) ≠ 0), zpow_natCast, zpow_natCast]
      push_cast
      rfl
    rw [e]
    conv_lhs => rw [hq']
    have hDq : (0 : ℚ) < (q.den : ℚ) := by exact_mod_cast hD
    have hPq : (0 : ℚ) < ((2 ^ floorLog2 q.den : Nat) : ℚ) := by positivity
    have h1q : (q.num.natAbs : ℚ) < ((2 ^ (floorLog2 q.num.natAbs + 1) : Nat) : ℚ) := by
      exact_mod_cast h1
    have h2q : ((2 ^ floorLog2 q.den : Nat) : ℚ) ≤ (q.den : ℚ) := by exact_mod_cast h2
    rw [div_lt_div_iff₀ hDq hPq]
    calc (q.num.natAbs : ℚ) * ((2 ^ floorLog2 q.den : Nat) : ℚ)
        ≤ (q.num.natAbs : ℚ) * (q.den : ℚ) :=
          mul_le_mul_of_nonneg_left h2q (by positivity)
      _ < ((2 ^ (floorLog2 q.num.natAbs + 1) : Nat) : ℚ) * (q.den : ℚ) :=
          mul_lt_mul_of_pos_right h1q hDq
  · rename_i h
    rw [sub_add_cancel]
    exact not_le.mp h

/-- A natural number below `2^53` is a double. -/
theorem toDouble_natCast (a : Nat) (h : a < 2 ^ 53) : toDouble (a : ℚ) = (a : ℚ) := by
  by_cases h0 : a = 0
  · subst h0
    simp [toDouble]
  have hpos : 0 < a := Nat.pos_of_ne_zero h0
  have hq0 : (a : ℚ) ≠ 0 := by exact_mod_cast h0
  have hq1 : ¬ (a : ℚ) < 0 := by
    have : (0 : ℚ) ≤ (a : ℚ) := by exact_mod_cast Nat.zero_le a
    exact not_lt.mpr this
  have hL : floorLog2 a < 53 := by
    have := (floorLog2_spec a hpos).1
    exact (Nat.pow_lt_pow_iff_right (by norm_num : 1 < 2)).mp (lt_of_le_of_lt this h)
  obtain ⟨k, hk⟩ : ∃ k : Nat, ((floorLog2 a : Int) - 52) = -(k : Int) :=
    ⟨52 - floorLog2 a, by omega⟩
  unfold toDouble
  simp only [hq0, hq1, if_false, binade_natCast a hpos, hk, pow2_neg_natCast]
  have hp : ((2 ^ k : Nat) : ℚ) ≠ 0 := by positivity
  have e : (a : ℚ) / (1 / ((2 ^ k : Nat) : ℚ)) = (((a * 2 ^ k : Nat) : Int) : ℚ) := by
    push_cast
    field_simp
  rw [e, roundHalfEven_intCast]
  push_cast
  field_simp

/-- The rounding is symmetric. -/
theorem toDouble_neg (q : ℚ) : toDouble (-q) = -toDouble q := by
  unfold toDouble
  by_cases h0 : q = 0
  · simp [h0]
  · rcases lt_or_gt_of_ne h0 with h | h
    · have h1 : ¬ (-q < 0) := by simp; exact le_of_lt h
      have h2 : -q ≠ 0 := by simpa using h0
      simp only [h0, h2, h, h1, if_false, if_true, neg_neg]
    · have h1 : -q < 0 := by simpa using h
      have h2 : -q ≠ 0 := by simpa using h0
      have h3 : ¬ q < 0 := not_lt.mpr (le_of_lt h)
      simp only [h0, h2, h3, h1, if_false, if_true, neg_neg]

/-- An integer of magnitude below `2^53` is a double. -/
theorem toDouble_intCast (n : Int) (h : n.natAbs < 2 ^ 53) : toDouble (n : ℚ) = (n : ℚ) := by
  rcases Int.natAbs_eq n with e | e
  · have e2 : (n : ℚ) = ((n.natAbs : Nat) : ℚ) := by
      have := congrArg (Int.cast : Int → ℚ) e
      rw [Int.cast_natCast] at this
      exact this
    rw [e2, toDouble_natCast _ h]
  · have e2 : (n : ℚ) = -((n.natAbs : Nat) : ℚ) := by
      have := congrArg (Int.cast : Int → ℚ) e
      rw [Int.cast_neg, Int.cast_natCast] at this
      exact this
    rw [e2, toDouble_neg, toDouble_natCast _ h]

/-- The rounding moves `q > 0` by at most half a unit in the last place. -/
theorem toDouble_error (q : ℚ) (hq : 0 < q) :
    |toDouble q - q| ≤ pow2 (binade q) / 2 ^ 53 := by
  have h0 : q ≠ 0 := ne_of_gt hq
  have h1 : ¬ q < 0 := not_lt.mpr (le_of_lt hq)
  unfold toDouble
  simp only [h0, h1, if_false]
  have hp := pow2_pos (binade q - 52)
  have herr := roundHalfEven_error (q / pow2 (binade q - 52))
  have e1 : (roundHalfEven (q / pow2 (binade q - 52)) : ℚ) * pow2 (binade q - 52) - q =
      ((roundHalfEven (q / pow2 (binade q - 52)) : ℚ) - q / pow2 (binade q - 52)) *
        pow2 (binade q - 52) := by
    field_simp
  have e2 : pow2 (binade q) / 2 ^ 53 = 1 / 2 * pow2 (binade q - 52) := by
    rw [pow2_eq_zpow, pow2_eq_zpow, zpow_sub₀ (by norm_num : (2 : ℚ) ≠ 0)]
    norm_num
    ring
  rw [e1, e2, abs_mul, abs_of_pos hp]
  exact mul_le_mul_of_nonneg_right herr (le_of_lt hp)

/-- The quotient of a total `0 ≤ n < 2^53` by an integer `l > 0`, computed on
doubles, rounds up to the same integer as the exact quotient. -/
theorem ceil_toDouble_div (n l : Int) (hn0 : 0 ≤ n) (hn : n.natAbs < 2 ^ 53) (hl0 : 0 < l) :
    ⌈toDouble ((n : ℚ) / (l : ℚ))⌉ = ⌈(n : ℚ) / (l : ℚ)⌉ := by
  have hlq : (0 : ℚ) < (l : ℚ) := by exact_mod_cast hl0
  rcases eq_or_lt_of_le hn0 with h | h
  · rw [← h]
    simp [toDouble]
  have hnq : (0 : ℚ) < (n : ℚ) := by exact_mod_cast h
  have hx : (0 : ℚ) < (n : ℚ) / (l : ℚ) := div_pos hnq hlq
  by_cases hdiv : l ∣ n
  · obtain ⟨c, rfl⟩ := hdiv
    have e : ((l * c : Int) : ℚ) / (l : ℚ) = (c : ℚ) := by
      push_cast
      field_simp
    rw [e]
    have hc : c.natAbs < 2 ^ 53 := by
      have hc0 : 0 < c := by
        rcases lt_trichotomy c 0 with h1 | h1 | h1
        · have := mul_neg_of_pos_of_neg hl0 h1
          omega
        · subst h1; simp at h
        · exact h1
      have : c ≤ l * c := by nlinarith
      omega
    rw [toDouble_intCast c hc]
  · have herr := toDouble_error _ hx
    have hb := pow2_binade_le _ hx
    have hnlt : (n : ℚ) < 2 ^ 53 := by
      have : n < 2 ^ 53 := by omega
      exact_mod_cast this
    have hδ : pow2 (binade ((n : ℚ) / (l : ℚ))) / 2 ^ 53 < 1 / (l : ℚ) := by
      have h1 : pow2 (binade ((n : ℚ) / (l : ℚ))) / 2 ^ 53 ≤ (n : ℚ) / (l : ℚ) / 2 ^ 53 :=
        div_le_div_of_nonneg_right hb (by positivity)
      have h2 : (n : ℚ) / (l : ℚ) / 2 ^ 53 < 1 / (l : ℚ) := by
        rw [div_div, div_lt_div_iff₀ (by positivity) hlq]
        nlinarith
      exact lt_of_le_of_lt h1 h2
    rw [abs_le] at herr
    have hc1 : (n : ℚ) / (l : ℚ) ≤ (⌈(n : ℚ) / (l : ℚ)⌉ : ℚ) := Int.le_ceil _
    have hc2 : ((⌈(n : ℚ) / (l : ℚ)⌉ : ℚ) - 1) < (n : ℚ) / (l : ℚ) := by
      have := Int.ceil_lt_add_one ((n : ℚ) / (l : ℚ))
      linarith
    have hup : (n : ℚ) / (l : ℚ) + 1 / (l : ℚ) ≤ (⌈(n : ℚ) / (l : ℚ)⌉ : ℚ) := by
      have h1 : n < ⌈(n : ℚ) / (l : ℚ)⌉ * l := by
        have h2 : (n : ℚ) ≤ (⌈(n : ℚ) / (l : ℚ)⌉ : ℚ) * (l : ℚ) := by
          rw [div_le_iff₀ hlq] at hc1
          exact hc1
        have h3 : n ≤ ⌈(n : ℚ) / (l : ℚ)⌉ * l := by exact_mod_cast h2
        rcases eq_or_lt_of_le h3 with h4 | h4
        · exact absurd (Dvd.intro_left _ h4.symm) hdiv
        · exact h4
      have h5 : (n : ℚ) + 1 ≤ (⌈(n : ℚ) / (l : ℚ)⌉ : ℚ) * (l : ℚ) := by
        have : n + 1 ≤ ⌈(n : ℚ) / (l : ℚ)⌉ * l := by omega
        exact_mod_cast this
      rw [← add_div, div_le_iff₀ hlq]
      exact h5
    have hlo : (⌈(n : ℚ) / (l : ℚ)⌉ : ℚ) - 1 ≤ (n : ℚ) / (l : ℚ) - 1 / (l : ℚ) := by
      have h1 : (⌈(n : ℚ) / (l : ℚ)⌉ - 1) * l < n := by
        have h2 : ((⌈(n : ℚ) / (l : ℚ)⌉ : ℚ) - 1) * (l : ℚ) < (n : ℚ) := by
          rw [lt_div_iff₀ hlq] at hc2
          exact hc2
        exact_mod_cast h2
      have h5 : ((⌈(n : ℚ) / (l : ℚ)⌉ : ℚ) - 1) * (l : ℚ) ≤ (n : ℚ) - 1 := by
        have : (⌈(n : ℚ) / (l : ℚ)⌉ - 1) * l ≤ n - 1 := by omega
        exact_mod_cast this
      rw [← sub_div, le_div_iff₀ hlq]
      exact h5
    rw [Int.ceil_eq_iff]
    constructor
    · linarith [herr.1]
    · linarith [herr.2]

/-- At an integer of magnitude below `2^53`, `parseInt` is the identity. -/
theorem parseInt_intCast (n : Int) (h : n.natAbs < 2 ^ 53) : parseInt (n : ℚ) = n := by
  unfold parseInt
  have e : (if (0 : ℚ) ≤ (n : ℚ) then ⌊(n : ℚ)⌋ else ⌈(n : ℚ)⌉) = n := by
    split
    · exact Int.floor_intCast n
    · exact Int.ceil_intCast n
  rw [e, toDouble_intCast n h]
  exact Int.floor_intCast n

/-- The offset of an integer page and an integer limit is exact as long as the
page, its predecessor, the limit and the product have a magnitude below
`2^53`. -/
theorem offsetOf_intCast (p l : Int) (hp : p.natAbs < 2 ^ 53) (hp1 : (p - 1).natAbs < 2 ^ 53)
    (hl : l.natAbs < 2 ^ 53) (ho : ((p - 1) * l).natAbs < 2 ^ 53) :
    offsetOf (p : ℚ) (l : ℚ) = (((p - 1) * l : Int) : ℚ) := by
  unfold offsetOf
  have e1 : (p : ℚ) - 1 = ((p - 1 : Int) : ℚ) := by push_cast; ring
  have e2 : ((p - 1 : Int) : ℚ) * (l : ℚ) = (((p - 1) * l : Int) : ℚ) := by push_cast; ring
  rw [toDouble_intCast p hp, e1, toDouble_intCast (p - 1) hp1, toDouble_intCast l hl, e2,
    toDouble_intCast _ ho]

/-- The page count of an integer total and a non-zero limit. -/
theorem pagesOf_num (n : Int) (limit : ℚ) (h : limit ≠ 0) :
    pagesOf (some (.num n)) limit =
      some ⌈toDouble (toDouble (n : ℚ) / toDouble limit)⌉ := by
  simp [pagesOf, toNumber, h]

/-- A quotient of a non-negative total by a positive limit rounds up to zero
only when the total is zero. -/
theorem ceil_div_eq_zero (n : Int) (limit : ℚ) (hn : 0 ≤ n) (hl : 0 < limit)
    (h : ⌈(n : ℚ) / limit⌉ = 0) : n = 0 := by
  have h1 : (n : ℚ) / limit ≤ ((0 : Int) : ℚ) := Int.ceil_le.mp (le_of_eq h)
  have h2 : (n : ℚ) ≤ 0 := by
    by_contra hpos
    push_neg at hpos
    have := div_pos hpos hl
    simp only [Int.cast_zero] at h1
    exact absurd h1 (not_le.mpr this)
  have h3 : n ≤ 0 := by exact_mod_cast h2
  omega

/-- For an integer limit `0 < l < 2^53` (given in the query string or the
default 50) every 200 answer of `getTableData` reports the limit `l`, and for a
reported total that is an integer `0 ≤ n < 2^53` it reports `pages = ⌈n / l⌉`,
so that `pages = 0` forces `n = 0`. -/
theorem getTableData_pages_of_integer_limit (σ : Type) (pool : Pool σ) (req : GetReq)
    (s0 : σ) (l : Int) (hl : req.limit.getD 50 = (l : ℚ)) (hlimit : 0 < l)
    (hsafe : l.natAbs < 2 ^ 53)
    (h200 : (getTableData pool req s0).response.status = 200) :
    ∃ data total page pages, (getTableData pool req s0).response.body =
        .page data total page l pages ∧
      ∀ n : Int, total = some (.num n) → 0 ≤ n → n.natAbs < 2 ^ 53 →
        pages = some ⌈(n : ℚ) / (l : ℚ)⌉ ∧ (pages = some 0 → n = 0) := by
  obtain ⟨data, total, hbody⟩ := getTableData_ok_body σ pool req s0 h200
  rw [hl, parseInt_intCast l hsafe] at hbody
  refine ⟨data, total, _, _, hbody, ?_⟩
  intro n hn hn0 hnsafe
  subst hn
  have hl0 : (0 : ℚ) < (l : ℚ) := by exact_mod_cast hlimit
  rw [pagesOf_num n _ (ne_of_gt hl0), toDouble_intCast n hnsafe, toDouble_intCast l hsafe,
    ceil_toDouble_div n l hn0 hnsafe hlimit]
  refine ⟨rfl, ?_⟩
  intro hp
  exact ceil_div_eq_zero n _ hn0 hl0 (Option.some.inj hp)

/-- C5, the failing input: `GET /tables/users/data?limit=2.5` on a table of
five rows is answered 200 with `total = 5`, `limit = 2` and `pages = 2`, while
`⌈5 / 2⌉ = 3`: the limit is parsed with `parseInt` for the statement and for
the reported `limit`, but not for the division that gives `pages`. -/
theorem getTableData_pages_of_fractional_limit :
    (getTableData scripted ⟨"users", none, none, some (5 / 2)⟩
        [selected [[("id", .num 1)]], selected [[("total", .num 5)]],
         selected [[("id", .num 1)], [("id", .num 2)]]]).response =
      ⟨200, .page [[("id", .num 1)], [("id", .num 2)]] (some (.num 5)) 1 2 (some 2)⟩ ∧
    (getTableData scripted ⟨"users", none, none, some (5 / 2)⟩
        [selected [[("id", .num 1)]], selected [[("total", .num 5)]],
         selected [[("id", .num 1)], [("id", .num 2)]]]).log =
      [⟨"SELECT * FROM `users` LIMIT 1", []⟩,
       ⟨"SELECT COUNT(*) as total FROM `users`", []⟩,
       ⟨"SELECT * FROM `users` LIMIT ? OFFSET ?", [.num 2, .num 0]⟩] ∧
    ⌈((5 : Int) : ℚ) / ((2 : Int) : ℚ)⌉ = 3 := by
  decide!

/-- The row query ends with the pagination clause and its two parameters. -/
theorem rowQuery_pagination (tableName : String) (columns : List String)
    (search : Option String) (limit offset : ℚ) :
    ∃ (pre : String) (ps : List Value),
      (rowQuery tableName columns search limit offset).sql = pre ++ " LIMIT ? OFFSET ?" ∧
      (rowQuery tableName columns search limit offset).params =
        ps ++ [.num (parseInt limit), .num (parseInt offset)] :=
  ⟨_, _, rfl, rfl⟩

/-- C6, counterexample.  (1) `GET /tables/users/data?limit=9007199254740993`,
the page being absent: the limit is the integer `2^53 + 1`, and the row query
binds `9007199254740992`, the number `parseInt` returns for these digits.
(2) `GET /tables/users/data?page=94906268&limit=94906267`: page and limit are
bound as they are, but `(page - 1) * limit = 9007199515875289` is above `2^53`
and the row query binds the offset `9007199515875288`. -/
theorem getTableData_limit_beyond_safe_integers :
    ((getTableData scripted ⟨"users", none, none, some 9007199254740993⟩
        [selected [[("id", .num 1)]], selected [[("total", .num 5)]], selected []]).log =
      [⟨"SELECT * FROM `users` LIMIT 1", []⟩,
       ⟨"SELECT COUNT(*) as total FROM `users`", []⟩,
       ⟨"SELECT * FROM `users` LIMIT ? OFFSET ?", [.num 9007199254740992, .num 0]⟩] ∧
      (9007199254740992 : Int) ≠ 9007199254740993 ∧
      (9007199254740993 : Int) = 2 ^ 53 + 1) ∧
    ((getTableData scripted ⟨"users", none, some 94906268, some 94906267⟩
        [selected [[("id", .num 1)]], selected [[("total", .num 5)]], selected []]).log =
      [⟨"SELECT * FROM `users` LIMIT 1", []⟩,
       ⟨"SELECT COUNT(*) as total FROM `users`", []⟩,
       ⟨"SELECT * FROM `users` LIMIT ? OFFSET ?",
        [.num 94906267, .num 9007199515875288]⟩] ∧
      ((94906268 : Int) - 1) * 94906267 = 9007199515875289) := by
  decide!

/-- C6, as amended. For an integer page `p` and an integer limit `l`, given in
the query string or taken from the defaults 1 and 50, such that `p`, `p - 1`,
`l` and `(p - 1) * l` have a magnitude below `2^53`, the row query `r` that
`getTableData` issues ends with `' LIMIT ? OFFSET ?'` and its last two
parameters are `l` and `(p - 1) * l`, in this order. -/
theorem getTableData_limit_offset (σ : Type) (pool : Pool σ) (req : GetReq) (s0 : σ)
    (p l : Int) (hp : req.page.getD 1 = (p : ℚ)) (hl : req.limit.getD 50 = (l : ℚ))
    (hps : p.natAbs < 2 ^ 53) (hp1 : (p - 1).natAbs < 2 ^ 53) (hls : l.natAbs < 2 ^ 53)
    (hos : ((p - 1) * l).natAbs < 2 ^ 53)
    (smp c r : Stmt) (h : (getTableData pool req s0).log = [smp, c, r]) :
    ∃ (pre : String) (ps : List Value),
      r.sql = pre ++ " LIMIT ? OFFSET ?" ∧
      r.params = ps ++ [.num l, .num ((p - 1) * l)] := by
  rcases getTableData_log σ pool req s0 with h1 | ⟨columns, _, h2 | h3⟩
  · rw [h1] at h; simp at h
  · rw [h2] at h; simp at h
  · rw [h3] at h
    simp only [List.cons.injEq, and_true] at h
    obtain ⟨_, _, hr⟩ := h
    subst hr
    obtain ⟨pre, ps, hsql, hparams⟩ := rowQuery_pagination req.tableName columns req.search
      (req.limit.getD 50) (offsetOf (req.page.getD 1) (req.limit.getD 50))
    refine ⟨pre, ps, hsql, ?_⟩
    rw [hparams, hp, hl, offsetOf_intCast p l hps hp1 hls hos, parseInt_intCast l hls,
      parseInt_intCast _ hos]

/-- C6 as amended, worked example: page 3 with 10 rows a page starts at offset
20. -/
theorem getTableData_limit_offset_witness :
    ((some (3 : ℚ)).getD 1 = ((3 : Int) : ℚ) ∧ (some (10 : ℚ)).getD 50 = ((10 : Int) : ℚ) ∧
      (3 : Int).natAbs < 2 ^ 53 ∧ ((3 : Int) - 1).natAbs < 2 ^ 53 ∧
      (10 : Int).natAbs < 2 ^ 53 ∧ (((3 : Int) - 1) * 10).natAbs < 2 ^ 53 ∧
      (getTableData scripted ⟨"users", none, some 3, some 10⟩
          [selected [[("name", .str "Ann")]], selected [[("total", .num 25)]],
           selected []]).log =
        [⟨"SELECT * FROM `users` LIMIT 1", []⟩,
         ⟨"SELECT COUNT(*) as total FROM `users`", []⟩,
         ⟨"SELECT * FROM `users` LIMIT ? OFFSET ?", [.num 10, .num 20]⟩]) ∧
    ∃ (pre : String) (ps : List Value),
      "SELECT * FROM `users` LIMIT ? OFFSET ?" = pre ++ " LIMIT ? OFFSET ?" ∧
      [Value.num 10, Value.num 20] = ps ++ [.num 10, .num ((3 - 1) * 10)] :=
  ⟨⟨by simp, by simp, by decide, by decide, by decide, by decide, by decide!⟩,
   getTableData_limit_offset _ scripted ⟨"users", none, some 3, some 10⟩
    [selected [[("name", .str "Ann")]], selected [[("total", .num 25)]], selected []]
    3 10 (by simp) (by simp) (by decide) (by decide) (by decide) (by decide)
    ⟨"SELECT * FROM `users` LIMIT 1", []⟩
    ⟨"SELECT COUNT(*) as total FROM `users`", []⟩
    ⟨"SELECT * FROM `users` LIMIT ? OFFSET ?", [.num 10, .num 20]⟩ (by decide!)⟩

/-! ### Searching -/

/-- C7. A search term that is empty or all white space changes nothing: the
whole run of `getTableData` (response, statements with their parameters, final
state) is the run without a search term, and on every column list the row query
has no `WHERE` clause and only the parameters limit and offset, the counting
query no `WHERE` clause and no parameter. -/
theorem getTableData_blank_search (σ : Type) (pool : Pool σ) (tableName term : String)
    (page limit : Option ℚ) (s0 : σ) (hb : blank term = true) :
    getTableData pool ⟨tableName, some term, page, limit⟩ s0 =
        getTableData pool ⟨tableName, none, page, limit⟩ s0 ∧
      ∀ (columns : List String) (lim off : ℚ),
        rowQuery tableName columns (some term) lim off =
            ⟨"SELECT * FROM `" ++ tableName ++ "`" ++ " LIMIT ? OFFSET ?",
              [.num (parseInt lim), .num (parseInt off)]⟩ ∧
          rowQuery tableName columns none lim off =
            ⟨"SELECT * FROM `" ++ tableName ++ "`" ++ " LIMIT ? OFFSET ?",
              [.num (parseInt lim), .num (parseInt off)]⟩ ∧
          countQuery tableName columns (some term) =
            ⟨"SELECT COUNT(*) as total FROM `" ++ tableName ++ "`", []⟩ ∧
          countQuery tableName columns none =
            ⟨"SELECT COUNT(*) as total FROM `" ++ tableName ++ "`", []⟩ := by
  have hs : searching (some term) = false := by rw [searching_some, hb]; rfl
  have hn : searching none = false := rfl
  have hr : ∀ (columns : List String) (lim off : ℚ),
      rowQuery tableName columns (some term) lim off =
        ⟨"SELECT * FROM `" ++ tableName ++ "`" ++ " LIMIT ? OFFSET ?",
          [.num (parseInt lim), .num (parseInt off)]⟩ := by
    intro columns lim off
    unfold rowQuery
    simp only [hs]
    rfl
  have hr0 : ∀ (columns : List String) (lim off : ℚ),
      rowQuery tableName columns none lim off =
        ⟨"SELECT * FROM `" ++ tableName ++ "`" ++ " LIMIT ? OFFSET ?",
          [.num (parseInt lim), .num (parseInt off)]⟩ := by
    intro columns lim off
    unfold rowQuery
    simp only [hn]
    rfl
  have hc : ∀ columns : List String, countQuery tableName columns (some term) =
      ⟨"SELECT COUNT(*) as total FROM `" ++ tableName ++ "`", []⟩ := by
    intro columns
    unfold countQuery
    simp only [hs]
    rfl
  have hc0 : ∀ columns : List String, countQuery tableName columns none =
      ⟨"SELECT COUNT(*) as total FROM `" ++ tableName ++ "`", []⟩ := by
    intro columns
    unfold countQuery
    simp only [hn]
    rfl
  refine ⟨?_, fun columns lim off => ⟨hr _ _ _, hr0 _ _ _, hc _, hc0 _⟩⟩
  unfold getTableData
  simp only [hr, hr0, hc, hc0]

/-- C7, worked example: the term of three spaces. -/
theorem getTableData_blank_search_witness :
    blank "   " = true ∧
      (getTableData scripted ⟨"users", some "   ", some 1, some 10⟩
          [selected [[("name", .str "Ann")]], selected [[("total", .num 1)]],
           selected [[("name", .str "Ann")]]] =
        getTableData scripted ⟨"users", none, some 1, some 10⟩
          [selected [[("name", .str "Ann")]], selected [[("total", .num 1)]],
           selected [[("name", .str "Ann")]]]) :=
  ⟨by decide,
   (getTableData_blank_search _ scripted "users" "   " (some 1) (some 10)
      [selected [[("name", .str "Ann")]], selected [[("total", .num 1)]],
       selected [[("name", .str "Ann")]]] (by decide)).1⟩

/-- On non-empty column names no search condition is dropped. -/
theorem searchConditions_of_named (columns : List String) (h : ∀ col ∈ columns, col ≠ "") :
    (columns.map fun col =>
        if col = "" then none else some ("`" ++ col ++ "` LIKE ?")).filterMap id =
      columns.map fun col => "`" ++ col ++ "` LIKE ?" := by
  induction columns with
  | nil => rfl
  | cons col rest ih =>
    have hcol : col ≠ "" := h col (List.mem_cons_self _ _)
    have hrest := ih fun c hc => h c (List.mem_cons_of_mem _ hc)
    simp only [List.map_cons, hcol, if_false, List.filterMap_cons, id, hrest]

/-- The row query of a search over named columns. -/
theorem rowQuery_searching (tableName term : String) (columns : List String)
    (limit offset : ℚ) (hnb : blank term = false) (hne : columns ≠ [])
    (h : ∀ col ∈ columns, col ≠ "") :
    rowQuery tableName columns (some term) limit offset =
      ⟨"SELECT * FROM `" ++ tableName ++ "`" ++
          (" WHERE " ++ arrayJoin " OR " (columns.map fun col => "`" ++ col ++ "` LIKE ?")) ++
          " LIMIT ? OFFSET ?",
        (columns.map fun _ => Value.str ("%" ++ trim term ++ "%")) ++
          [.num (parseInt limit), .num (parseInt offset)]⟩ := by
  have hs : searching (some term) = true := by rw [searching_some, hnb]; rfl
  have hlen : (columns.map fun col => "`" ++ col ++ "` LIKE ?").length > 0 := by
    cases columns with
    | nil => exact absurd rfl hne
    | cons c rest => simp
  unfold rowQuery
  simp only [hs, searchConditions_of_named columns h, hlen, if_true, Option.getD_some,
    List.nil_append, List.map_map]
  rfl

/-- C8. In a search with a term that is not blank, over a sampled first row
whose column names are non-empty, the row query `r` of `getTableData` has the
`WHERE` clause made of one predicate `` `c` LIKE ? `` per column of that row, in
the row's column order, joined by `' OR '`, and binds every one of them to the
trimmed term between two `%`, before the limit and the offset. -/
theorem getTableData_search_predicates (σ : Type) (pool : Pool σ) (req : GetReq) (s0 : σ)
    (term : String) (sample : QResult) (s1 : σ) (first : Row) (rest : List Row)
    (smp c r : Stmt) (hsearch : req.search = some term) (hnb : blank term = false)
    (hq : pool.query s0 (sampleStmt req.tableName) = (.ok sample, s1))
    (hrows : sample.rows = first :: rest) (hnames : ∀ col ∈ keys first, col ≠ "")
    (hlog : (getTableData pool req s0).log = [smp, c, r]) :
    r = ⟨"SELECT * FROM `" ++ req.tableName ++ "`" ++
          (" WHERE " ++
            arrayJoin " OR " ((keys first).map fun col => "`" ++ col ++ "` LIKE ?")) ++
          " LIMIT ? OFFSET ?",
        ((keys first).map fun _ => Value.str ("%" ++ trim term ++ "%")) ++
          [.num (parseInt (req.limit.getD 50)),
           .num (parseInt (offsetOf (req.page.getD 1) (req.limit.getD 50)))]⟩ := by
  by_cases hlen : (keys first).length = 0
  · have hnone : sampledColumns (pool.query s0 (sampleStmt req.tableName)).1 = none := by
      rw [hq]
      simp [sampledColumns, hrows, hlen]
    rw [getTableData_log_of_no_columns σ pool req s0 hnone] at hlog
    simp at hlog
  · have hsome : sampledColumns (pool.query s0 (sampleStmt req.tableName)).1 =
        some (keys first) := by
      rw [hq]
      simp [sampledColumns, hrows, hlen]
    have hne : keys first ≠ [] := fun h => hlen (by rw [h]; rfl)
    rcases getTableData_log_of_columns σ pool req s0 _ hsome with l | l
    · rw [l] at hlog; simp at hlog
    · rw [l] at hlog
      simp only [List.cons.injEq, and_true] at hlog
      obtain ⟨_, _, hr⟩ := hlog
      rw [← hr, hsearch]
      exact rowQuery_searching _ _ _ _ _ hnb hne hnames

/-- C8, worked example: the term `an` over the one column `name`, page 1 with
10 rows a page. -/
theorem getTableData_search_predicates_witness :
    (getTableData scripted ⟨"users", some "an", some 1, some 10⟩
        [selected [[("name", .str "Ann")], [("name", .str "Bob")]],
         selected [[("total", .num 1)]], selected [[("name", .str "Ann")]]]).log =
      [⟨"SELECT * FROM `users` LIMIT 1", []⟩,
       ⟨"SELECT COUNT(*) as total FROM `users` WHERE `name` LIKE ?", [.str "%an%"]⟩,
       ⟨"SELECT * FROM `users` WHERE `name` LIKE ? LIMIT ? OFFSET ?",
        [.str "%an%", .num 10, .num 0]⟩] ∧
    (⟨"SELECT * FROM `users` WHERE `name` LIKE ? LIMIT ? OFFSET ?",
        [.str "%an%", .num 10, .num 0]⟩ : Stmt) =
      ⟨"SELECT * FROM `" ++ "users" ++ "`" ++
          (" WHERE " ++ arrayJoin " OR "
            ((keys [("name", Value.str "Ann")]).map fun col => "`" ++ col ++ "` LIKE ?")) ++
          " LIMIT ? OFFSET ?",
        ((keys [("name", Value.str "Ann")]).map fun _ => Value.str ("%" ++ trim "an" ++ "%")) ++
          [.num (parseInt ((some (10 : ℚ)).getD 50)),
           .num (parseInt (offsetOf ((some (1 : ℚ)).getD 1) ((some (10 : ℚ)).getD 50)))]⟩ :=
  ⟨by decide!,
   getTableData_search_predicates _ scripted ⟨"users", some "an", some 1, some 10⟩
    [selected [[("name", .str "Ann")], [("name", .str "Bob")]],
     selected [[("total", .num 1)]], selected [[("name", .str "Ann")]]]
    "an" ⟨[[("name", .str "Ann")], [("name", .str "Bob")]], 0, 0⟩
    [selected [[("total", .num 1)]], selected [[("name", .str "Ann")]]]
    [("name", .str "Ann")] [[("name", .str "Bob")]]
    ⟨"SELECT * FROM `users` LIMIT 1", []⟩
    ⟨"SELECT COUNT(*) as total FROM `users` WHERE `name` LIKE ?", [.str "%an%"]⟩
    ⟨"SELECT * FROM `users` WHERE `name` LIKE ? LIMIT ? OFFSET ?",
      [.str "%an%", .num 10, .num 0]⟩
    rfl (by decide) rfl rfl (by decide) (by decide!)⟩

/-! ### Inserting -/

/-- C9. `addTableRow` answers a body without fields with status 400 and an
`{error}` body, having passed no statement to `pool.query` and left the
database state as it was; for a body with at least one field the first
statement it passes is the `INSERT`. -/
theorem addTableRow_empty_body (σ : Type) (pool : Pool σ) (env : Option String)
    (req : AddReq) (s0 : σ) :
    (req.data = [] →
      (∃ msg, (addTableRow pool env req s0).response = ⟨400, .error msg⟩) ∧
        (addTableRow pool env req s0).log = [] ∧ (addTableRow pool env req s0).final = s0) ∧
    (req.data ≠ [] →
      ∃ rest, (addTableRow pool env req s0).log =
        insertStmt req.tableName req.data :: rest) := by
  constructor
  · intro h
    obtain ⟨tableName, data⟩ := req
    simp only at h
    subst h
    exact ⟨⟨_, rfl⟩, rfl, rfl⟩
  · intro h
    exact addTableRow_log_head σ pool env req s0 h

/-- C9, worked example: the empty body and the body `{"name": "Ann"}`. -/
theorem addTableRow_empty_body_witness :
    ((∃ msg, (addTableRow scripted none ⟨"users", []⟩ [header 1 1]).response =
          ⟨400, .error msg⟩) ∧
        (addTableRow scripted none ⟨"users", []⟩ [header 1 1]).log = [] ∧
        (addTableRow scripted none ⟨"users", []⟩ [header 1 1]).final = [header 1 1]) ∧
      ∃ rest, (addTableRow scripted none ⟨"users", [("name", .str "Ann")]⟩ [header 1 1]).log =
        insertStmt "users" [("name", .str "Ann")] :: rest :=
  ⟨(addTableRow_empty_body _ scripted none ⟨"users", []⟩ [header 1 1]).1 rfl,
   (addTableRow_empty_body _ scripted none ⟨"users", [("name", .str "Ann")]⟩
      [header 1 1]).2 (by decide)⟩

/-- C10. For a body with the fields `(k1, v1) .. (kn, vn)`, `n ≥ 1`, the first
statement of `addTableRow` is the `INSERT` that lists the quoted columns
`k1 .. kn` in body order and `n` placeholders in its `VALUES` list, executed
with the parameters `v1 .. vn`: the `i`-th listed column and the `i`-th
parameter are the key and the value of the `i`-th field. -/
theorem addTableRow_insert_shape (σ : Type) (pool : Pool σ) (env : Option String)
    (req : AddReq) (s0 : σ) (h : req.data ≠ []) :
    (∃ rest, (addTableRow pool env req s0).log =
      ⟨"\n      INSERT INTO `" ++ req.tableName ++ "` (" ++
          arrayJoin ", " ((req.data.map Prod.fst).map fun k => "`" ++ k ++ "`") ++
          ") \n      VALUES (" ++ arrayJoin ", " (List.replicate req.data.length "?") ++
          ");\n    ",
        req.data.map Prod.snd⟩ :: rest) ∧
    placeholders (arrayJoin ", " (List.replicate req.data.length "?")) = req.data.length ∧
    (req.data.map Prod.snd).length = req.data.length ∧
    ∀ (i : Nat) (k : String) (v : Value), req.data[i]? = some (k, v) →
      (req.data.map Prod.fst)[i]? = some k ∧ (req.data.map Prod.snd)[i]? = some v := by
  refine ⟨?_, ?_, ?_, ?_⟩
  · obtain ⟨rest, hrest⟩ := addTableRow_log_head σ pool env req s0 h
    refine ⟨rest, ?_⟩
    rw [hrest]
    have hrep : ((keys req.data).map fun _ => "?") = List.replicate req.data.length "?" := by
      simp only [keys, List.eq_replicate_iff, List.length_map, List.mem_map, true_and]
      rintro b ⟨_, _, hb⟩
      exact hb.symm
    simp only [insertStmt, hrep]
    rfl
  · have := placeholders_arrayJoin_ones ", " (by decide) (List.replicate req.data.length "?")
      (by
        intro x hx
        rw [List.eq_of_mem_replicate hx]
        decide)
    simpa using this
  · simp
  · intro i k v hi
    simp [List.getElem?_map, hi]

/-- C10, worked example: the body `{"name": "Ann", "email": "a@x.com"}`. -/
theorem addTableRow_insert_shape_witness :
    (∃ rest,
      (addTableRow scripted none
          ⟨"users", [("name", .str "Ann"), ("email", .str "a@x.com")]⟩ [header 1 1]).log =
        ⟨"\n      INSERT INTO `users` (`name`, `email`) \n      VALUES (?, ?);\n    ",
          [.str "Ann", .str "a@x.com"]⟩ :: rest) ∧
      placeholders "?, ?" = 2 :=
  ⟨(addTableRow_insert_shape _ scripted none
      ⟨"users", [("name", .str "Ann"), ("email", .str "a@x.com")]⟩ [header 1 1]
      (by decide)).1,
   (addTableRow_insert_shape _ scripted none
      ⟨"users", [("name", .str "Ann"), ("email", .str "a@x.com")]⟩ [header 1 1]
      (by decide)).2.1⟩

/-! ### Identity resolution -/

/-- A key that lowers to `id` is not the empty string. -/
theorem ne_empty_of_toLowerCase (key : String) (h : toLowerCase key = "id") : key ≠ "" := by
  intro he
  subst he
  exact absurd h (by decide)

/-- What `updateIdentity` computes: the column of the specification's chain,
the sample statement exactly when no primary-key row came back, and the state
after that sample. -/
theorem updateIdentity_eq (σ : Type) (pool : Pool σ) (tableName : String)
    (pkRows : List Row) (s : σ) :
    updateIdentity pool tableName pkRows s =
      (resolveIdentity pkRows (sampledKeys (pool.query s (sampleStmt tableName)).1),
       (match pkRows with
        | [] => [sampleStmt tableName]
        | _ :: _ => []),
       (match pkRows with
        | [] => (pool.query s (sampleStmt tableName)).2
        | _ :: _ => s)) := by
  unfold updateIdentity resolveIdentity sampledKeys
  cases pkRows with
  | cons pkRow rest => rfl
  | nil =>
    simp only []
    rcases hq : pool.query s (sampleStmt tableName) with ⟨reply, s1⟩
    cases reply with
    | error e => rfl
    | ok sample =>
      simp only []
      cases hrows : sample.rows with
      | nil => rfl
      | cons first rest =>
        simp only []
        cases hfind : (keys first).find? (fun key => toLowerCase key = "id") with
        | none => rfl
        | some idKey =>
          have hp : toLowerCase idKey = "id" := by
            have := List.find?_some hfind
            simpa using this
          simp only [ne_eq, ne_empty_of_toLowerCase idKey hp, not_false_eq_true, if_true]

/-- What `deleteIdentity` computes: the column of the specification's chain,
the sample statement exactly when no primary-key row came back, and the state
after that sample. -/
theorem deleteIdentity_eq (σ : Type) (pool : Pool σ) (tableName : String)
    (pkRows : List Row) (s : σ) :
    deleteIdentity pool tableName pkRows s =
      (resolveIdentity pkRows (sampledKeys (pool.query s (sampleStmt tableName)).1),
       (match pkRows with
        | [] => [sampleStmt tableName]
        | _ :: _ => []),
       (match pkRows with
        | [] => (pool.query s (sampleStmt tableName)).2
        | _ :: _ => s)) := by
  unfold deleteIdentity resolveIdentity sampledKeys
  cases pkRows with
  | cons pkRow rest => rfl
  | nil =>
    simp only []
    rcases hq : pool.query s (sampleStmt tableName) with ⟨reply, s1⟩
    cases reply with
    | error e => rfl
    | ok sample =>
      simp only []
      cases hrows : sample.rows with
      | nil => rfl
      | cons first rest =>
        simp only []
        cases hfind : (keys first).find? (fun key => toLowerCase key = "id") with
        | none => rfl
        | some idKey =>
          have hp : toLowerCase idKey = "id" := by
            have := List.find?_some hfind
            simpa using this
          simp only [ne_eq, ne_empty_of_toLowerCase idKey hp, not_false_eq_true, if_true]

/-- What `addIdentity` computes when a primary-key row came back or the body
carries no truthy `id` and no truthy `ID`: the column of the specification's
chain, the `insertId` of the `INSERT`, the sample statement exactly when no
primary-key row came back, and the state after that sample. -/
theorem addIdentity_eq (σ : Type) (pool : Pool σ) (tableName : String) (data : Row)
    (result : QResult) (pkRows : List Row) (s : σ)
    (h : pkRows ≠ [] ∨ (truthy (field data "id") = false ∧ truthy (field data "ID") = false)) :
    addIdentity pool tableName data result pkRows s =
      (resolveIdentity pkRows (sampledKeys (pool.query s (sampleStmt tableName)).1),
       .num result.insertId,
       (match pkRows with
        | [] => [sampleStmt tableName]
        | _ :: _ => []),
       (match pkRows with
        | [] => (pool.query s (sampleStmt tableName)).2
        | _ :: _ => s)) := by
  unfold addIdentity resolveIdentity sampledKeys
  cases pkRows with
  | cons pkRow rest => rfl
  | nil =>
    have hb : truthy (field data "id") = false ∧ truthy (field data "ID") = false := by
      rcases h with h | h
      · exact absurd rfl h
      · exact h
    simp only [hb.1, hb.2, Bool.false_eq_true, if_false]
    rcases hq : pool.query s (sampleStmt tableName) with ⟨reply, s1⟩
    cases reply with
    | error e => rfl
    | ok sample =>
      simp only []
      cases hrows : sample.rows with
      | nil => rfl
      | cons first rest =>
        simp only []
        cases hfind : (keys first).find? (fun key => toLowerCase key = "id") with
        | none => rfl
        | some idKey =>
          have hp : toLowerCase idKey = "id" := by
            have := List.find?_some hfind
            simpa using this
          simp only [ne_eq, ne_empty_of_toLowerCase idKey hp, not_false_eq_true, if_true]

/-- The statements `updateIdentity` issues are sample statements. -/
theorem updateIdentity_issued (σ : Type) (pool : Pool σ) (tableName : String)
    (pkRows : List Row) (s : σ) :
    ∀ st ∈ (updateIdentity pool tableName pkRows s).2.1, st = sampleStmt tableName := by
  rw [updateIdentity_eq]
  cases pkRows with
  | nil => simp
  | cons pkRow rest => simp

/-- The statements `deleteIdentity` issues are sample statements. -/
theorem deleteIdentity_issued (σ : Type) (pool : Pool σ) (tableName : String)
    (pkRows : List Row) (s : σ) :
    ∀ st ∈ (deleteIdentity pool tableName pkRows s).2.1, st = sampleStmt tableName := by
  rw [deleteIdentity_eq]
  cases pkRows with
  | nil => simp
  | cons pkRow rest => simp

/-! ### Updating -/

/-- C11. Whenever the primary-key lookup of `updateTableRow` is answered, the
handler issues, after that lookup and at most a sample, the `UPDATE` whose `SET`
clause lists `` `k1` = ?, .., `kn` = ? `` in the field order of the body,
followed by ``WHERE `pkColumn` = ?`` on the resolved identity column, with the
parameters `v1, .., vn, id`: the `i`-th parameter is the value of the `i`-th
field and the id comes last.  Only the re-selection may follow it. -/
theorem updateTableRow_update_shape (σ : Type) (pool : Pool σ) (env : Option String)
    (req : UpdateReq) (s0 : σ) (pkRes : QResult) (s1 : σ)
    (h : pool.query s0 (pkStmt env req.tableName) = (.ok pkRes, s1)) :
    ∃ (pkColumn : String) (before after : List Stmt),
      (updateTableRow pool env req s0).log =
        before ++
          [⟨"\n      UPDATE `" ++ req.tableName ++ "` \n      SET " ++
              arrayJoin ", " ((req.data.map Prod.fst).map fun k => "`" ++ k ++ "` = ?") ++
              " \n      WHERE `" ++ pkColumn ++ "` = ?;\n    ",
            req.data.map Prod.snd ++ [.str req.id]⟩] ++ after ∧
      pkColumn = (updateIdentity pool req.tableName pkRes.rows s1).1 ∧
      (∀ st ∈ before, st = pkStmt env req.tableName ∨ st = sampleStmt req.tableName) ∧
      (after = [] ∨ after = [selectByIdStmt req.tableName pkColumn req.id]) ∧
      (∀ (i : Nat) (k : String) (v : Value), req.data[i]? = some (k, v) →
        (req.data.map Prod.fst)[i]? = some k ∧
          (req.data.map Prod.snd ++ [Value.str req.id])[i]? = some v) ∧
      (req.data.map Prod.snd ++ [Value.str req.id])[req.data.length]? =
        some (.str req.id) := by
  have hbefore : ∀ st ∈ [pkStmt env req.tableName] ++
      (updateIdentity pool req.tableName pkRes.rows s1).2.1,
      st = pkStmt env req.tableName ∨ st = sampleStmt req.tableName := by
    intro st hst
    rcases List.mem_append.mp hst with h1 | h1
    · exact Or.inl (List.mem_singleton.mp h1)
    · exact Or.inr (updateIdentity_issued σ pool _ _ _ st h1)
  have hidx : ∀ (i : Nat) (k : String) (v : Value), req.data[i]? = some (k, v) →
      (req.data.map Prod.fst)[i]? = some k ∧
        (req.data.map Prod.snd ++ [Value.str req.id])[i]? = some v := by
    intro i k v hi
    have hlt : i < req.data.length := by
      by_contra hge
      rw [List.getElem?_eq_none (Nat.le_of_not_lt hge)] at hi
      exact Option.noConfusion hi
    refine ⟨by simp [List.getElem?_map, hi], ?_⟩
    rw [List.getElem?_append_left (by simpa using hlt)]
    simp [List.getElem?_map, hi]
  have hlast : (req.data.map Prod.snd ++ [Value.str req.id])[req.data.length]? =
      some (.str req.id) := by
    rw [List.getElem?_append_right (by simp)]
    simp
  rcases updateTableRow_log_of_ok σ pool env req s0 pkRes s1 h with l | l
  · exact ⟨_, _, [], by rw [l]; simp [updateStmt, keys, values], rfl, hbefore,
      Or.inl rfl, hidx, hlast⟩
  · refine ⟨_, _, [selectByIdStmt req.tableName
        (updateIdentity pool req.tableName pkRes.rows s1).1 req.id], ?_, rfl, hbefore,
      Or.inr rfl, hidx, hlast⟩
    rw [l]
    simp [updateStmt, keys, values]

/-- C11, worked example: `PUT /tables/users/data/1` with the body
`{"name": "Ann", "email": "ann@x.com"}` on a table whose primary key is `id`. -/
theorem updateTableRow_update_shape_witness :
    (updateTableRow scripted none
        ⟨"users", "1", [("name", .str "Ann"), ("email", .str "ann@x.com")]⟩
        [selected [[("column_name", .str "id")]], header 1 0,
         selected [[("id", .num 1), ("name", .str "Ann"), ("email", .str "ann@x.com")]]]).log =
      [pkStmt none "users",
       ⟨"\n      UPDATE `users` \n      SET `name` = ?, `email` = ? \n      WHERE `id` = ?;\n    ",
        [.str "Ann", .str "ann@x.com", .str "1"]⟩,
       ⟨"SELECT * FROM `users` WHERE `id` = ?", [.str "1"]⟩] ∧
    ∃ (pkColumn : String) (before after : List Stmt),
      (updateTableRow scripted none
        ⟨"users", "1", [("name", .str "Ann"), ("email", .str "ann@x.com")]⟩
        [selected [[("column_name", .str "id")]], header 1 0,
         selected [[("id", .num 1), ("name", .str "Ann"), ("email", .str "ann@x.com")]]]).log =
        before ++
          [⟨"\n      UPDATE `" ++ "users" ++ "` \n      SET " ++
              arrayJoin ", "
                (([("name", Value.str "Ann"), ("email", Value.str "ann@x.com")].map
                  Prod.fst).map fun k => "`" ++ k ++ "` = ?") ++
              " \n      WHERE `" ++ pkColumn ++ "` = ?;\n    ",
            [("name", Value.str "Ann"), ("email", Value.str "ann@x.com")].map Prod.snd ++
              [.str "1"]⟩] ++ after ∧
      pkColumn = "id" :=
  ⟨by decide!,
   (updateTableRow_update_shape _ scripted none
      ⟨"users", "1", [("name", .str "Ann"), ("email", .str "ann@x.com")]⟩
      [selected [[("column_name", .str "id")]], header 1 0,
       selected [[("id", .num 1), ("name", .str "Ann"), ("email", .str "ann@x.com")]]]
      ⟨[[("column_name", .str "id")]], 0, 0⟩ _ rfl).elim
    fun pkColumn hp => hp.elim fun before hb => hb.elim fun after ha =>
      ⟨pkColumn, before, after, ha.1, ha.2.1.trans (by decide)⟩⟩

/-! ### After the `INSERT` -/

/-- Once the `INSERT` and the primary-key lookup of `addTableRow` are answered,
the handler resolves the identity, issues the re-selection and answers by its
reply: 500 when it is rejected, 201 with the `insertId` of the `INSERT` when it
has no row, 201 with its first row otherwise. -/
theorem addTableRow_after_lookup (σ : Type) (pool : Pool σ) (env : Option String)
    (req : AddReq) (s0 : σ) (result : QResult) (s1 : σ) (pkRes : QResult) (s2 : σ)
    (hd : req.data ≠ [])
    (hi : pool.query s0 (insertStmt req.tableName req.data) = (.ok result, s1))
    (hp : pool.query s1 (pkStmt env req.tableName) = (.ok pkRes, s2)) :
    (addTableRow pool env req s0).log =
        [insertStmt req.tableName req.data, pkStmt env req.tableName] ++
          (addIdentity pool req.tableName req.data result pkRes.rows s2).2.2.1 ++
          [reselectStmt req.tableName
            (addIdentity pool req.tableName req.data result pkRes.rows s2).1
            (addIdentity pool req.tableName req.data result pkRes.rows s2).2.1 req.data] ∧
    (addTableRow pool env req s0).response =
      (match (pool.query (addIdentity pool req.tableName req.data result pkRes.rows s2).2.2.2
          (reselectStmt req.tableName
            (addIdentity pool req.tableName req.data result pkRes.rows s2).1
            (addIdentity pool req.tableName req.data result pkRes.rows s2).2.1 req.data)).1 with
       | .error _ => ⟨500, .error serverError⟩
       | .ok res =>
         match res.rows with
         | [] => ⟨201, .inserted "Запись добавлена успешно" result.insertId⟩
         | row :: _ => ⟨201, .row row⟩) := by
  have hlen : ¬ (keys req.data).length = 0 := by
    intro h0
    apply hd
    cases hdata : req.data with
    | nil => rfl
    | cons a l => rw [hdata] at h0; simp [keys] at h0
  unfold addTableRow
  simp only [hlen, if_false, hi, hp]
  rcases hq : pool.query (addIdentity pool req.tableName req.data result pkRes.rows s2).2.2.2
      (reselectStmt req.tableName
        (addIdentity pool req.tableName req.data result pkRes.rows s2).1
        (addIdentity pool req.tableName req.data result pkRes.rows s2).2.1 req.data)
    with ⟨reply, s4⟩
  cases reply with
  | error e => exact ⟨rfl, rfl⟩
  | ok res =>
    simp only []
    cases hrows : res.rows with
    | nil => exact ⟨rfl, rfl⟩
    | cons row rest => exact ⟨rfl, rfl⟩

/-- The re-selection of a body with a field binds at least one parameter. -/
theorem reselectStmt_params_ne_nil (tableName pkColumn : String) (insertId : Value)
    (data : Row) (hd : data ≠ []) : (reselectStmt tableName pkColumn insertId data).params ≠ [] := by
  unfold reselectStmt
  simp only []
  split
  · simp
  · cases data with
    | nil => exact absurd rfl hd
    | cons a l => simp [values]

/-- A statement that binds a parameter is not the sample statement. -/
theorem ne_sampleStmt_of_params (st : Stmt) (tableName : String) (h : st.params ≠ []) :
    sampleStmt tableName ≠ st := by
  intro he
  apply h
  rw [← he]
  rfl

/-! ### The declared primary key -/

/-- The lookup row read under the key `column_name`, in lower case, which is
the only key the three handlers read.  When the primary-key lookup returns a
row that carries the column `c` under this key, the identity column is `c` in
all three handlers, whatever the database would answer to a sample and
whatever the body is, and the sample statement is not issued: (1)
`addTableRow` re-selects on `c`, (2) `updateTableRow` updates and re-selects on
`c`, (3) `deleteTableRow` selects and deletes on `c`. -/
theorem declared_primary_key_is_identity :
    (∀ (σ : Type) (pool : Pool σ) (env : Option String) (req : AddReq) (s0 : σ)
        (result : QResult) (s1 : σ) (pkRes : QResult) (s2 : σ) (pkRow : Row)
        (rest : List Row) (c : String),
        req.data ≠ [] →
        pool.query s0 (insertStmt req.tableName req.data) = (.ok result, s1) →
        pool.query s1 (pkStmt env req.tableName) = (.ok pkRes, s2) →
        pkRes.rows = pkRow :: rest → field pkRow "column_name" = some (.str c) →
        (addIdentity pool req.tableName req.data result pkRes.rows s2).1 = c ∧
        (addTableRow pool env req s0).log =
          [insertStmt req.tableName req.data, pkStmt env req.tableName,
           reselectStmt req.tableName c (.num result.insertId) req.data] ∧
        sampleStmt req.tableName ∉ (addTableRow pool env req s0).log) ∧
    (∀ (σ : Type) (pool : Pool σ) (env : Option String) (req : UpdateReq) (s0 : σ)
        (pkRes : QResult) (s1 : σ) (pkRow : Row) (rest : List Row) (c : String),
        pool.query s0 (pkStmt env req.tableName) = (.ok pkRes, s1) →
        pkRes.rows = pkRow :: rest → field pkRow "column_name" = some (.str c) →
        (updateIdentity pool req.tableName pkRes.rows s1).1 = c ∧
        ((updateTableRow pool env req s0).log =
            [pkStmt env req.tableName, updateStmt req.tableName c req.id req.data] ∨
          (updateTableRow pool env req s0).log =
            [pkStmt env req.tableName, updateStmt req.tableName c req.id req.data,
             selectByIdStmt req.tableName c req.id]) ∧
        sampleStmt req.tableName ∉ (updateTableRow pool env req s0).log) ∧
    (∀ (σ : Type) (pool : Pool σ) (env : Option String) (req : DeleteReq) (s0 : σ)
        (pkRes : QResult) (s1 : σ) (pkRow : Row) (rest : List Row) (c : String),
        pool.query s0 (pkStmt env req.tableName) = (.ok pkRes, s1) →
        pkRes.rows = pkRow :: rest → field pkRow "column_name" = some (.str c) →
        (deleteIdentity pool req.tableName pkRes.rows s1).1 = c ∧
        ((deleteTableRow pool env req s0).log =
            [pkStmt env req.tableName, selectByIdStmt req.tableName c req.id] ∨
          (deleteTableRow pool env req s0).log =
            [pkStmt env req.tableName, selectByIdStmt req.tableName c req.id,
             deleteStmt req.tableName c req.id]) ∧
        sampleStmt req.tableName ∉ (deleteTableRow pool env req s0).log) := by
  have hpk : ∀ (env : Option String) (t : String), sampleStmt t ≠ pkStmt env t :=
    fun env t => ne_sampleStmt_of_params _ t (by simp [pkStmt])
  have hupd : ∀ (t c id : String) (data : Row), sampleStmt t ≠ updateStmt t c id data :=
    fun t c id data => ne_sampleStmt_of_params _ t (by simp [updateStmt])
  have hsel : ∀ (t c id : String), sampleStmt t ≠ selectByIdStmt t c id :=
    fun t c id => ne_sampleStmt_of_params _ t (by simp [selectByIdStmt])
  have hdel : ∀ (t c id : String), sampleStmt t ≠ deleteStmt t c id :=
    fun t c id => ne_sampleStmt_of_params _ t (by simp [deleteStmt])
  refine ⟨?_, ?_, ?_⟩
  · intro σ pool env req s0 result s1 pkRes s2 pkRow rest c hd hi hp hrows hc
    have hid := addIdentity_eq σ pool req.tableName req.data result (pkRow :: rest) s2
      (Or.inl (by simp))
    simp only [resolveIdentity, hc, templateString] at hid
    have hlog := (addTableRow_after_lookup σ pool env req s0 result s1 pkRes s2 hd hi hp).1
    rw [hrows] at hlog
    rw [hid] at hlog
    simp only [List.append_nil, List.cons_append, List.nil_append] at hlog
    have hins : sampleStmt req.tableName ≠ insertStmt req.tableName req.data := by
      apply ne_sampleStmt_of_params
      cases hdata : req.data with
      | nil => exact absurd hdata hd
      | cons a l => simp [insertStmt, values]
    refine ⟨by rw [hrows, hid], hlog, ?_⟩
    rw [hlog]
    simp only [List.mem_cons, List.mem_singleton, List.not_mem_nil, or_false, not_or]
    exact ⟨hins, hpk _ _, ne_sampleStmt_of_params _ _ (reselectStmt_params_ne_nil _ _ _ _ hd)⟩
  · intro σ pool env req s0 pkRes s1 pkRow rest c hq hrows hc
    have hid := updateIdentity_eq σ pool req.tableName pkRes.rows s1
    rw [hrows] at hid
    simp only [resolveIdentity, hc, templateString] at hid
    have hlog := updateTableRow_log_of_ok σ pool env req s0 pkRes s1 hq
    rw [hrows, hid] at hlog
    simp only [List.append_nil, List.cons_append, List.nil_append] at hlog
    refine ⟨by rw [hrows, hid], hlog, ?_⟩
    rcases hlog with l | l <;> rw [l] <;>
      simp only [List.mem_cons, List.mem_singleton, List.not_mem_nil, or_false, not_or]
    · exact ⟨hpk _ _, hupd _ _ _ _⟩
    · exact ⟨hpk _ _, hupd _ _ _ _, hsel _ _ _⟩
  · intro σ pool env req s0 pkRes s1 pkRow rest c hq hrows hc
    have hid := deleteIdentity_eq σ pool req.tableName pkRes.rows s1
    rw [hrows] at hid
    simp only [resolveIdentity, hc, templateString] at hid
    have hlog := deleteTableRow_log_of_ok σ pool env req s0 pkRes s1 hq
    rw [hrows, hid] at hlog
    simp only [List.append_nil, List.cons_append, List.nil_append] at hlog
    refine ⟨by rw [hrows, hid], hlog, ?_⟩
    rcases hlog with l | l <;> rw [l] <;>
      simp only [List.mem_cons, List.mem_singleton, List.not_mem_nil, or_false, not_or]
    · exact ⟨hpk _ _, hsel _ _ _⟩
    · exact ⟨hpk _ _, hsel _ _ _, hdel _ _ _⟩

/-- Worked example of the lower-case lookup row: a table `users` whose
declared primary key is `id`; the row inserted gets the number 7. -/
theorem declared_primary_key_is_identity_witness :
    (addTableRow scripted none ⟨"users", [("name", .str "Ann")]⟩
        [header 1 7, selected [[("column_name", .str "id")]],
         selected [[("id", .num 7), ("name", .str "Ann")]]]).log =
      [insertStmt "users" [("name", .str "Ann")], pkStmt none "users",
       reselectStmt "users" "id" (.num ((7 : Nat) : Int)) [("name", .str "Ann")]] ∧
    sampleStmt "users" ∉
      (updateTableRow scripted none ⟨"users", "7", [("name", .str "Bob")]⟩
        [selected [[("column_name", .str "id")]], header 1 0,
         selected [[("id", .num 7), ("name", .str "Bob")]]]).log ∧
    ((deleteTableRow scripted none ⟨"users", "7"⟩
        [selected [[("column_name", .str "id")]],
         selected [[("id", .num 7), ("name", .str "Bob")]], header 1 0]).log =
        [pkStmt none "users", selectByIdStmt "users" "id" "7"] ∨
      (deleteTableRow scripted none ⟨"users", "7"⟩
        [selected [[("column_name", .str "id")]],
         selected [[("id", .num 7), ("name", .str "Bob")]], header 1 0]).log =
        [pkStmt none "users", selectByIdStmt "users" "id" "7",
         deleteStmt "users" "id" "7"]) :=
  ⟨(declared_primary_key_is_identity.1 _ scripted none ⟨"users", [("name", .str "Ann")]⟩
      [header 1 7, selected [[("column_name", .str "id")]],
       selected [[("id", .num 7), ("name", .str "Ann")]]]
      ⟨[], 1, 7⟩ _ ⟨[[("column_name", .str "id")]], 0, 0⟩ _ [("column_name", .str "id")] []
      "id" (by decide) rfl rfl rfl (by decide)).2.1,
   (declared_primary_key_is_identity.2.1 _ scripted none
      ⟨"users", "7", [("name", .str "Bob")]⟩
      [selected [[("column_name", .str "id")]], header 1 0,
       selected [[("id", .num 7), ("name", .str "Bob")]]]
      ⟨[[("column_name", .str "id")]], 0, 0⟩ _ [("column_name", .str "id")] [] "id"
      rfl rfl (by decide)).2.2,
   (declared_primary_key_is_identity.2.2 _ scripted none ⟨"users", "7"⟩
      [selected [[("column_name", .str "id")]],
       selected [[("id", .num 7), ("name", .str "Bob")]], header 1 0]
      ⟨[[("column_name", .str "id")]], 0, 0⟩ _ [("column_name", .str "id")] [] "id"
      rfl rfl (by decide)).2.1⟩

/-- C12, the failing input: the table `users` has the declared primary key
`id`, and the lookup row carries it under the key `COLUMN_NAME`, in upper
case, as `[{COLUMN_NAME: 'id'}]`.  All three handlers resolve the identity
column to the text `undefined` instead of `id`: (1) `DELETE
/tables/users/data/1` selects ``WHERE `undefined` = ?`` and is answered 500
once the database rejects the unknown column; (2) `PUT /tables/users/data/1`
updates ``WHERE `undefined` = ?``; (3) `POST /tables/users/data` inserts the
row and then re-selects ``WHERE `undefined` = ?``, which is answered 500
although the row is stored.  No sample statement is issued.  With the key in
lower case the same requests work on `id`. -/
theorem declared_primary_key_in_upper_case_is_missed :
    ((deleteIdentity scripted "users" [[("COLUMN_NAME", .str "id")]] []).1 = "undefined" ∧
      (deleteTableRow scripted none ⟨"users", "1"⟩
        [selected [[("COLUMN_NAME", .str "id")]], .error "ER_BAD_FIELD_ERROR"]).log =
        [pkStmt none "users", ⟨"SELECT * FROM `users` WHERE `undefined` = ?", [.str "1"]⟩] ∧
      (deleteTableRow scripted none ⟨"users", "1"⟩
        [selected [[("COLUMN_NAME", .str "id")]], .error "ER_BAD_FIELD_ERROR"]).response =
        ⟨500, .error "Ошибка сервера"⟩) ∧
    ((updateIdentity scripted "users" [[("COLUMN_NAME", .str "id")]] []).1 = "undefined" ∧
      (updateTableRow scripted none ⟨"users", "1", [("name", .str "Bob")]⟩
        [selected [[("COLUMN_NAME", .str "id")]], .error "ER_BAD_FIELD_ERROR"]).log =
        [pkStmt none "users",
         ⟨"\n      UPDATE `users` \n      SET `name` = ? \n      WHERE `undefined` = ?;\n    ",
          [.str "Bob", .str "1"]⟩] ∧
      (updateTableRow scripted none ⟨"users", "1", [("name", .str "Bob")]⟩
        [selected [[("COLUMN_NAME", .str "id")]], .error "ER_BAD_FIELD_ERROR"]).response =
        ⟨500, .error "Ошибка сервера"⟩) ∧
    ((addIdentity scripted "users" [("name", .str "Ann")] ⟨[], 1, 7⟩
        [[("COLUMN_NAME", .str "id")]] []).1 = "undefined" ∧
      (addTableRow scripted none ⟨"users", [("name", .str "Ann")]⟩
        [header 1 7, selected [[("COLUMN_NAME", .str "id")]],
         .error "ER_BAD_FIELD_ERROR"]).log =
        [insertStmt "users" [("name", .str "Ann")], pkStmt none "users",
         ⟨"SELECT * FROM `users` WHERE `undefined` = ?", [.num 7]⟩] ∧
      (addTableRow scripted none ⟨"users", [("name", .str "Ann")]⟩
        [header 1 7, selected [[("COLUMN_NAME", .str "id")]],
         .error "ER_BAD_FIELD_ERROR"]).response = ⟨500, .error "Ошибка сервера"⟩) ∧
    ((deleteIdentity scripted "users" [[("column_name", .str "id")]] []).1 = "id" ∧
      (deleteTableRow scripted none ⟨"users", "1"⟩
        [selected [[("column_name", .str "id")]], selected [[("id", .num 1)]],
         header 1 0]).log =
        [pkStmt none "users", ⟨"SELECT * FROM `users` WHERE `id` = ?", [.str "1"]⟩,
         ⟨"\n      DELETE FROM `users` \n      WHERE `id` = ?;\n    ", [.str "1"]⟩]) := by
  decide!

/-! ### Tables without a declared primary key -/

/-- When the primary-key lookup of `updateTableRow` returns no row, the handler
samples the table and works on the column the chain resolves from the sample. -/
theorem updateTableRow_log_of_no_key (σ : Type) (pool : Pool σ) (env : Option String)
    (req : UpdateReq) (s0 : σ) (pkRes : QResult) (s1 : σ)
    (h : pool.query s0 (pkStmt env req.tableName) = (.ok pkRes, s1))
    (hrows : pkRes.rows = []) :
    (updateIdentity pool req.tableName pkRes.rows s1).1 =
        resolveIdentity [] (sampledKeys (pool.query s1 (sampleStmt req.tableName)).1) ∧
    ((updateTableRow pool env req s0).log =
        [pkStmt env req.tableName, sampleStmt req.tableName,
         updateStmt req.tableName
           (resolveIdentity [] (sampledKeys (pool.query s1 (sampleStmt req.tableName)).1))
           req.id req.data] ∨
      (updateTableRow pool env req s0).log =
        [pkStmt env req.tableName, sampleStmt req.tableName,
         updateStmt req.tableName
           (resolveIdentity [] (sampledKeys (pool.query s1 (sampleStmt req.tableName)).1))
           req.id req.data,
         selectByIdStmt req.tableName
           (resolveIdentity [] (sampledKeys (pool.query s1 (sampleStmt req.tableName)).1))
           req.id]) := by
  have hid := updateIdentity_eq σ pool req.tableName [] s1
  have hlog := updateTableRow_log_of_ok σ pool env req s0 pkRes s1 h
  rw [hrows, hid] at hlog
  simp only [List.cons_append, List.nil_append] at hlog
  exact ⟨by rw [hrows, hid], hlog⟩

/-- When the primary-key lookup of `deleteTableRow` returns no row, the handler
samples the table and works on the column the chain resolves from the sample. -/
theorem deleteTableRow_log_of_no_key (σ : Type) (pool : Pool σ) (env : Option String)
    (req : DeleteReq) (s0 : σ) (pkRes : QResult) (s1 : σ)
    (h : pool.query s0 (pkStmt env req.tableName) = (.ok pkRes, s1))
    (hrows : pkRes.rows = []) :
    (deleteIdentity pool req.tableName pkRes.rows s1).1 =
        resolveIdentity [] (sampledKeys (pool.query s1 (sampleStmt req.tableName)).1) ∧
    ((deleteTableRow pool env req s0).log =
        [pkStmt env req.tableName, sampleStmt req.tableName,
         selectByIdStmt req.tableName
           (resolveIdentity [] (sampledKeys (pool.query s1 (sampleStmt req.tableName)).1))
           req.id] ∨
      (deleteTableRow pool env req s0).log =
        [pkStmt env req.tableName, sampleStmt req.tableName,
         selectByIdStmt req.tableName
           (resolveIdentity [] (sampledKeys (pool.query s1 (sampleStmt req.tableName)).1))
           req.id,
         deleteStmt req.tableName
           (resolveIdentity [] (sampledKeys (pool.query s1 (sampleStmt req.tableName)).1))
           req.id]) := by
  have hid := deleteIdentity_eq σ pool req.tableName [] s1
  have hlog := deleteTableRow_log_of_ok σ pool env req s0 pkRes s1 h
  rw [hrows, hid] at hlog
  simp only [List.cons_append, List.nil_append] at hlog
  exact ⟨by rw [hrows, hid], hlog⟩

/-- The chain on a sampled row with a key that equals `id` ignoring case: the
first such key. -/
theorem resolveIdentity_of_id_key (σ : Type) (pool : Pool σ) (tableName : String) (s1 : σ)
    (sample : QResult) (s2 : σ) (first : Row) (rest : List Row) (c : String)
    (hq : pool.query s1 (sampleStmt tableName) = (.ok sample, s2))
    (hrows : sample.rows = first :: rest)
    (hfind : (keys first).find? (fun key => toLowerCase key = "id") = some c) :
    resolveIdentity [] (sampledKeys (pool.query s1 (sampleStmt tableName)).1) = c := by
  rw [hq]
  simp only [sampledKeys, hrows, resolveIdentity, hfind]

/-- The chain on a sampled row without a key that equals `id` ignoring case:
the first key of the row. -/
theorem resolveIdentity_of_first_key (σ : Type) (pool : Pool σ) (tableName : String)
    (s1 : σ) (sample : QResult) (s2 : σ) (first : Row) (rest : List Row) (k : String)
    (ks : List String) (hq : pool.query s1 (sampleStmt tableName) = (.ok sample, s2))
    (hrows : sample.rows = first :: rest) (hkeys : keys first = k :: ks)
    (hnone : ∀ key ∈ keys first, toLowerCase key ≠ "id") :
    resolveIdentity [] (sampledKeys (pool.query s1 (sampleStmt tableName)).1) = k := by
  have hfind : (keys first).find? (fun key => toLowerCase key = "id") = none := by
    rw [List.find?_eq_none]
    intro key hkey
    simpa using hnone key hkey
  rw [hq]
  simp only [sampledKeys, hrows, resolveIdentity, hfind]
  simp only [hkeys, firstKey, List.head?_cons, Option.map_some', templateString]

/-- The chain without a sampled row: the literal `id`. -/
theorem resolveIdentity_of_no_row (σ : Type) (pool : Pool σ) (tableName : String) (s1 : σ)
    (sample : QResult) (s2 : σ)
    (hq : pool.query s1 (sampleStmt tableName) = (.ok sample, s2)) (hrows : sample.rows = []) :
    resolveIdentity [] (sampledKeys (pool.query s1 (sampleStmt tableName)).1) = "id" := by
  rw [hq]
  simp only [sampledKeys, hrows, resolveIdentity]

/-- C13, counterexample: an empty table `items` without a declared key whose
columns are `ID` and `qty`.  The primary-key lookup and the sample return no
row, and `updateTableRow` and `deleteTableRow` work on the column `id`, which is
not the spelling `ID` of the table. -/
theorem empty_table_identity_is_literal_id :
    (updateTableRow scripted none ⟨"items", "7", [("qty", .num 6)]⟩
        [selected [], selected [], header 0 0]).log =
      [pkStmt none "items", ⟨"SELECT * FROM `items` LIMIT 1", []⟩,
       ⟨"\n      UPDATE `items` \n      SET `qty` = ? \n      WHERE `id` = ?;\n    ",
        [.num 6, .str "7"]⟩] ∧
    (deleteTableRow scripted none ⟨"items", "7"⟩ [selected [], selected [], selected []]).log =
      [pkStmt none "items", ⟨"SELECT * FROM `items` LIMIT 1", []⟩,
       ⟨"SELECT * FROM `items` WHERE `id` = ?", [.str "7"]⟩] ∧
    (updateIdentity scripted "items" [] [selected [], header 0 0]).1 = "id" ∧
    (deleteIdentity scripted "items" [] [selected [], selected []]).1 = "id" ∧
    ("id" : String) ≠ "ID" := by
  decide!

/-- C13, as amended. When the primary-key lookup returns no row and the sampled
first row has a key equal to `id` ignoring case, `updateTableRow` and
`deleteTableRow` take the first such key `c` of that row as the identity
column, in the spelling of the row and wherever it stands in the row, and
issue their statements on it.  The spellings `id`, `ID` and `Id` are such
keys. -/
theorem id_key_of_sampled_row_is_identity :
    (∀ (σ : Type) (pool : Pool σ) (env : Option String) (req : UpdateReq) (s0 : σ)
        (pkRes : QResult) (s1 : σ) (sample : QResult) (s2 : σ) (first : Row)
        (rest : List Row) (c : String),
        pool.query s0 (pkStmt env req.tableName) = (.ok pkRes, s1) → pkRes.rows = [] →
        pool.query s1 (sampleStmt req.tableName) = (.ok sample, s2) →
        sample.rows = first :: rest →
        (keys first).find? (fun key => toLowerCase key = "id") = some c →
        (updateIdentity pool req.tableName pkRes.rows s1).1 = c ∧
        ((updateTableRow pool env req s0).log =
            [pkStmt env req.tableName, sampleStmt req.tableName,
             updateStmt req.tableName c req.id req.data] ∨
          (updateTableRow pool env req s0).log =
            [pkStmt env req.tableName, sampleStmt req.tableName,
             updateStmt req.tableName c req.id req.data,
             selectByIdStmt req.tableName c req.id])) ∧
    (∀ (σ : Type) (pool : Pool σ) (env : Option String) (req : DeleteReq) (s0 : σ)
        (pkRes : QResult) (s1 : σ) (sample : QResult) (s2 : σ) (first : Row)
        (rest : List Row) (c : String),
        pool.query s0 (pkStmt env req.tableName) = (.ok pkRes, s1) → pkRes.rows = [] →
        pool.query s1 (sampleStmt req.tableName) = (.ok sample, s2) →
        sample.rows = first :: rest →
        (keys first).find? (fun key => toLowerCase key = "id") = some c →
        (deleteIdentity pool req.tableName pkRes.rows s1).1 = c ∧
        ((deleteTableRow pool env req s0).log =
            [pkStmt env req.tableName, sampleStmt req.tableName,
             selectByIdStmt req.tableName c req.id] ∨
          (deleteTableRow pool env req s0).log =
            [pkStmt env req.tableName, sampleStmt req.tableName,
             selectByIdStmt req.tableName c req.id,
             deleteStmt req.tableName c req.id])) ∧
    (toLowerCase "id" = "id" ∧ toLowerCase "ID" = "id" ∧ toLowerCase "Id" = "id") := by
  refine ⟨?_, ?_, by decide⟩
  · intro σ pool env req s0 pkRes s1 sample s2 first rest c hq hrows hs hsrows hfind
    have hc := resolveIdentity_of_id_key σ pool req.tableName s1 sample s2 first rest c hs
      hsrows hfind
    have h := updateTableRow_log_of_no_key σ pool env req s0 pkRes s1 hq hrows
    rw [hc] at h
    exact h
  · intro σ pool env req s0 pkRes s1 sample s2 first rest c hq hrows hs hsrows hfind
    have hc := resolveIdentity_of_id_key σ pool req.tableName s1 sample s2 first rest c hs
      hsrows hfind
    have h := deleteTableRow_log_of_no_key σ pool env req s0 pkRes s1 hq hrows
    rw [hc] at h
    exact h

/-- C13 as amended, worked example: the table `people` without a declared key
holds the row `{name: "Ann", Id: 3}`; the identity column is `Id`, the second
column. -/
theorem id_key_of_sampled_row_is_identity_witness :
    (updateTableRow scripted none ⟨"people", "3", [("name", .str "Bob")]⟩
        [selected [], selected [[("name", .str "Ann"), ("Id", .num 3)]], header 1 0,
         selected [[("name", .str "Bob"), ("Id", .num 3)]]]).log =
      [pkStmt none "people", ⟨"SELECT * FROM `people` LIMIT 1", []⟩,
       ⟨"\n      UPDATE `people` \n      SET `name` = ? \n      WHERE `Id` = ?;\n    ",
        [.str "Bob", .str "3"]⟩,
       ⟨"SELECT * FROM `people` WHERE `Id` = ?", [.str "3"]⟩] ∧
    (updateIdentity scripted "people" []
        [selected [[("name", .str "Ann"), ("Id", .num 3)]], header 1 0,
         selected [[("name", .str "Bob"), ("Id", .num 3)]]]).1 = "Id" ∧
    (deleteIdentity scripted "people" []
        [selected [[("name", .str "Ann"), ("Id", .num 3)]],
         selected [[("name", .str "Ann"), ("Id", .num 3)]], header 1 0]).1 = "Id" :=
  ⟨by decide!,
   (id_key_of_sampled_row_is_identity.1 _ scripted none
      ⟨"people", "3", [("name", .str "Bob")]⟩
      [selected [], selected [[("name", .str "Ann"), ("Id", .num 3)]], header 1 0,
       selected [[("name", .str "Bob"), ("Id", .num 3)]]]
      ⟨[], 0, 0⟩ _ ⟨[[("name", .str "Ann"), ("Id", .num 3)]], 0, 0⟩ _
      [("name", .str "Ann"), ("Id", .num 3)] [] "Id" rfl rfl rfl rfl (by decide)).1,
   (id_key_of_sampled_row_is_identity.2.1 _ scripted none ⟨"people", "3"⟩
      [selected [], selected [[("name", .str "Ann"), ("Id", .num 3)]],
       selected [[("name", .str "Ann"), ("Id", .num 3)]], header 1 0]
      ⟨[], 0, 0⟩ _ ⟨[[("name", .str "Ann"), ("Id", .num 3)]], 0, 0⟩ _
      [("name", .str "Ann"), ("Id", .num 3)] [] "Id" rfl rfl rfl rfl (by decide)).1⟩

/-- C14. When the primary-key lookup returns no row and no key of the sampled
first row equals `id` ignoring case, `updateTableRow` and `deleteTableRow` take
the first key `k` of that row as the identity column and issue their
statements on it. -/
theorem first_key_of_sampled_row_is_identity :
    (∀ (σ : Type) (pool : Pool σ) (env : Option String) (req : UpdateReq) (s0 : σ)
        (pkRes : QResult) (s1 : σ) (sample : QResult) (s2 : σ) (first : Row)
        (rest : List Row) (k : String) (ks : List String),
        pool.query s0 (pkStmt env req.tableName) = (.ok pkRes, s1) → pkRes.rows = [] →
        pool.query s1 (sampleStmt req.tableName) = (.ok sample, s2) →
        sample.rows = first :: rest → keys first = k :: ks →
        (∀ key ∈ keys first, toLowerCase key ≠ "id") →
        (updateIdentity pool req.tableName pkRes.rows s1).1 = k ∧
        ((updateTableRow pool env req s0).log =
            [pkStmt env req.tableName, sampleStmt req.tableName,
             updateStmt req.tableName k req.id req.data] ∨
          (updateTableRow pool env req s0).log =
            [pkStmt env req.tableName, sampleStmt req.tableName,
             updateStmt req.tableName k req.id req.data,
             selectByIdStmt req.tableName k req.id])) ∧
    (∀ (σ : Type) (pool : Pool σ) (env : Option String) (req : DeleteReq) (s0 : σ)
        (pkRes : QResult) (s1 : σ) (sample : QResult) (s2 : σ) (first : Row)
        (rest : List Row) (k : String) (ks : List String),
        pool.query s0 (pkStmt env req.tableName) = (.ok pkRes, s1) → pkRes.rows = [] →
        pool.query s1 (sampleStmt req.tableName) = (.ok sample, s2) →
        sample.rows = first :: rest → keys first = k :: ks →
        (∀ key ∈ keys first, toLowerCase key ≠ "id") →
        (deleteIdentity pool req.tableName pkRes.rows s1).1 = k ∧
        ((deleteTableRow pool env req s0).log =
            [pkStmt env req.tableName, sampleStmt req.tableName,
             selectByIdStmt req.tableName k req.id] ∨
          (deleteTableRow pool env req s0).log =
            [pkStmt env req.tableName, sampleStmt req.tableName,
             selectByIdStmt req.tableName k req.id,
             deleteStmt req.tableName k req.id])) := by
  refine ⟨?_, ?_⟩
  · intro σ pool env req s0 pkRes s1 sample s2 first rest k ks hq hrows hs hsrows hkeys hnone
    have hc := resolveIdentity_of_first_key σ pool req.tableName s1 sample s2 first rest k ks
      hs hsrows hkeys hnone
    have h := updateTableRow_log_of_no_key σ pool env req s0 pkRes s1 hq hrows
    rw [hc] at h
    exact h
  · intro σ pool env req s0 pkRes s1 sample s2 first rest k ks hq hrows hs hsrows hkeys hnone
    have hc := resolveIdentity_of_first_key σ pool req.tableName s1 sample s2 first rest k ks
      hs hsrows hkeys hnone
    have h := deleteTableRow_log_of_no_key σ pool env req s0 pkRes s1 hq hrows
    rw [hc] at h
    exact h

/-- C14, worked example: the sampled row `{sku: "A1", qty: 5}` gives the
identity column `sku`, and the update of `A1` with `{qty: 6}` issues
``UPDATE .. SET `qty` = ? WHERE `sku` = ?`` with the parameters `6, "A1"`. -/
theorem first_key_of_sampled_row_is_identity_witness :
    (updateTableRow scripted none ⟨"products", "A1", [("qty", .num 6)]⟩
        [selected [], selected [[("sku", .str "A1"), ("qty", .num 5)]], header 1 0,
         selected [[("sku", .str "A1"), ("qty", .num 6)]]]).log =
      [pkStmt none "products", ⟨"SELECT * FROM `products` LIMIT 1", []⟩,
       ⟨"\n      UPDATE `products` \n      SET `qty` = ? \n      WHERE `sku` = ?;\n    ",
        [.num 6, .str "A1"]⟩,
       ⟨"SELECT * FROM `products` WHERE `sku` = ?", [.str "A1"]⟩] ∧
    (updateIdentity scripted "products" []
        [selected [[("sku", .str "A1"), ("qty", .num 5)]], header 1 0,
         selected [[("sku", .str "A1"), ("qty", .num 6)]]]).1 = "sku" ∧
    (deleteIdentity scripted "products" []
        [selected [[("sku", .str "A1"), ("qty", .num 5)]],
         selected [[("sku", .str "A1"), ("qty", .num 5)]], header 1 0]).1 = "sku" :=
  ⟨by decide!,
   (first_key_of_sampled_row_is_identity.1 _ scripted none
      ⟨"products", "A1", [("qty", .num 6)]⟩
      [selected [], selected [[("sku", .str "A1"), ("qty", .num 5)]], header 1 0,
       selected [[("sku", .str "A1"), ("qty", .num 6)]]]
      ⟨[], 0, 0⟩ _ ⟨[[("sku", .str "A1"), ("qty", .num 5)]], 0, 0⟩ _
      [("sku", .str "A1"), ("qty", .num 5)] [] "sku" ["qty"] rfl rfl rfl rfl rfl
      (by decide)).1,
   (first_key_of_sampled_row_is_identity.2 _ scripted none ⟨"products", "A1"⟩
      [selected [], selected [[("sku", .str "A1"), ("qty", .num 5)]],
       selected [[("sku", .str "A1"), ("qty", .num 5)]], header 1 0]
      ⟨[], 0, 0⟩ _ ⟨[[("sku", .str "A1"), ("qty", .num 5)]], 0, 0⟩ _
      [("sku", .str "A1"), ("qty", .num 5)] [] "sku" ["qty"] rfl rfl rfl rfl rfl
      (by decide)).1⟩

/-- C15. When the primary-key lookup and the sample both return no row,
`updateTableRow` and `deleteTableRow` take the literal `id` as the identity
column and go on: the `UPDATE`, and the selection before the `DELETE`, are
issued on the column `id`. -/
theorem literal_id_for_empty_table :
    (∀ (σ : Type) (pool : Pool σ) (env : Option String) (req : UpdateReq) (s0 : σ)
        (pkRes : QResult) (s1 : σ) (sample : QResult) (s2 : σ),
        pool.query s0 (pkStmt env req.tableName) = (.ok pkRes, s1) → pkRes.rows = [] →
        pool.query s1 (sampleStmt req.tableName) = (.ok sample, s2) → sample.rows = [] →
        (updateIdentity pool req.tableName pkRes.rows s1).1 = "id" ∧
        ((updateTableRow pool env req s0).log =
            [pkStmt env req.tableName, sampleStmt req.tableName,
             updateStmt req.tableName "id" req.id req.data] ∨
          (updateTableRow pool env req s0).log =
            [pkStmt env req.tableName, sampleStmt req.tableName,
             updateStmt req.tableName "id" req.id req.data,
             selectByIdStmt req.tableName "id" req.id])) ∧
    (∀ (σ : Type) (pool : Pool σ) (env : Option String) (req : DeleteReq) (s0 : σ)
        (pkRes : QResult) (s1 : σ) (sample : QResult) (s2 : σ),
        pool.query s0 (pkStmt env req.tableName) = (.ok pkRes, s1) → pkRes.rows = [] →
        pool.query s1 (sampleStmt req.tableName) = (.ok sample, s2) → sample.rows = [] →
        (deleteIdentity pool req.tableName pkRes.rows s1).1 = "id" ∧
        ((deleteTableRow pool env req s0).log =
            [pkStmt env req.tableName, sampleStmt req.tableName,
             selectByIdStmt req.tableName "id" req.id] ∨
          (deleteTableRow pool env req s0).log =
            [pkStmt env req.tableName, sampleStmt req.tableName,
             selectByIdStmt req.tableName "id" req.id,
             deleteStmt req.tableName "id" req.id])) := by
  refine ⟨?_, ?_⟩
  · intro σ pool env req s0 pkRes s1 sample s2 hq hrows hs hsrows
    have hc := resolveIdentity_of_no_row σ pool req.tableName s1 sample s2 hs hsrows
    have h := updateTableRow_log_of_no_key σ pool env req s0 pkRes s1 hq hrows
    rw [hc] at h
    exact h
  · intro σ pool env req s0 pkRes s1 sample s2 hq hrows hs hsrows
    have hc := resolveIdentity_of_no_row σ pool req.tableName s1 sample s2 hs hsrows
    have h := deleteTableRow_log_of_no_key σ pool env req s0 pkRes s1 hq hrows
    rw [hc] at h
    exact h

/-- C15, worked example: an update and a deletion on the empty table `items`. -/
theorem literal_id_for_empty_table_witness :
    (updateTableRow scripted none ⟨"items", "7", [("qty", .num 6)]⟩
        [selected [], selected [], header 0 0]).log =
      [pkStmt none "items", ⟨"SELECT * FROM `items` LIMIT 1", []⟩,
       ⟨"\n      UPDATE `items` \n      SET `qty` = ? \n      WHERE `id` = ?;\n    ",
        [.num 6, .str "7"]⟩] ∧
    (updateIdentity scripted "items" [] [selected [], header 0 0]).1 = "id" ∧
    (deleteIdentity scripted "items" [] [selected [], selected []]).1 = "id" :=
  ⟨by decide!,
   (literal_id_for_empty_table.1 _ scripted none ⟨"items", "7", [("qty", .num 6)]⟩
      [selected [], selected [], header 0 0] ⟨[], 0, 0⟩ _ ⟨[], 0, 0⟩ _ rfl rfl rfl rfl).1,
   (literal_id_for_empty_table.2 _ scripted none ⟨"items", "7"⟩
      [selected [], selected [], selected []] ⟨[], 0, 0⟩ _ ⟨[], 0, 0⟩ _ rfl rfl rfl rfl).1⟩

/-! ### One chain, three handlers -/

/-- C16, counterexample: the table `people` has no declared key and its sampled
row is `{name: "Ann", Id: 3}`.  `updateTableRow` and `deleteTableRow` resolve
the identity column `Id`, and so does `addTableRow` for the body
`{name: "Bob"}`; for the body `{name: "Bob", id: 4}` `addTableRow` takes `id`
from the body, without sampling. -/
theorem addTableRow_identity_depends_on_body :
    (updateIdentity scripted "people" []
        [selected [[("name", .str "Ann"), ("Id", .num 3)]]]).1 = "Id" ∧
    (deleteIdentity scripted "people" []
        [selected [[("name", .str "Ann"), ("Id", .num 3)]]]).1 = "Id" ∧
    (addIdentity scripted "people" [("name", .str "Bob")] ⟨[], 1, 0⟩ []
        [selected [[("name", .str "Ann"), ("Id", .num 3)]]]).1 = "Id" ∧
    (addIdentity scripted "people" [("name", .str "Bob"), ("id", .num 4)] ⟨[], 1, 0⟩ []
        [selected [[("name", .str "Ann"), ("Id", .num 3)]]]).1 = "id" ∧
    (addIdentity scripted "people" [("name", .str "Bob"), ("id", .num 4)] ⟨[], 1, 0⟩ []
        [selected [[("name", .str "Ann"), ("Id", .num 3)]]]).2.2.1 = [] ∧
    ("id" : String) ≠ "Id" := by
  decide

/-- C16, as amended. `updateTableRow` and `deleteTableRow` choose the column
that the chain of the specification (declared primary key, then the first key
named `id` ignoring case, then the first key of the sampled row, then the
literal `id`) gives for the primary-key rows and the sample reply, whatever the
request is.  `addTableRow` chooses that same column when a primary-key row came
back or the body has no truthy `id` and no truthy `ID`; without a primary-key
row, a truthy `id` of the body makes it use `id`, and else a truthy `ID` makes
it use `ID`, in both cases without sampling. -/
theorem identity_resolution_follows_chain (σ : Type) (pool : Pool σ) (tableName : String)
    (pkRows : List Row) (s : σ) :
    (updateIdentity pool tableName pkRows s).1 =
        resolveIdentity pkRows (sampledKeys (pool.query s (sampleStmt tableName)).1) ∧
    (deleteIdentity pool tableName pkRows s).1 =
        resolveIdentity pkRows (sampledKeys (pool.query s (sampleStmt tableName)).1) ∧
    (∀ (data : Row) (result : QResult),
        pkRows ≠ [] ∨ (truthy (field data "id") = false ∧ truthy (field data "ID") = false) →
        (addIdentity pool tableName data result pkRows s).1 =
          resolveIdentity pkRows (sampledKeys (pool.query s (sampleStmt tableName)).1)) ∧
    (∀ (data : Row) (result : QResult), pkRows = [] → truthy (field data "id") = true →
        (addIdentity pool tableName data result pkRows s).1 = "id" ∧
          (addIdentity pool tableName data result pkRows s).2.2.1 = []) ∧
    (∀ (data : Row) (result : QResult), pkRows = [] → truthy (field data "id") = false →
        truthy (field data "ID") = true →
        (addIdentity pool tableName data result pkRows s).1 = "ID" ∧
          (addIdentity pool tableName data result pkRows s).2.2.1 = []) := by
  refine ⟨?_, ?_, ?_, ?_, ?_⟩
  · rw [updateIdentity_eq]
  · rw [deleteIdentity_eq]
  · intro data result h
    rw [addIdentity_eq σ pool tableName data result pkRows s h]
  · intro data result hpk hid
    subst hpk
    unfold addIdentity
    simp only [hid, if_true, and_self]
  · intro data result hpk hid hID
    subst hpk
    unfold addIdentity
    simp only [hid, hID, Bool.false_eq_true, if_false, if_true, and_self]

/-- C16 as amended, worked example: the table `people` of the counterexample,
asked with the bodies `{name: "Bob"}` and `{name: "Bob", id: 4}`. -/
theorem identity_resolution_follows_chain_witness :
    (addIdentity scripted "people" [("name", .str "Bob")] ⟨[], 1, 0⟩ []
        [selected [[("name", .str "Ann"), ("Id", .num 3)]]]).1 =
      resolveIdentity []
        (sampledKeys (scripted.query [selected [[("name", .str "Ann"), ("Id", .num 3)]]]
          (sampleStmt "people")).1) ∧
    ((addIdentity scripted "people" [("name", .str "Bob"), ("id", .num 4)] ⟨[], 1, 0⟩ []
        [selected [[("name", .str "Ann"), ("Id", .num 3)]]]).1 = "id" ∧
      (addIdentity scripted "people" [("name", .str "Bob"), ("id", .num 4)] ⟨[], 1, 0⟩ []
        [selected [[("name", .str "Ann"), ("Id", .num 3)]]]).2.2.1 = []) :=
  ⟨(identity_resolution_follows_chain _ scripted "people" []
      [selected [[("name", .str "Ann"), ("Id", .num 3)]]]).2.2.1
      [("name", .str "Bob")] ⟨[], 1, 0⟩ (Or.inr (by decide)),
   (identity_resolution_follows_chain _ scripted "people" []
      [selected [[("name", .str "Ann"), ("Id", .num 3)]]]).2.2.2.1
      [("name", .str "Bob"), ("id", .num 4)] ⟨[], 1, 0⟩ rfl (by decide)⟩

/-! ### The answers of `getTableData` -/

/-- A rejected sample query makes `getTableData` answer 500, whatever the
rejection is. -/
theorem getTableData_of_rejected_sample (σ : Type) (pool : Pool σ) (req : GetReq) (s0 : σ)
    (e : String) (s1 : σ) (hq : pool.query s0 (sampleStmt req.tableName) = (.error e, s1)) :
    (getTableData pool req s0).response = ⟨500, .error serverError⟩ ∧
      (getTableData pool req s0).log = [sampleStmt req.tableName] := by
  unfold getTableData
  simp only [hq, and_self]

/-- A sample without a row makes `getTableData` answer 404 after that one
statement. -/
theorem getTableData_of_empty_sample (σ : Type) (pool : Pool σ) (req : GetReq) (s0 : σ)
    (sample : QResult) (s1 : σ)
    (hq : pool.query s0 (sampleStmt req.tableName) = (.ok sample, s1))
    (hrows : sample.rows = []) :
    (getTableData pool req s0).response =
        ⟨404, .error "Таблица пуста или не существует"⟩ ∧
      (getTableData pool req s0).log = [sampleStmt req.tableName] := by
  unfold getTableData
  simp only [hq, hrows, and_self]

/-- A sample with a row never makes `getTableData` answer 404. -/
theorem getTableData_of_sampled_row (σ : Type) (pool : Pool σ) (req : GetReq) (s0 : σ)
    (sample : QResult) (s1 : σ) (first : Row) (rest : List Row)
    (hq : pool.query s0 (sampleStmt req.tableName) = (.ok sample, s1))
    (hrows : sample.rows = first :: rest) :
    (getTableData pool req s0).response.status = 500 ∨
      (getTableData pool req s0).response.status = 200 := by
  unfold getTableData
  simp only [hq, hrows]
  repeat' split
  all_goals first
    | exact Or.inl rfl
    | exact Or.inr rfl

/-- When the sample has a first row with a key and the counting query and the
row query are answered, the counting query with a row, `getTableData` answers
200 with the page body. -/
theorem getTableData_of_answers (σ : Type) (pool : Pool σ) (req : GetReq) (s0 : σ)
    (sample : QResult) (s1 : σ) (first : Row) (rest : List Row) (countRes : QResult)
    (s2 : σ) (countRow : Row) (countRest : List Row) (res : QResult) (s3 : σ)
    (hq : pool.query s0 (sampleStmt req.tableName) = (.ok sample, s1))
    (hrows : sample.rows = first :: rest) (hkeys : keys first ≠ [])
    (hc : pool.query s1 (countQuery req.tableName (keys first) req.search) =
      (.ok countRes, s2))
    (hcrows : countRes.rows = countRow :: countRest)
    (hr : pool.query s2 (rowQuery req.tableName (keys first) req.search (req.limit.getD 50)
      (offsetOf (req.page.getD 1) (req.limit.getD 50))) = (.ok res, s3)) :
    (getTableData pool req s0).response =
      ⟨200, .page res.rows (field countRow "total") (parseInt (req.page.getD 1))
        (parseInt (req.limit.getD 50)) (pagesOf (field countRow "total") (req.limit.getD 50))⟩ := by
  have hlen : ¬ (keys first).length = 0 := by
    intro h0
    exact hkeys (List.length_eq_zero.mp h0)
  unfold getTableData
  simp only [hq, hrows, hlen, if_false, hc, hcrows, hr]

/-- C17, the failing input: `GET /tables/missing/data` for a table that does not
exist.  The sample query is rejected with the error of the missing table, and
`getTableData` answers 500 with the generic message, not 404. -/
theorem getTableData_missing_table :
    (getTableData scripted ⟨"missing", none, none, none⟩
        [.error "ER_NO_SUCH_TABLE"]).response = ⟨500, .error "Ошибка сервера"⟩ ∧
    (getTableData scripted ⟨"missing", none, none, none⟩
        [.error "ER_NO_SUCH_TABLE"]).log = [⟨"SELECT * FROM `missing` LIMIT 1", []⟩] ∧
    (getTableData scripted ⟨"missing", none, none, none⟩
        [.error "ER_NO_SUCH_TABLE"]).response.status ≠ 404 := by
  decide

/-- C18. `getTableData` answers 404 exactly when the sample query is answered
without a row, for every request; it then sends an `{error}` body and has
issued the sample only.  When the sample has a first row with a key and the
counting query (with its row) and the row query are answered, it answers 200
with the rows of the row query and the total of the counting row, whatever
these are. -/
theorem getTableData_not_found_iff (σ : Type) (pool : Pool σ) (req : GetReq) (s0 : σ) :
    ((getTableData pool req s0).response.status = 404 ↔
      ∃ sample s1, pool.query s0 (sampleStmt req.tableName) = (.ok sample, s1) ∧
        sample.rows = []) ∧
    ((getTableData pool req s0).response.status = 404 →
      (∃ msg, (getTableData pool req s0).response.body = .error msg) ∧
        (getTableData pool req s0).log = [sampleStmt req.tableName]) ∧
    (∀ (sample : QResult) (s1 : σ) (first : Row) (rest : List Row) (countRes : QResult)
        (s2 : σ) (countRow : Row) (countRest : List Row) (res : QResult) (s3 : σ),
        pool.query s0 (sampleStmt req.tableName) = (.ok sample, s1) →
        sample.rows = first :: rest → keys first ≠ [] →
        pool.query s1 (countQuery req.tableName (keys first) req.search) =
          (.ok countRes, s2) →
        countRes.rows = countRow :: countRest →
        pool.query s2 (rowQuery req.tableName (keys first) req.search (req.limit.getD 50)
          (offsetOf (req.page.getD 1) (req.limit.getD 50))) = (.ok res, s3) →
        (getTableData pool req s0).response.status = 200 ∧
          ∃ page limit pages, (getTableData pool req s0).response.body =
            .page res.rows (field countRow "total") page limit pages) := by
  have hiff : (getTableData pool req s0).response.status = 404 ↔
      ∃ sample s1, pool.query s0 (sampleStmt req.tableName) = (.ok sample, s1) ∧
        sample.rows = [] := by
    constructor
    · intro h404
      rcases hq : pool.query s0 (sampleStmt req.tableName) with ⟨reply, s1⟩
      cases reply with
      | error e =>
        rw [(getTableData_of_rejected_sample σ pool req s0 e s1 hq).1] at h404
        exact absurd h404 (by decide)
      | ok sample =>
        cases hrows : sample.rows with
        | nil => exact ⟨sample, s1, rfl, hrows⟩
        | cons first rest =>
          rcases getTableData_of_sampled_row σ pool req s0 sample s1 first rest hq hrows
            with h | h
          · rw [h] at h404; exact absurd h404 (by decide)
          · rw [h] at h404; exact absurd h404 (by decide)
    · rintro ⟨sample, s1, hq, hrows⟩
      rw [(getTableData_of_empty_sample σ pool req s0 sample s1 hq hrows).1]
  refine ⟨hiff, ?_, ?_⟩
  · intro h404
    obtain ⟨sample, s1, hq, hrows⟩ := hiff.mp h404
    have h := getTableData_of_empty_sample σ pool req s0 sample s1 hq hrows
    exact ⟨⟨_, by rw [h.1]⟩, h.2⟩
  · intro sample s1 first rest countRes s2 countRow countRest res s3 hq hrows hkeys hc
      hcrows hr
    have h := getTableData_of_answers σ pool req s0 sample s1 first rest countRes s2 countRow
      countRest res s3 hq hrows hkeys hc hcrows hr
    rw [h]
    exact ⟨rfl, _, _, _, rfl⟩

/-- C18, worked example: the empty table `users` is answered 404 after the
sample alone; a search for `zz` that matches nothing in a table with rows is
answered 200 with the total 0 and no data. -/
theorem getTableData_not_found_iff_witness :
    ((∃ msg, (getTableData scripted ⟨"users", some "an", some 2, some 10⟩
          [selected []]).response.body = .error msg) ∧
      (getTableData scripted ⟨"users", some "an", some 2, some 10⟩ [selected []]).log =
        [sampleStmt "users"]) ∧
    ((getTableData scripted ⟨"users", some "zz", none, none⟩
        [selected [[("name", .str "Ann")]], selected [[("total", .num 0)]],
         selected []]).response.status = 200 ∧
      ∃ page limit pages,
        (getTableData scripted ⟨"users", some "zz", none, none⟩
          [selected [[("name", .str "Ann")]], selected [[("total", .num 0)]],
           selected []]).response.body =
          .page [] (field [("total", Value.num 0)] "total") page limit pages) :=
  ⟨(getTableData_not_found_iff _ scripted ⟨"users", some "an", some 2, some 10⟩
      [selected []]).2.1 (by decide),
   (getTableData_not_found_iff _ scripted ⟨"users", some "zz", none, none⟩
      [selected [[("name", .str "Ann")]], selected [[("total", .num 0)]], selected []]).2.2
      ⟨[[("name", .str "Ann")]], 0, 0⟩ _ [("name", .str "Ann")] []
      ⟨[[("total", .num 0)]], 0, 0⟩ _ [("total", .num 0)] [] ⟨[], 0, 0⟩ _
      rfl rfl (by decide) rfl rfl rfl⟩

/-! ### The answers of `addTableRow` -/

/-- C19. Once the `INSERT` and the primary-key lookup of `addTableRow` are
answered and the re-selection is answered too: without a row the response is
201 with the body `{message, insertId}` whose `insertId` is the one of the
`INSERT` result, whatever the body of the request holds; with rows the response
is 201 with the first of them. -/
theorem addTableRow_reselect_answers (σ : Type) (pool : Pool σ) (env : Option String)
    (req : AddReq) (s0 : σ) (result : QResult) (s1 : σ) (pkRes : QResult) (s2 : σ)
    (res : QResult) (s4 : σ) (hd : req.data ≠ [])
    (hi : pool.query s0 (insertStmt req.tableName req.data) = (.ok result, s1))
    (hp : pool.query s1 (pkStmt env req.tableName) = (.ok pkRes, s2))
    (hs : pool.query (addIdentity pool req.tableName req.data result pkRes.rows s2).2.2.2
      (reselectStmt req.tableName
        (addIdentity pool req.tableName req.data result pkRes.rows s2).1
        (addIdentity pool req.tableName req.data result pkRes.rows s2).2.1 req.data) =
      (.ok res, s4)) :
    (res.rows = [] →
      ∃ message, (addTableRow pool env req s0).response =
        ⟨201, .inserted message result.insertId⟩) ∧
    (∀ (row : Row) (rest : List Row), res.rows = row :: rest →
      (addTableRow pool env req s0).response = ⟨201, .row row⟩) := by
  have h := (addTableRow_after_lookup σ pool env req s0 result s1 pkRes s2 hd hi hp).2
  rw [hs] at h
  simp only [] at h
  constructor
  · intro hrows
    rw [hrows] at h
    exact ⟨_, h⟩
  · intro row rest hrows
    rw [hrows] at h
    exact h

/-- C19, worked example: the body `{id: 99, name: "Ann"}` on a table without a
declared key, inserted under the number 5.  When the re-selection finds
nothing the answer reports 5, not 99; when it finds the row the answer is that
row. -/
theorem addTableRow_reselect_answers_witness :
    (addTableRow scripted none ⟨"users", [("id", .num 99), ("name", .str "Ann")]⟩
        [header 1 5, selected [], selected []]).response =
      ⟨201, .inserted "Запись добавлена успешно" 5⟩ ∧
    (addTableRow scripted none ⟨"users", [("id", .num 99), ("name", .str "Ann")]⟩
        [header 1 5, selected [], selected [[("id", .num 99), ("name", .str "Ann")]]]).response =
      ⟨201, .row [("id", .num 99), ("name", .str "Ann")]⟩ ∧
    (∃ message,
      (addTableRow scripted none ⟨"users", [("id", .num 99), ("name", .str "Ann")]⟩
        [header 1 5, selected [], selected []]).response = ⟨201, .inserted message 5⟩) :=
  ⟨by decide!,
   (addTableRow_reselect_answers _ scripted none
      ⟨"users", [("id", .num 99), ("name", .str "Ann")]⟩
      [header 1 5, selected [], selected [[("id", .num 99), ("name", .str "Ann")]]]
      ⟨[], 1, 5⟩ _ ⟨[], 0, 0⟩ _ ⟨[[("id", .num 99), ("name", .str "Ann")]], 0, 0⟩ []
      (by decide) rfl rfl rfl).2 _ [] rfl,
   (addTableRow_reselect_answers _ scripted none
      ⟨"users", [("id", .num 99), ("name", .str "Ann")]⟩
      [header 1 5, selected [], selected []]
      ⟨[], 1, 5⟩ _ ⟨[], 0, 0⟩ _ ⟨[], 0, 0⟩ [] (by decide) rfl rfl rfl).1 rfl⟩

/-- C20, the failing inputs: `POST /tables/notes/data` with the body
`{"title": "x"}`, the `INSERT` being answered.  (1) When the primary-key lookup
is then rejected the answer is 500.  (2) When the sample is rejected as well
and the re-selection on the fallback column `id` is rejected, the answer is
500.  (3) A rejected sample alone is not surfaced: the answer is 201. -/
theorem addTableRow_surfaces_lookup_failure :
    ((addTableRow scripted none ⟨"notes", [("title", .str "x")]⟩
        [header 1 1, .error "PROTOCOL_CONNECTION_LOST"]).response =
        ⟨500, .error "Ошибка сервера"⟩ ∧
      (addTableRow scripted none ⟨"notes", [("title", .str "x")]⟩
        [header 1 1, .error "PROTOCOL_CONNECTION_LOST"]).log =
        [insertStmt "notes" [("title", .str "x")], pkStmt none "notes"]) ∧
    ((addTableRow scripted none ⟨"notes", [("title", .str "x")]⟩
        [header 1 1, selected [], .error "ER_LOCK_WAIT_TIMEOUT",
         .error "ER_BAD_FIELD_ERROR"]).response = ⟨500, .error "Ошибка сервера"⟩ ∧
      (addTableRow scripted none ⟨"notes", [("title", .str "x")]⟩
        [header 1 1, selected [], .error "ER_LOCK_WAIT_TIMEOUT",
         .error "ER_BAD_FIELD_ERROR"]).log =
        [insertStmt "notes" [("title", .str "x")], pkStmt none "notes",
         ⟨"SELECT * FROM `notes` LIMIT 1", []⟩,
         ⟨"SELECT * FROM `notes` WHERE `id` = ?", [.num 1]⟩]) ∧
    (addTableRow scripted none ⟨"notes", [("title", .str "x")]⟩
        [header 1 1, selected [], .error "ER_LOCK_WAIT_TIMEOUT",
         selected []]).response = ⟨201, .inserted "Запись добавлена успешно" 1⟩ := by
  decide!

/-! ### The answers of `updateTableRow` and `deleteTableRow` -/

/-- Once the primary-key lookup is answered, `updateTableRow` is decided by the
replies to the `UPDATE` and to the re-selection. -/
theorem updateTableRow_after_lookup (σ : Type) (pool : Pool σ) (env : Option String)
    (req : UpdateReq) (s0 : σ) (pkRes : QResult) (s1 : σ)
    (hp : pool.query s0 (pkStmt env req.tableName) = (.ok pkRes, s1)) :
    updateTableRow pool env req s0 =
      (match pool.query (updateIdentity pool req.tableName pkRes.rows s1).2.2
          (updateStmt req.tableName (updateIdentity pool req.tableName pkRes.rows s1).1
            req.id req.data) with
       | (.error _, s3) =>
         ⟨⟨500, .error serverError⟩,
          [pkStmt env req.tableName] ++ (updateIdentity pool req.tableName pkRes.rows s1).2.1 ++
            [updateStmt req.tableName (updateIdentity pool req.tableName pkRes.rows s1).1
              req.id req.data], s3⟩
       | (.ok result, s3) =>
         if result.affectedRows = 0 then
           ⟨⟨404, .error "Запись не найдена"⟩,
            [pkStmt env req.tableName] ++
              (updateIdentity pool req.tableName pkRes.rows s1).2.1 ++
              [updateStmt req.tableName (updateIdentity pool req.tableName pkRes.rows s1).1
                req.id req.data], s3⟩
         else
           match pool.query s3
             (selectByIdStmt req.tableName
               (updateIdentity pool req.tableName pkRes.rows s1).1 req.id) with
           | (.error _, s4) =>
             ⟨⟨500, .error serverError⟩,
              [pkStmt env req.tableName] ++
                (updateIdentity pool req.tableName pkRes.rows s1).2.1 ++
                [updateStmt req.tableName (updateIdentity pool req.tableName pkRes.rows s1).1
                  req.id req.data,
                 selectByIdStmt req.tableName
                  (updateIdentity pool req.tableName pkRes.rows s1).1 req.id], s4⟩
           | (.ok res, s4) =>
             match res.rows with
             | [] =>
               ⟨⟨404, .error "Запись не найдена после обновления"⟩,
                [pkStmt env req.tableName] ++
                  (updateIdentity pool req.tableName pkRes.rows s1).2.1 ++
                  [updateStmt req.tableName
                    (updateIdentity pool req.tableName pkRes.rows s1).1 req.id req.data,
                   selectByIdStmt req.tableName
                    (updateIdentity pool req.tableName pkRes.rows s1).1 req.id], s4⟩
             | row :: _ =>
               ⟨⟨200, .row row⟩,
                [pkStmt env req.tableName] ++
                  (updateIdentity pool req.tableName pkRes.rows s1).2.1 ++
                  [updateStmt req.tableName
                    (updateIdentity pool req.tableName pkRes.rows s1).1 req.id req.data,
                   selectByIdStmt req.tableName
                    (updateIdentity pool req.tableName pkRes.rows s1).1 req.id], s4⟩) := by
  unfold updateTableRow
  simp only [hp]

/-- Once the primary-key lookup is answered, `deleteTableRow` is decided by the
replies to the selection of the row and to the `DELETE`. -/
theorem deleteTableRow_after_lookup (σ : Type) (pool : Pool σ) (env : Option String)
    (req : DeleteReq) (s0 : σ) (pkRes : QResult) (s1 : σ)
    (hp : pool.query s0 (pkStmt env req.tableName) = (.ok pkRes, s1)) :
    deleteTableRow pool env req s0 =
      (match pool.query (deleteIdentity pool req.tableName pkRes.rows s1).2.2
          (selectByIdStmt req.tableName (deleteIdentity pool req.tableName pkRes.rows s1).1
            req.id) with
       | (.error _, s3) =>
         ⟨⟨500, .error serverError⟩,
          [pkStmt env req.tableName] ++ (deleteIdentity pool req.tableName pkRes.rows s1).2.1 ++
            [selectByIdStmt req.tableName (deleteIdentity pool req.tableName pkRes.rows s1).1
              req.id], s3⟩
       | (.ok sel, s3) =>
         match sel.rows with
         | [] =>
           ⟨⟨404, .error "Запись не найдена"⟩,
            [pkStmt env req.tableName] ++
              (deleteIdentity pool req.tableName pkRes.rows s1).2.1 ++
              [selectByIdStmt req.tableName
                (deleteIdentity pool req.tableName pkRes.rows s1).1 req.id], s3⟩
         | deletedItem :: _ =>
           match pool.query s3
             (deleteStmt req.tableName
               (deleteIdentity pool req.tableName pkRes.rows s1).1 req.id) with
           | (.error _, s4) =>
             ⟨⟨500, .error serverError⟩,
              [pkStmt env req.tableName] ++
                (deleteIdentity pool req.tableName pkRes.rows s1).2.1 ++
                [selectByIdStmt req.tableName
                  (deleteIdentity pool req.tableName pkRes.rows s1).1 req.id,
                 deleteStmt req.tableName
                  (deleteIdentity pool req.tableName pkRes.rows s1).1 req.id], s4⟩
           | (.ok result, s4) =>
             if result.affectedRows = 0 then
               ⟨⟨404, .error "Запись не найдена или не может быть удалена"⟩,
                [pkStmt env req.tableName] ++
                  (deleteIdentity pool req.tableName pkRes.rows s1).2.1 ++
                  [selectByIdStmt req.tableName
                    (deleteIdentity pool req.tableName pkRes.rows s1).1 req.id,
                   deleteStmt req.tableName
                    (deleteIdentity pool req.tableName pkRes.rows s1).1 req.id], s4⟩
             else
               ⟨⟨200, .deleted "Запись успешно удалена" deletedItem⟩,
                [pkStmt env req.tableName] ++
                  (deleteIdentity pool req.tableName pkRes.rows s1).2.1 ++
                  [selectByIdStmt req.tableName
                    (deleteIdentity pool req.tableName pkRes.rows s1).1 req.id,
                   deleteStmt req.tableName
                    (deleteIdentity pool req.tableName pkRes.rows s1).1 req.id], s4⟩) := by
  unfold deleteTableRow
  simp only [hp]

/-- A rejected primary-key lookup makes `updateTableRow` answer 500. -/
theorem updateTableRow_of_lookup_error (σ : Type) (pool : Pool σ) (env : Option String)
    (req : UpdateReq) (s0 : σ) (e : String) (s1 : σ)
    (hp : pool.query s0 (pkStmt env req.tableName) = (.error e, s1)) :
    updateTableRow pool env req s0 =
      ⟨⟨500, .error serverError⟩, [pkStmt env req.tableName], s1⟩ := by
  unfold updateTableRow
  simp only [hp]

/-- A rejected primary-key lookup makes `deleteTableRow` answer 500. -/
theorem deleteTableRow_of_lookup_error (σ : Type) (pool : Pool σ) (env : Option String)
    (req : DeleteReq) (s0 : σ) (e : String) (s1 : σ)
    (hp : pool.query s0 (pkStmt env req.tableName) = (.error e, s1)) :
    deleteTableRow pool env req s0 =
      ⟨⟨500, .error serverError⟩, [pkStmt env req.tableName], s1⟩ := by
  unfold deleteTableRow
  simp only [hp]

/-- The re-selection by id is none of the statements `updateTableRow` issues up
to and including the `UPDATE`. -/
theorem selectByIdStmt_not_before_update (σ : Type) (pool : Pool σ) (env : Option String)
    (tableName id : String) (data : Row) (pkRows : List Row) (s1 : σ) (pkColumn : String) :
    selectByIdStmt tableName pkColumn id ∉
      [pkStmt env tableName] ++ (updateIdentity pool tableName pkRows s1).2.1 ++
        [updateStmt tableName (updateIdentity pool tableName pkRows s1).1 id data] := by
  intro hmem
  simp only [List.mem_append, List.mem_singleton] at hmem
  rcases hmem with (h | h) | h
  · have hl := congrArg (fun st => st.params.length) h
    simp [selectByIdStmt, pkStmt] at hl
  · have hs := updateIdentity_issued σ pool tableName pkRows s1 _ h
    have hl := congrArg (fun st => st.params.length) hs
    simp [selectByIdStmt, sampleStmt] at hl
  · have hl := congrArg (fun st => st.sql.data.head?) h
    simp [selectByIdStmt, updateStmt, String.data_append] at hl

/-- C21. Once the primary-key lookup of `updateTableRow` and its `UPDATE` are
answered: when the `UPDATE` reports zero affected rows the response is 404
with an `{error}` body and the `UPDATE` is the last statement issued, no
re-selection being made; when it reports at least one affected row, the
handler re-selects by the same identity column and id, and an answered
re-selection gives 404 with an `{error}` body when it holds no row and 200 with
its first row otherwise.  A 200 is only ever given after an `UPDATE` that
affected a row and a re-selection that found one. -/
theorem updateTableRow_not_found_or_reselected (σ : Type) (pool : Pool σ)
    (env : Option String) (req : UpdateReq) (s0 : σ) :
    (∀ (pkRes : QResult) (s1 : σ) (result : QResult) (s3 : σ),
      pool.query s0 (pkStmt env req.tableName) = (.ok pkRes, s1) →
      pool.query (updateIdentity pool req.tableName pkRes.rows s1).2.2
        (updateStmt req.tableName (updateIdentity pool req.tableName pkRes.rows s1).1
          req.id req.data) = (.ok result, s3) →
      (result.affectedRows = 0 →
        (updateTableRow pool env req s0).response = ⟨404, .error "Запись не найдена"⟩ ∧
        (updateTableRow pool env req s0).log =
          [pkStmt env req.tableName] ++
            (updateIdentity pool req.tableName pkRes.rows s1).2.1 ++
            [updateStmt req.tableName (updateIdentity pool req.tableName pkRes.rows s1).1
              req.id req.data] ∧
        selectByIdStmt req.tableName (updateIdentity pool req.tableName pkRes.rows s1).1
          req.id ∉ (updateTableRow pool env req s0).log) ∧
      (result.affectedRows ≠ 0 →
        (updateTableRow pool env req s0).log =
          [pkStmt env req.tableName] ++
            (updateIdentity pool req.tableName pkRes.rows s1).2.1 ++
            [updateStmt req.tableName (updateIdentity pool req.tableName pkRes.rows s1).1
              req.id req.data,
             selectByIdStmt req.tableName
              (updateIdentity pool req.tableName pkRes.rows s1).1 req.id] ∧
        ∀ (res : QResult) (s4 : σ),
          pool.query s3 (selectByIdStmt req.tableName
            (updateIdentity pool req.tableName pkRes.rows s1).1 req.id) = (.ok res, s4) →
          (res.rows = [] →
            (updateTableRow pool env req s0).response =
              ⟨404, .error "Запись не найдена после обновления"⟩) ∧
          (∀ (row : Row) (rest : List Row), res.rows = row :: rest →
            (updateTableRow pool env req s0).response = ⟨200, .row row⟩))) ∧
    ((updateTableRow pool env req s0).response.status = 200 →
      ∃ (pkRes : QResult) (s1 : σ) (result : QResult) (s3 : σ) (res : QResult) (s4 : σ)
        (row : Row) (rest : List Row),
        pool.query s0 (pkStmt env req.tableName) = (.ok pkRes, s1) ∧
        pool.query (updateIdentity pool req.tableName pkRes.rows s1).2.2
          (updateStmt req.tableName (updateIdentity pool req.tableName pkRes.rows s1).1
            req.id req.data) = (.ok result, s3) ∧
        result.affectedRows ≠ 0 ∧
        pool.query s3 (selectByIdStmt req.tableName
          (updateIdentity pool req.tableName pkRes.rows s1).1 req.id) = (.ok res, s4) ∧
        res.rows = row :: rest ∧
        (updateTableRow pool env req s0).response = ⟨200, .row row⟩) := by
  constructor
  · intro pkRes s1 result s3 hp hu
    have h := updateTableRow_after_lookup σ pool env req s0 pkRes s1 hp
    rw [hu] at h
    simp only [] at h
    constructor
    · intro h0
      rw [if_pos h0] at h
      rw [h]
      refine ⟨rfl, rfl, ?_⟩
      exact selectByIdStmt_not_before_update σ pool env req.tableName req.id req.data
        pkRes.rows s1 _
    · intro h0
      rw [if_neg h0] at h
      rcases hq : pool.query s3 (selectByIdStmt req.tableName
          (updateIdentity pool req.tableName pkRes.rows s1).1 req.id) with ⟨reply, s4⟩
      rw [hq] at h
      cases reply with
      | error e =>
        simp only [] at h
        rw [h]
        refine ⟨rfl, ?_⟩
        intro res s4' hres
        simp at hres
      | ok res =>
        simp only [] at h
        cases hrows : res.rows with
        | nil =>
          rw [hrows] at h
          simp only [] at h
          rw [h]
          refine ⟨rfl, ?_⟩
          intro res' s4' hres
          simp only [Prod.mk.injEq, Except.ok.injEq] at hres
          rw [← hres.1, hrows]
          exact ⟨fun _ => rfl, fun row rest hr => by simp at hr⟩
        | cons row rest =>
          rw [hrows] at h
          simp only [] at h
          rw [h]
          refine ⟨rfl, ?_⟩
          intro res' s4' hres
          simp only [Prod.mk.injEq, Except.ok.injEq] at hres
          rw [← hres.1, hrows]
          refine ⟨fun hr => by simp at hr, fun row' rest' hr => ?_⟩
          simp only [List.cons.injEq] at hr
          rw [hr.1]
  · intro h200
    rcases hp : pool.query s0 (pkStmt env req.tableName) with ⟨reply, s1⟩
    cases reply with
    | error e =>
      rw [updateTableRow_of_lookup_error σ pool env req s0 e s1 hp] at h200
      simp at h200
    | ok pkRes =>
      have h := updateTableRow_after_lookup σ pool env req s0 pkRes s1 hp
      rcases hu : pool.query (updateIdentity pool req.tableName pkRes.rows s1).2.2
          (updateStmt req.tableName (updateIdentity pool req.tableName pkRes.rows s1).1
            req.id req.data) with ⟨ureply, s3⟩
      rw [hu] at h
      cases ureply with
      | error e =>
        simp only [] at h
        rw [h] at h200
        simp at h200
      | ok result =>
        simp only [] at h
        by_cases h0 : result.affectedRows = 0
        · rw [if_pos h0] at h
          rw [h] at h200
          simp at h200
        · rw [if_neg h0] at h
          rcases hq : pool.query s3 (selectByIdStmt req.tableName
              (updateIdentity pool req.tableName pkRes.rows s1).1 req.id) with ⟨sreply, s4⟩
          rw [hq] at h
          cases sreply with
          | error e =>
            simp only [] at h
            rw [h] at h200
            simp at h200
          | ok res =>
            simp only [] at h
            cases hrows : res.rows with
            | nil =>
              rw [hrows] at h
              simp only [] at h
              rw [h] at h200
              simp at h200
            | cons row rest =>
              rw [hrows] at h
              simp only [] at h
              exact ⟨pkRes, s1, result, s3, res, s4, row, rest, rfl, hu, h0, hq, hrows,
                by rw [h]⟩

/-- C21, worked example: `PUT /tables/users/data/7` with the body
`{"name": "Ann"}` on a table whose declared key is `id`.  An `UPDATE` that
affected no row is answered 404 and nothing is issued after it; an `UPDATE`
that affected one row is followed by the re-selection, whose first row is the
answer, and an empty re-selection is answered 404. -/
theorem updateTableRow_not_found_or_reselected_witness :
    ((updateTableRow scripted none ⟨"users", "7", [("name", .str "Ann")]⟩
        [selected [[("column_name", .str "id")]], header 0 0]).response =
        ⟨404, .error "Запись не найдена"⟩ ∧
      (updateTableRow scripted none ⟨"users", "7", [("name", .str "Ann")]⟩
        [selected [[("column_name", .str "id")]], header 0 0]).log =
        [pkStmt none "users"] ++
          (updateIdentity scripted "users" [[("column_name", .str "id")]] [header 0 0]).2.1 ++
          [updateStmt "users"
            (updateIdentity scripted "users" [[("column_name", .str "id")]] [header 0 0]).1
            "7" [("name", .str "Ann")]] ∧
      selectByIdStmt "users"
        (updateIdentity scripted "users" [[("column_name", .str "id")]] [header 0 0]).1 "7" ∉
        (updateTableRow scripted none ⟨"users", "7", [("name", .str "Ann")]⟩
          [selected [[("column_name", .str "id")]], header 0 0]).log) ∧
    (updateTableRow scripted none ⟨"users", "7", [("name", .str "Ann")]⟩
        [selected [[("column_name", .str "id")]], header 1 0,
         selected [[("id", .num 7), ("name", .str "Ann")]]]).response =
      ⟨200, .row [("id", .num 7), ("name", .str "Ann")]⟩ ∧
    (updateTableRow scripted none ⟨"users", "7", [("name", .str "Ann")]⟩
        [selected [[("column_name", .str "id")]], header 1 0, selected []]).response =
      ⟨404, .error "Запись не найдена после обновления"⟩ ∧
    (updateTableRow scripted none ⟨"users", "7", [("name", .str "Ann")]⟩
        [selected [[("column_name", .str "id")]], header 0 0]).log =
      [pkStmt none "users",
       ⟨"\n      UPDATE `users` \n      SET `name` = ? \n      WHERE `id` = ?;\n    ",
        [.str "Ann", .str "7"]⟩] :=
  ⟨(updateTableRow_not_found_or_reselected _ scripted none
      ⟨"users", "7", [("name", .str "Ann")]⟩
      [selected [[("column_name", .str "id")]], header 0 0]).1
      ⟨[[("column_name", .str "id")]], 0, 0⟩ _ ⟨[], 0, 0⟩ [] rfl rfl |>.1 rfl,
   ((updateTableRow_not_found_or_reselected _ scripted none
      ⟨"users", "7", [("name", .str "Ann")]⟩
      [selected [[("column_name", .str "id")]], header 1 0,
       selected [[("id", .num 7), ("name", .str "Ann")]]]).1
      ⟨[[("column_name", .str "id")]], 0, 0⟩ _ ⟨[], 1, 0⟩ _ rfl rfl |>.2 (by decide)).2
      ⟨[[("id", .num 7), ("name", .str "Ann")]], 0, 0⟩ [] rfl |>.2 _ [] rfl,
   ((updateTableRow_not_found_or_reselected _ scripted none
      ⟨"users", "7", [("name", .str "Ann")]⟩
      [selected [[("column_name", .str "id")]], header 1 0, selected []]).1
      ⟨[[("column_name", .str "id")]], 0, 0⟩ _ ⟨[], 1, 0⟩ _ rfl rfl |>.2 (by decide)).2
      ⟨[], 0, 0⟩ [] rfl |>.1 rfl,
   by decide!⟩

/-- No `DELETE` statement is among the statements `deleteTableRow` issues up to
and including the selection of the row. -/
theorem deleteStmt_not_before_select (σ : Type) (pool : Pool σ) (env : Option String)
    (tableName id : String) (pkRows : List Row) (s1 : σ) (t c i : String) :
    deleteStmt t c i ∉
      [pkStmt env tableName] ++ (deleteIdentity pool tableName pkRows s1).2.1 ++
        [selectByIdStmt tableName (deleteIdentity pool tableName pkRows s1).1 id] := by
  intro hmem
  simp only [List.mem_append, List.mem_singleton] at hmem
  rcases hmem with (h | h) | h
  · have hl := congrArg (fun st => st.params.length) h
    simp [deleteStmt, pkStmt] at hl
  · have hs := deleteIdentity_issued σ pool tableName pkRows s1 _ h
    have hl := congrArg (fun st => st.params.length) hs
    simp [deleteStmt, sampleStmt] at hl
  · have hl := congrArg (fun st => st.sql.data.head?) h
    simp [selectByIdStmt, deleteStmt, String.data_append] at hl

/-- C22. Once the primary-key lookup of `deleteTableRow` and the selection of
the row are answered: a selection without a row is answered 404 with an
`{error}` body, the selection being the last statement issued and no `DELETE`
statement being issued at all; a selection with rows is followed by the
`DELETE`, and an answered `DELETE` gives 404 with an `{error}` body when it
reports zero affected rows and 200 with `{message, deleted}` otherwise, where
`deleted` is the first selected row.  The response is 200 exactly when the
lookup, the selection and the `DELETE` are answered, the selection holds a row
and the `DELETE` reports at least one affected row. -/
theorem deleteTableRow_deleted_exactly_when (σ : Type) (pool : Pool σ)
    (env : Option String) (req : DeleteReq) (s0 : σ) :
    (∀ (pkRes : QResult) (s1 : σ) (sel : QResult) (s3 : σ),
      pool.query s0 (pkStmt env req.tableName) = (.ok pkRes, s1) →
      pool.query (deleteIdentity pool req.tableName pkRes.rows s1).2.2
        (selectByIdStmt req.tableName (deleteIdentity pool req.tableName pkRes.rows s1).1
          req.id) = (.ok sel, s3) →
      (sel.rows = [] →
        (deleteTableRow pool env req s0).response = ⟨404, .error "Запись не найдена"⟩ ∧
        (deleteTableRow pool env req s0).log =
          [pkStmt env req.tableName] ++
            (deleteIdentity pool req.tableName pkRes.rows s1).2.1 ++
            [selectByIdStmt req.tableName
              (deleteIdentity pool req.tableName pkRes.rows s1).1 req.id] ∧
        ∀ (t c i : String), deleteStmt t c i ∉ (deleteTableRow pool env req s0).log) ∧
      (∀ (deletedItem : Row) (rest : List Row), sel.rows = deletedItem :: rest →
        (deleteTableRow pool env req s0).log =
          [pkStmt env req.tableName] ++
            (deleteIdentity pool req.tableName pkRes.rows s1).2.1 ++
            [selectByIdStmt req.tableName
              (deleteIdentity pool req.tableName pkRes.rows s1).1 req.id,
             deleteStmt req.tableName
              (deleteIdentity pool req.tableName pkRes.rows s1).1 req.id] ∧
        ∀ (result : QResult) (s4 : σ),
          pool.query s3 (deleteStmt req.tableName
            (deleteIdentity pool req.tableName pkRes.rows s1).1 req.id) = (.ok result, s4) →
          (result.affectedRows = 0 →
            (deleteTableRow pool env req s0).response =
              ⟨404, .error "Запись не найдена или не может быть удалена"⟩) ∧
          (result.affectedRows ≠ 0 →
            (deleteTableRow pool env req s0).response =
              ⟨200, .deleted "Запись успешно удалена" deletedItem⟩))) ∧
    ((deleteTableRow pool env req s0).response.status = 200 ↔
      ∃ (pkRes : QResult) (s1 : σ) (sel : QResult) (s3 : σ) (deletedItem : Row)
        (rest : List Row) (result : QResult) (s4 : σ),
        pool.query s0 (pkStmt env req.tableName) = (.ok pkRes, s1) ∧
        pool.query (deleteIdentity pool req.tableName pkRes.rows s1).2.2
          (selectByIdStmt req.tableName (deleteIdentity pool req.tableName pkRes.rows s1).1
            req.id) = (.ok sel, s3) ∧
        sel.rows = deletedItem :: rest ∧
        pool.query s3 (deleteStmt req.tableName
          (deleteIdentity pool req.tableName pkRes.rows s1).1 req.id) = (.ok result, s4) ∧
        result.affectedRows ≠ 0) := by
  refine ⟨?_, ?_, ?_⟩
  · intro pkRes s1 sel s3 hp hsel
    have h := deleteTableRow_after_lookup σ pool env req s0 pkRes s1 hp
    rw [hsel] at h
    simp only [] at h
    constructor
    · intro hrows
      rw [hrows] at h
      simp only [] at h
      rw [h]
      refine ⟨rfl, rfl, ?_⟩
      intro t c i
      exact deleteStmt_not_before_select σ pool env req.tableName req.id pkRes.rows s1 t c i
    · intro deletedItem rest hrows
      rw [hrows] at h
      simp only [] at h
      rcases hq : pool.query s3 (deleteStmt req.tableName
          (deleteIdentity pool req.tableName pkRes.rows s1).1 req.id) with ⟨reply, s4⟩
      rw [hq] at h
      cases reply with
      | error e =>
        simp only [] at h
        rw [h]
        refine ⟨rfl, ?_⟩
        intro result s4' hres
        simp at hres
      | ok result =>
        simp only [] at h
        by_cases h0 : result.affectedRows = 0
        · rw [if_pos h0] at h
          rw [h]
          refine ⟨rfl, ?_⟩
          intro result' s4' hres
          simp only [Prod.mk.injEq, Except.ok.injEq] at hres
          rw [← hres.1]
          exact ⟨fun _ => rfl, fun hne => absurd h0 hne⟩
        · rw [if_neg h0] at h
          rw [h]
          refine ⟨rfl, ?_⟩
          intro result' s4' hres
          simp only [Prod.mk.injEq, Except.ok.injEq] at hres
          rw [← hres.1]
          exact ⟨fun hz => absurd hz h0, fun _ => rfl⟩
  · intro h200
    rcases hp : pool.query s0 (pkStmt env req.tableName) with ⟨reply, s1⟩
    cases reply with
    | error e =>
      rw [deleteTableRow_of_lookup_error σ pool env req s0 e s1 hp] at h200
      simp at h200
    | ok pkRes =>
      have h := deleteTableRow_after_lookup σ pool env req s0 pkRes s1 hp
      rcases hsel : pool.query (deleteIdentity pool req.tableName pkRes.rows s1).2.2
          (selectByIdStmt req.tableName (deleteIdentity pool req.tableName pkRes.rows s1).1
            req.id) with ⟨sreply, s3⟩
      rw [hsel] at h
      cases sreply with
      | error e =>
        simp only [] at h
        rw [h] at h200
        simp at h200
      | ok sel =>
        simp only [] at h
        cases hrows : sel.rows with
        | nil =>
          rw [hrows] at h
          simp only [] at h
          rw [h] at h200
          simp at h200
        | cons deletedItem rest =>
          rw [hrows] at h
          simp only [] at h
          rcases hq : pool.query s3 (deleteStmt req.tableName
              (deleteIdentity pool req.tableName pkRes.rows s1).1 req.id) with ⟨dreply, s4⟩
          rw [hq] at h
          cases dreply with
          | error e =>
            simp only [] at h
            rw [h] at h200
            simp at h200
          | ok result =>
            simp only [] at h
            by_cases h0 : result.affectedRows = 0
            · rw [if_pos h0] at h
              rw [h] at h200
              simp at h200
            · exact ⟨pkRes, s1, sel, s3, deletedItem, rest, result, s4, rfl, hsel, hrows,
                hq, h0⟩
  · rintro ⟨pkRes, s1, sel, s3, deletedItem, rest, result, s4, hp, hsel, hrows, hq, h0⟩
    have h := deleteTableRow_after_lookup σ pool env req s0 pkRes s1 hp
    rw [hsel] at h
    simp only [] at h
    rw [hrows] at h
    simp only [] at h
    rw [hq] at h
    simp only [] at h
    rw [if_neg h0] at h
    rw [h]

/-- C22, worked example: `DELETE /tables/users/data/1` twice in a row on the
table holding the rows 1 and 2.  The first request is answered 200 with the
row 1 as it was before the deletion; the second one, started on the state the
first one left, finds no row, is answered 404 and issues no `DELETE`. -/
theorem deleteTableRow_deleted_exactly_when_witness :
    (deleteTableRow usersTable none ⟨"users", "1"⟩
        [[("id", .num 1), ("name", .str "Ann")], [("id", .num 2), ("name", .str "Bob")]]).response =
      ⟨200, .deleted "Запись успешно удалена" [("id", .num 1), ("name", .str "Ann")]⟩ ∧
    (deleteTableRow usersTable none ⟨"users", "1"⟩
        [[("id", .num 1), ("name", .str "Ann")], [("id", .num 2), ("name", .str "Bob")]]).final =
      [[("id", .num 2), ("name", .str "Bob")]] ∧
    ((deleteTableRow usersTable none ⟨"users", "1"⟩
        (deleteTableRow usersTable none ⟨"users", "1"⟩
          [[("id", .num 1), ("name", .str "Ann")],
           [("id", .num 2), ("name", .str "Bob")]]).final).response =
        ⟨404, .error "Запись не найдена"⟩ ∧
      (deleteTableRow usersTable none ⟨"users", "1"⟩
        (deleteTableRow usersTable none ⟨"users", "1"⟩
          [[("id", .num 1), ("name", .str "Ann")],
           [("id", .num 2), ("name", .str "Bob")]]).final).log =
        [pkStmt none "users"] ++
          (deleteIdentity usersTable "users" [[("column_name", .str "id")]]
            [[("id", .num 2), ("name", .str "Bob")]]).2.1 ++
          [selectByIdStmt "users"
            (deleteIdentity usersTable "users" [[("column_name", .str "id")]]
              [[("id", .num 2), ("name", .str "Bob")]]).1 "1"] ∧
      ∀ (t c i : String), deleteStmt t c i ∉
        (deleteTableRow usersTable none ⟨"users", "1"⟩
          (deleteTableRow usersTable none ⟨"users", "1"⟩
            [[("id", .num 1), ("name", .str "Ann")],
             [("id", .num 2), ("name", .str "Bob")]]).final).log) ∧
    (deleteTableRow usersTable none ⟨"users", "1"⟩
        (deleteTableRow usersTable none ⟨"users", "1"⟩
          [[("id", .num 1), ("name", .str "Ann")],
           [("id", .num 2), ("name", .str "Bob")]]).final).log =
      [pkStmt none "users", ⟨"SELECT * FROM `users` WHERE `id` = ?", [.str "1"]⟩] :=
  ⟨((deleteTableRow_deleted_exactly_when _ usersTable none ⟨"users", "1"⟩
      [[("id", .num 1), ("name", .str "Ann")], [("id", .num 2), ("name", .str "Bob")]]).1
      ⟨[[("column_name", .str "id")]], 0, 0⟩
      [[("id", .num 1), ("name", .str "Ann")], [("id", .num 2), ("name", .str "Bob")]]
      ⟨[[("id", .num 1), ("name", .str "Ann")]], 0, 0⟩
      [[("id", .num 1), ("name", .str "Ann")], [("id", .num 2), ("name", .str "Bob")]]
      (by decide!) (by decide!) |>.2 [("id", .num 1), ("name", .str "Ann")] [] rfl).2
      ⟨[], 1, 0⟩ [[("id", .num 2), ("name", .str "Bob")]] (by decide!) |>.2 (by decide),
   by decide!,
   (deleteTableRow_deleted_exactly_when _ usersTable none ⟨"users", "1"⟩
      (deleteTableRow usersTable none ⟨"users", "1"⟩
        [[("id", .num 1), ("name", .str "Ann")],
         [("id", .num 2), ("name", .str "Bob")]]).final).1
      ⟨[[("column_name", .str "id")]], 0, 0⟩ [[("id", .num 2), ("name", .str "Bob")]]
      ⟨[], 0, 0⟩ [[("id", .num 2), ("name", .str "Bob")]]
      (by decide!) (by decide!) |>.1 rfl,
   by decide!⟩

/-- The status of an answer of `updateTableRow` is 200, 404 or 500. -/
theorem updateTableRow_status (σ : Type) (pool : Pool σ) (env : Option String)
    (req : UpdateReq) (s0 : σ) :
    (updateTableRow pool env req s0).response.status = 200 ∨
    (updateTableRow pool env req s0).response.status = 404 ∨
    (updateTableRow pool env req s0).response.status = 500 := by
  unfold updateTableRow
  simp only []
  repeat' split
  all_goals simp

/-- C23. `updateTableRow` with an empty body is never answered 400.  Whenever
its primary-key lookup is answered, it issues, after that lookup and at most a
sample, the `UPDATE` whose `SET` clause is the empty text and whose only
parameter is the id, and the answer follows the replies alone: a rejected
`UPDATE` gives 500 with an `{error}` body, an `UPDATE` reporting zero affected
rows gives 404, and one reporting an affected row leads to the re-selection,
whose first row is answered with 200. -/
theorem updateTableRow_empty_body (σ : Type) (pool : Pool σ) (env : Option String)
    (tableName id : String) (s0 : σ) :
    (updateTableRow pool env ⟨tableName, id, []⟩ s0).response.status ≠ 400 ∧
    (∀ (pkRes : QResult) (s1 : σ),
      pool.query s0 (pkStmt env tableName) = (.ok pkRes, s1) →
      updateStmt tableName (updateIdentity pool tableName pkRes.rows s1).1 id [] =
        ⟨"\n      UPDATE `" ++ tableName ++ "` \n      SET " ++ "" ++ " \n      WHERE `" ++
          (updateIdentity pool tableName pkRes.rows s1).1 ++ "` = ?;\n    ", [.str id]⟩ ∧
      (∃ rest, (updateTableRow pool env ⟨tableName, id, []⟩ s0).log =
        [pkStmt env tableName] ++ (updateIdentity pool tableName pkRes.rows s1).2.1 ++
          updateStmt tableName (updateIdentity pool tableName pkRes.rows s1).1 id [] :: rest) ∧
      (∀ (e : String) (s3 : σ),
        pool.query (updateIdentity pool tableName pkRes.rows s1).2.2
          (updateStmt tableName (updateIdentity pool tableName pkRes.rows s1).1 id []) =
          (.error e, s3) →
        (updateTableRow pool env ⟨tableName, id, []⟩ s0).response =
          ⟨500, .error "Ошибка сервера"⟩) ∧
      (∀ (result : QResult) (s3 : σ),
        pool.query (updateIdentity pool tableName pkRes.rows s1).2.2
          (updateStmt tableName (updateIdentity pool tableName pkRes.rows s1).1 id []) =
          (.ok result, s3) →
        (result.affectedRows = 0 →
          (updateTableRow pool env ⟨tableName, id, []⟩ s0).response =
            ⟨404, .error "Запись не найдена"⟩) ∧
        (result.affectedRows ≠ 0 →
          ∀ (res : QResult) (s4 : σ) (row : Row) (rest : List Row),
            pool.query s3 (selectByIdStmt tableName
              (updateIdentity pool tableName pkRes.rows s1).1 id) = (.ok res, s4) →
            res.rows = row :: rest →
            (updateTableRow pool env ⟨tableName, id, []⟩ s0).response = ⟨200, .row row⟩))) := by
  constructor
  · intro h400
    rcases updateTableRow_status σ pool env ⟨tableName, id, []⟩ s0 with h | h | h <;>
      rw [h] at h400 <;> simp at h400
  · intro pkRes s1 hp
    have h := updateTableRow_after_lookup σ pool env ⟨tableName, id, []⟩ s0 pkRes s1 hp
    simp only [] at h
    refine ⟨rfl, ?_, ?_, ?_⟩
    · rcases updateTableRow_log_of_ok σ pool env ⟨tableName, id, []⟩ s0 pkRes s1 hp with l | l
      · exact ⟨[], l⟩
      · exact ⟨[selectByIdStmt tableName (updateIdentity pool tableName pkRes.rows s1).1 id],
          by rw [l]⟩
    · intro e s3 hu
      rw [hu] at h
      simp only [] at h
      rw [h]
      rfl
    · intro result s3 hu
      rw [hu] at h
      simp only [] at h
      constructor
      · intro h0
        rw [if_pos h0] at h
        rw [h]
      · intro h0 res s4 row rest hq hrows
        rw [if_neg h0, hq] at h
        simp only [] at h
        rw [hrows] at h
        simp only [] at h
        rw [h]

/-- C23, worked example: `PUT /tables/users/data/7` with the body `{}` on a
table whose declared key is `id`.  The statement handed over is
``UPDATE `users` SET  WHERE `id` = ?`` with the parameter `"7"`; the rejection
of that text is answered 500, and the answer is not 400. -/
theorem updateTableRow_empty_body_witness :
    (updateTableRow scripted none ⟨"users", "7", []⟩
        [selected [[("column_name", .str "id")]], .error "ER_PARSE_ERROR"]).response =
      ⟨500, .error "Ошибка сервера"⟩ ∧
    (updateTableRow scripted none ⟨"users", "7", []⟩
        [selected [[("column_name", .str "id")]], .error "ER_PARSE_ERROR"]).response.status ≠
      400 ∧
    (updateTableRow scripted none ⟨"users", "7", []⟩
        [selected [[("column_name", .str "id")]], .error "ER_PARSE_ERROR"]).log =
      [pkStmt none "users",
       ⟨"\n      UPDATE `users` \n      SET  \n      WHERE `id` = ?;\n    ", [.str "7"]⟩] ∧
    (updateTableRow scripted none ⟨"users", "7", []⟩
        [selected [[("column_name", .str "id")]], header 0 0]).response =
      ⟨404, .error "Запись не найдена"⟩ :=
  ⟨((updateTableRow_empty_body _ scripted none "users" "7"
      [selected [[("column_name", .str "id")]], .error "ER_PARSE_ERROR"]).2
      ⟨[[("column_name", .str "id")]], 0, 0⟩ _ rfl).2.2.1 "ER_PARSE_ERROR" [] rfl,
   (updateTableRow_empty_body _ scripted none "users" "7"
      [selected [[("column_name", .str "id")]], .error "ER_PARSE_ERROR"]).1,
   by decide!,
   (((updateTableRow_empty_body _ scripted none "users" "7"
      [selected [[("column_name", .str "id")]], header 0 0]).2
      ⟨[[("column_name", .str "id")]], 0, 0⟩ _ rfl).2.2.2 ⟨[], 0, 0⟩ [] rfl).1 rfl⟩

end WebKonstructive
